import Mathlib

/-!
# Warzone 2100 netplay core: a verification development

Shallow embedding of `lib/netplay` (open-connection result, TCP client
connection and asynchronous connector, zstd streaming compression adapter,
TCP listening socket, TCP connection poll group) followed by the theorems
settled about it.

Conventions of the embedding

* a C++ pointer that may be null is an `Option`; `none` is `nullptr`;
* `int` values are `Int`, `size_t` and `uint32_t` values are `Nat`;
* calls into the operating system or into libraries outside the repository
  go through a record of functions that is a parameter of the embedded code,
  threading an explicit world state `W`;
* observable actions (callback invocation, allocation and release of a request,
  thread creation) are emitted as a list of `Event`s.
-/

namespace WZ

/-! ## Part I. Definitions -/

/-! ### Connections (`client_connection.h`, `tcp/tcp_client_connection.h`) -/

/-- The transport handle `tcp::Socket`, identified by its descriptor. -/
structure Socket where
  fd : Nat
deriving DecidableEq, Repr

/-- The resolved address list `SocketAddress` (`struct addrinfo`), identified by a number. -/
structure SocketAddress where
  id : Nat
deriving DecidableEq, Repr

/-- The class `tcp::TCPClientConnection`: its only data member is `Socket* socket_`. -/
structure TCPClientConnection where
  socket_ : Option Socket
deriving DecidableEq, Repr

/-- The condition of `ASSERT(socket_ != nullptr, ...)` in the constructor
`TCPClientConnection::TCPClientConnection(Socket* rawSocket)`. -/
def TCPClientConnection.ctorAssertion (rawSocket : Option Socket) : Bool :=
  rawSocket.isSome

/-- The constructor `TCPClientConnection::TCPClientConnection(Socket* rawSocket)`:
`socket_(rawSocket)`. -/
def TCPClientConnection.ctor (rawSocket : Option Socket) : TCPClientConnection :=
  ⟨rawSocket⟩

/-- An object behind an `IClientConnection*`: either the TCP implementation or an
implementation of another transport kind. -/
inductive IClientConnection where
  | tcp (c : TCPClientConnection)
  | other (kind : Nat)
deriving DecidableEq, Repr

/-! ### `open_connection_result.h` -/

/-- The struct `OpenConnectionResult`: `std::unique_ptr<IClientConnection> open_socket`,
`int error = 0`, `std::string errorString`. -/
structure OpenConnectionResult where
  open_socket : Option IClientConnection
  error : Int
  errorString : String
deriving DecidableEq, Repr

namespace OpenConnectionResult

/-- The constructor `OpenConnectionResult(int error, std::string errorString)`; `open_socket`
is default-initialised to null. -/
def ofError (error : Int) (errorString : String) : OpenConnectionResult :=
  ⟨none, error, errorString⟩

/-- The constructor `OpenConnectionResult(IClientConnection* open_socket)`; `error` keeps its
default member initialiser `0` and `errorString` is empty. -/
def ofConnection (open_socket : Option IClientConnection) : OpenConnectionResult :=
  ⟨open_socket, 0, ""⟩

/-- The member `bool hasError() const { return error != 0; }`. -/
def hasError (r : OpenConnectionResult) : Bool :=
  r.error != 0

/-- The spec's invariant, in its words: exactly one of the connection and the error is
populated, never both and never neither. -/
def exactlyOnePopulated (r : OpenConnectionResult) : Prop :=
  (r.open_socket.isSome = true ∧ r.hasError = false) ∨
  (r.open_socket.isSome = false ∧ r.hasError = true)

instance (r : OpenConnectionResult) : Decidable r.exactlyOnePopulated := by
  unfold exactlyOnePopulated; infer_instance

end OpenConnectionResult

/-! ### `tcp/tcp_client_connection.cpp`: synchronous and asynchronous open -/

/-- The functions of `lib/netplay/tcp/netsocket.h` and `lib/framework/wzapp.h` that
`tcp_client_connection.cpp` calls. Their implementation is outside the embedded sources, so
they are a parameter; `W` is the state of the world they act on. -/
structure NetApi (W : Type) where
  /-- The function `tcp::resolveHost(host, port)`: the address list, or null. -/
  resolveHost : String → Nat → W → Option SocketAddress × W
  /-- The function `tcp::getSockErr()`: the last socket error of the calling thread. -/
  getSockErr : W → Int
  /-- The function `tcp::socketOpenAny(addr, timeout)`: the opened socket, or null. -/
  socketOpenAny : SocketAddress → Nat → W → Option Socket × W
  /-- The function `tcp::deleteSocketAddress(addr)`. -/
  deleteSocketAddress : SocketAddress → W → W
  /-- The function `tcp::strSockError(err)`. -/
  strSockError : Int → String
  /-- Whether `wzThreadCreate` succeeds in this world: the thread handle, or null. -/
  wzThreadCreate : W → Option Nat × W

/-- The double quote character used inside the formatted messages. -/
def dquote : String := String.singleton (Char.ofNat 34)

/-- The function `TCPconnectionOpenAny(addr, timeout)`. -/
def TCPconnectionOpenAny {W : Type} (api : NetApi W) (addr : SocketAddress) (timeout : Nat)
    (w : W) : Option IClientConnection × W :=
  match api.socketOpenAny addr timeout w with
  | (none, w1) => (none, w1)
  | (some s, w1) => (some (IClientConnection.tcp (TCPClientConnection.ctor (some s))), w1)

/-- The function `socketOpenTCPConnectionSync(host, port)`. -/
def socketOpenTCPConnectionSync {W : Type} (api : NetApi W) (host : String) (port : Nat)
    (w : W) : OpenConnectionResult × W :=
  match api.resolveHost host port w with
  | (none, w1) =>
    let sErr := api.getSockErr w1
    (OpenConnectionResult.ofError (if sErr != 0 then sErr else -1)
      ("Cannot resolve host " ++ dquote ++ host ++ dquote ++ ": [" ++ toString sErr ++ "]: "
        ++ api.strSockError sErr), w1)
  | (some hosts, w1) =>
    match TCPconnectionOpenAny api hosts 15000 w1 with
    | (client_transient_socket, w2) =>
      let sockOpenErr := api.getSockErr w2
      let w3 := api.deleteSocketAddress hosts w2
      match client_transient_socket with
      | none =>
        (OpenConnectionResult.ofError (if sockOpenErr != 0 then sockOpenErr else -1)
          ("Cannot connect to [" ++ host ++ "]:" ++ toString port ++ ", ["
            ++ toString sockOpenErr ++ "]:" ++ api.strSockError sockOpenErr), w3)
      | some c => (OpenConnectionResult.ofConnection (some c), w3)

/-- The struct `OpenConnectionRequest`; the `std::function` callback is identified by a
number. -/
structure OpenConnectionRequest where
  host : String
  port : Nat
  callback : Nat
deriving DecidableEq, Repr

/-- Observable actions of the asynchronous connector. -/
inductive Event where
  /-- The expression `new OpenConnectionRequest()` followed by the assignments of its fields. -/
  | allocRequest (req : OpenConnectionRequest)
  /-- The statement `delete pRequest` / `delete pRequestInfo`. -/
  | freeRequest (req : OpenConnectionRequest)
  /-- A call of the callback `callback` with the result `res`. -/
  | invoke (callback : Nat) (res : OpenConnectionResult)
  /-- A successful `wzThreadCreate(openDirectTCPConnectionAsyncImpl, pRequest)`. -/
  | threadCreated (thread : Nat) (req : OpenConnectionRequest)
  /-- The call `wzThreadDetach(thread)`. -/
  | threadDetached (thread : Nat)
  /-- A join of the thread `thread` (no embedded function emits it). -/
  | threadJoined (thread : Nat)
deriving DecidableEq, Repr

/-- Number of invocations of the callback `cb` in a trace. -/
def invocations (cb : Nat) (tr : List Event) : Nat :=
  (tr.filter (fun e => match e with
    | Event.invoke c _ => c == cb
    | _ => false)).length

/-- Number of times the request `req` is released in a trace. -/
def frees (req : OpenConnectionRequest) (tr : List Event) : Nat :=
  (tr.filter (fun e => e == Event.freeRequest req)).length

/-- The thread body `openDirectTCPConnectionAsyncImpl(void* data)`: return code, world and
emitted events. -/
def openDirectTCPConnectionAsyncImpl {W : Type} (api : NetApi W)
    (data : Option OpenConnectionRequest) (w : W) : Int × W × List Event :=
  match data with
  | none => (1, w, [])
  | some pRequestInfo =>
    match socketOpenTCPConnectionSync api pRequestInfo.host pRequestInfo.port w with
    | (res, w1) =>
      (0, w1, [Event.invoke pRequestInfo.callback res, Event.freeRequest pRequestInfo])

/-- The function `socketOpenTCPConnectionAsync(host, port, callback)`, as executed by the
calling thread: return value, world and emitted events. -/
def socketOpenTCPConnectionAsync {W : Type} (api : NetApi W) (host : String) (port : Nat)
    (callback : Nat) (w : W) : Bool × W × List Event :=
  let pRequest : OpenConnectionRequest := ⟨host, port, callback⟩
  match api.wzThreadCreate w with
  | (none, w1) =>
    (false, w1, [Event.allocRequest pRequest, Event.freeRequest pRequest])
  | (some pOpenConnectionThread, w1) =>
    (true, w1, [Event.allocRequest pRequest,
      Event.threadCreated pOpenConnectionThread pRequest,
      Event.threadDetached pOpenConnectionThread])

/-- A world for concrete evaluation: the outcome of the next resolve, of the next socket
open, of the next thread creation, and the current socket error. -/
structure DemoWorld where
  resolves : Bool
  connects : Bool
  threads : Bool
  sockErr : Int
deriving DecidableEq, Repr

/-- A concrete `NetApi` over `DemoWorld`: a failing call sets the socket error to `111`. -/
def demoApi : NetApi DemoWorld where
  resolveHost := fun _ _ w =>
    if w.resolves then (some ⟨1⟩, w) else (none, ⟨w.resolves, w.connects, w.threads, 111⟩)
  getSockErr := fun w => w.sockErr
  socketOpenAny := fun _ _ w =>
    if w.connects then (some ⟨7⟩, w) else (none, ⟨w.resolves, w.connects, w.threads, 111⟩)
  deleteSocketAddress := fun _ w => w
  strSockError := fun _ => "error"
  wzThreadCreate := fun w => if w.threads then (some 1, w) else (none, w)

/-- Whether resolution of `host`/`port` fails in the world `w`: `tcp::resolveHost` yields
null. -/
def resolveFails {W : Type} (api : NetApi W) (host : String) (port : Nat) (w : W) : Bool :=
  (api.resolveHost host port w).1.isNone

/-- The socket yielded by the connect attempt `tcp::socketOpenAny(hosts, 15000)` that follows
a successful resolution; `none` when resolution failed or the attempt yields null. -/
def openedSocket {W : Type} (api : NetApi W) (host : String) (port : Nat) (w : W) :
    Option Socket :=
  match api.resolveHost host port w with
  | (none, _) => none
  | (some hosts, w1) => (api.socketOpenAny hosts 15000 w1).1

/-- Whether the connect attempt that follows a successful resolution fails. -/
def connectFails {W : Type} (api : NetApi W) (host : String) (port : Nat) (w : W) : Bool :=
  !(resolveFails api host port w) && (openedSocket api host port w).isNone

/-- The socket error `tcp::getSockErr()` reports right after the failing step (after the
resolution when it fails, after the connect attempt otherwise). -/
def osSockErr {W : Type} (api : NetApi W) (host : String) (port : Nat) (w : W) : Int :=
  match api.resolveHost host port w with
  | (none, w1) => api.getSockErr w1
  | (some hosts, w1) => api.getSockErr (api.socketOpenAny hosts 15000 w1).2

/-! ### `zstd_compression_adapter.h`, `zstd_compression_adapter.cpp`

Raw buffer pointers (`const void* src`, `void* dst`) are addresses: natural numbers, `0`
being `nullptr`, into a byte-addressed `Memory`. The zstd library is a parameter: a record
`Zstd` giving, for one streaming call, the bytes emitted, the number of input bytes consumed,
the new context and the `size_t` return code. -/

/-- A byte. -/
abbrev Byte := Nat

/-- Byte-addressed memory. -/
abbrev Memory := Nat → Byte

/-- The `n` bytes of memory starting at `addr`. -/
def readBytes (mem : Memory) (addr n : Nat) : List Byte :=
  (List.range n).map (fun i => mem (addr + i))

/-- Memory after storing `bs` at `addr`. -/
def writeBytes (mem : Memory) (addr : Nat) (bs : List Byte) : Memory :=
  fun a => if addr ≤ a ∧ a < addr + bs.length then bs.getD (a - addr) 0 else mem a

/-- The struct `ZSTD_inBuffer` of `zstd.h`: `src`, `size`, `pos`. -/
structure ZSTD_inBuffer where
  src : Nat
  size : Nat
  pos : Nat
deriving DecidableEq, Repr

/-- The struct `ZSTD_outBuffer` of `zstd.h`: `dst`, `size`, `pos`. -/
structure ZSTD_outBuffer where
  dst : Nat
  size : Nat
  pos : Nat
deriving DecidableEq, Repr

/-- The enum `ZSTD_EndDirective` of `zstd.h`. -/
inductive ZSTD_EndDirective where
  | ZSTD_e_continue
  | ZSTD_e_flush
  | ZSTD_e_end
deriving DecidableEq, Repr

/-- What one streaming call makes the codec do: its new context, the bytes it emits, the
number of input bytes it consumes and the `size_t` it returns. -/
structure CodecStep (Ctx : Type) where
  ctx : Ctx
  written : List Byte
  consumed : Nat
  ret : Nat

/-- The zstd library, as far as the adapter uses it. `compressStep ctx room input directive`
and `decompressStep ctx room input` describe one call on a context, given the free room of
the output window and the unread bytes of the input window; `isError` is `ZSTD_isError`. -/
structure Zstd (CCtx DCtx : Type) where
  compressStep : CCtx → Nat → List Byte → ZSTD_EndDirective → CodecStep CCtx
  decompressStep : DCtx → Nat → List Byte → CodecStep DCtx
  isError : Nat → Bool

/-- The state after a streaming call: context, the two windows with advanced cursors, memory
and return code. -/
structure CodecCall (Ctx : Type) where
  ctx : Ctx
  output : ZSTD_outBuffer
  input : ZSTD_inBuffer
  mem : Memory
  ret : Nat

/-- The call `ZSTD_compressStream2(cctx, &output, &input, endOp)`; `none` when `cctx` is
null. The codec reads the unread part of the input window and appends to the output window;
by the contract of `zstd.h` it never writes past `output.size` nor reads past `input.size`,
which the embedding enforces by truncation. -/
def ZSTD_compressStream2 {CCtx DCtx : Type} (z : Zstd CCtx DCtx) (cctx : Option CCtx)
    (output : ZSTD_outBuffer) (input : ZSTD_inBuffer) (endOp : ZSTD_EndDirective)
    (mem : Memory) : Option (CodecCall CCtx) :=
  match cctx with
  | none => none
  | some c =>
    let step := z.compressStep c (output.size - output.pos)
      (readBytes mem (input.src + input.pos) (input.size - input.pos)) endOp
    let written := step.written.take (output.size - output.pos)
    let consumed := min step.consumed (input.size - input.pos)
    some ⟨step.ctx, ⟨output.dst, output.size, output.pos + written.length⟩,
      ⟨input.src, input.size, input.pos + consumed⟩,
      writeBytes mem (output.dst + output.pos) written, step.ret⟩

/-- The call `ZSTD_decompressStream(dctx, &output, &input)`; `none` when `dctx` is null. -/
def ZSTD_decompressStream {CCtx DCtx : Type} (z : Zstd CCtx DCtx) (dctx : Option DCtx)
    (output : ZSTD_outBuffer) (input : ZSTD_inBuffer) (mem : Memory) :
    Option (CodecCall DCtx) :=
  match dctx with
  | none => none
  | some d =>
    let step := z.decompressStep d (output.size - output.pos)
      (readBytes mem (input.src + input.pos) (input.size - input.pos))
    let written := step.written.take (output.size - output.pos)
    let consumed := min step.consumed (input.size - input.pos)
    some ⟨step.ctx, ⟨output.dst, output.size, output.pos + written.length⟩,
      ⟨input.src, input.size, input.pos + consumed⟩,
      writeBytes mem (output.dst + output.pos) written, step.ret⟩

/-- The error value of `net::result<void>`, a `std::error_code`: a number in the network
category or in the zstd category. -/
inductive ErrorCode where
  | network (errnum : Int)
  | zstd (code : Nat)
deriving DecidableEq, Repr

/-- The constant `EBADF` of `errno.h`. -/
def EBADF : Int := 9

/-- Modelled from the spec: `make_network_error_code` of `lib/netplay/error_categories.h`
(not among the embedded sources) wraps an errno value into the generic error contract. -/
def make_network_error_code (e : Int) : ErrorCode := ErrorCode.network e

/-- Modelled from the spec: `make_zstd_error_code` of `lib/netplay/error_categories.h`
(not among the embedded sources) wraps a code of the codec library's error domain into the
generic error contract. -/
def make_zstd_error_code (res : Nat) : ErrorCode := ErrorCode.zstd res

/-- The type `net::result<void>`: success, or an error code. -/
inductive NetResult where
  | ok
  | unexpected (e : ErrorCode)
deriving DecidableEq, Repr

/-- What the execution of a function declared to return `net::result<void>` hands back:
the operand of the `return` statement it executed, or nothing when control reaches the
closing brace of the function without a `return` statement. -/
inductive Returned where
  | value (r : NetResult)
  | missing
deriving DecidableEq, Repr

/-- Allocation and release of codec contexts. -/
inductive CtxEvent where
  | createdCCtx
  | createdDCtx
  | freedCCtx
  | freedDCtx
deriving DecidableEq, Repr

/-- Number of codec contexts a trace leaves allocated: contexts created minus contexts
freed. -/
def liveContexts (tr : List CtxEvent) : Int :=
  ((tr.filter (fun e => e == CtxEvent.createdCCtx || e == CtxEvent.createdDCtx)).length : Int)
    - ((tr.filter (fun e => e == CtxEvent.freedCCtx || e == CtxEvent.freedDCtx)).length : Int)

/-- How the execution of a member function ends: with a value, by handing a null context to
the codec, or at an expression that names a variable no declaration in scope provides, where
the function is ill-formed and has no behaviour. -/
inductive Run (α : Type) where
  | done (v : α)
  | nullContext
  | undeclared (name : String)

/-- The data members of the class `ZstdCompressionAdapter`. -/
structure ZstdCompressionAdapter (CCtx DCtx : Type) where
  compressOutBufVec_ : List Byte
  decompressInBufVec_ : List Byte
  compressInBuf_ : ZSTD_inBuffer
  compressOutBuf_ : ZSTD_outBuffer
  decompressInBuf_ : ZSTD_inBuffer
  decompressOutBuf_ : ZSTD_outBuffer
  compressCtx_ : Option CCtx
  decompressCtx_ : Option DCtx
  inflateNeedInput_ : Bool

namespace ZstdCompressionAdapter

variable {CCtx DCtx : Type}

/-- The constructor `ZstdCompressionAdapter::ZstdCompressionAdapter()`: the four windows are
zeroed by `memset`; the vectors are empty, the contexts null and the flag false by their
default initialisers. -/
def ctor : ZstdCompressionAdapter CCtx DCtx :=
  ⟨[], [], ⟨0, 0, 0⟩, ⟨0, 0, 0⟩, ⟨0, 0, 0⟩, ⟨0, 0, 0⟩, none, none, false⟩

/-- The member `initialize()` (named `init` here, `initialize` being reserved in Lean).
`newCCtx` and `newDCtx` are what `ZSTD_createCCtx()` and
`ZSTD_createDCtx()` return when called (null on allocation failure). Yields the result, the
adapter and the contexts created and freed. -/
def init (a : ZstdCompressionAdapter CCtx DCtx) (newCCtx : Option CCtx)
    (newDCtx : Option DCtx) : NetResult × ZstdCompressionAdapter CCtx DCtx × List CtxEvent :=
  match newCCtx with
  | none =>
    (NetResult.unexpected (make_network_error_code EBADF),
      ⟨a.compressOutBufVec_, a.decompressInBufVec_, a.compressInBuf_, a.compressOutBuf_,
        a.decompressInBuf_, a.decompressOutBuf_, none, a.decompressCtx_,
        a.inflateNeedInput_⟩, [])
  | some c =>
    match newDCtx with
    | none =>
      (NetResult.unexpected (make_network_error_code EBADF),
        ⟨a.compressOutBufVec_, a.decompressInBufVec_, a.compressInBuf_, a.compressOutBuf_,
          a.decompressInBuf_, a.decompressOutBuf_, none, none, a.inflateNeedInput_⟩,
        [CtxEvent.createdCCtx, CtxEvent.freedCCtx])
    | some d =>
      (NetResult.ok,
        ⟨a.compressOutBufVec_, a.decompressInBufVec_, a.compressInBuf_, a.compressOutBuf_,
          a.decompressInBuf_, a.decompressOutBuf_, some c, some d, a.inflateNeedInput_⟩,
        [CtxEvent.createdCCtx, CtxEvent.createdDCtx])

/-- The member `resetCompressionStreamInput(src, size)`. -/
def resetCompressionStreamInput (a : ZstdCompressionAdapter CCtx DCtx) (src size : Nat) :
    ZstdCompressionAdapter CCtx DCtx :=
  ⟨a.compressOutBufVec_, a.decompressInBufVec_, ⟨src, size, 0⟩, a.compressOutBuf_,
    a.decompressInBuf_, a.decompressOutBuf_, a.compressCtx_, a.decompressCtx_,
    a.inflateNeedInput_⟩

/-- The member `resetDecompressionStreamOutput(dst, size)`. -/
def resetDecompressionStreamOutput (a : ZstdCompressionAdapter CCtx DCtx) (dst size : Nat) :
    ZstdCompressionAdapter CCtx DCtx :=
  ⟨a.compressOutBufVec_, a.decompressInBufVec_, a.compressInBuf_, a.compressOutBuf_,
    a.decompressInBuf_, ⟨dst, size, 0⟩, a.compressCtx_, a.decompressCtx_,
    a.inflateNeedInput_⟩

/-- The adapter after a compress-side codec call stored its context and windows back. -/
def afterCompressCall (a : ZstdCompressionAdapter CCtx DCtx) (call : CodecCall CCtx) :
    ZstdCompressionAdapter CCtx DCtx :=
  ⟨a.compressOutBufVec_, a.decompressInBufVec_, call.input, call.output,
    a.decompressInBuf_, a.decompressOutBuf_, some call.ctx, a.decompressCtx_,
    a.inflateNeedInput_⟩

/-- The adapter after a decompress-side codec call stored its context and windows back. -/
def afterDecompressCall (a : ZstdCompressionAdapter CCtx DCtx) (call : CodecCall DCtx) :
    ZstdCompressionAdapter CCtx DCtx :=
  ⟨a.compressOutBufVec_, a.decompressInBufVec_, a.compressInBuf_, a.compressOutBuf_,
    call.input, call.output, a.compressCtx_, some call.ctx, a.inflateNeedInput_⟩

/-- The member `compress(src, size)`; `none` when the codec is handed a null context. On the
path where the codec reports no error the body ends without a `return` statement. -/
def compress (z : Zstd CCtx DCtx) (a : ZstdCompressionAdapter CCtx DCtx) (src size : Nat)
    (mem : Memory) : Option (Returned × ZstdCompressionAdapter CCtx DCtx × Memory) :=
  let a1 := a.resetCompressionStreamInput src size
  match ZSTD_compressStream2 z a1.compressCtx_ a1.compressOutBuf_ a1.compressInBuf_
      ZSTD_EndDirective.ZSTD_e_continue mem with
  | none => none
  | some call =>
    if z.isError call.ret then
      some (Returned.value (NetResult.unexpected (make_zstd_error_code call.ret)),
        a1.afterCompressCall call, call.mem)
    else
      some (Returned.missing, a1.afterCompressCall call, call.mem)

/-- The member `flushCompressionStream()`:
`do { auto res = ZSTD_compressStream2(..., ZSTD_e_flush); if (ZSTD_isError(res)) { ...
return tl::make_unexpected(make_zstd_error_code(res)); } } while (res != 0); return {};`.
The variable `res` is declared in the block of the loop body; the condition `res != 0`
stands outside that block, where no declaration of `res` is in scope (the function has no
parameter and no other local variable, the class no member of that name). The embedding
executes the body and, when it does not return, ends at the condition. -/
def flushCompressionStream (z : Zstd CCtx DCtx) (a : ZstdCompressionAdapter CCtx DCtx)
    (mem : Memory) : Run (NetResult × ZstdCompressionAdapter CCtx DCtx × Memory) :=
  match ZSTD_compressStream2 z a.compressCtx_ a.compressOutBuf_ a.compressInBuf_
      ZSTD_EndDirective.ZSTD_e_flush mem with
  | none => Run.nullContext
  | some call =>
    if z.isError call.ret then
      Run.done (NetResult.unexpected (make_zstd_error_code call.ret),
        a.afterCompressCall call, call.mem)
    else
      Run.undeclared "res"

/-- The member `decompress(const void* src, size_t size)` as defined in the `.cpp` file
(declared `decompress(void* dst, size_t size)` in the header): neither parameter is used.
`none` when the codec is handed a null context. -/
def decompress (z : Zstd CCtx DCtx) (a : ZstdCompressionAdapter CCtx DCtx) (_src _size : Nat)
    (mem : Memory) : Option (NetResult × ZstdCompressionAdapter CCtx DCtx × Memory) :=
  match ZSTD_decompressStream z a.decompressCtx_ a.decompressOutBuf_ a.decompressInBuf_
      mem with
  | none => none
  | some call =>
    if z.isError call.ret then
      some (NetResult.unexpected (make_zstd_error_code call.ret),
        a.afterDecompressCall call, call.mem)
    else
      some (NetResult.ok, a.afterDecompressCall call, call.mem)

/-- The member `compressionOutBuffer()`. -/
def compressionOutBuffer (a : ZstdCompressionAdapter CCtx DCtx) : List Byte :=
  a.compressOutBufVec_

/-- The member `decompressionInBuffer()`. -/
def decompressionInBuffer (a : ZstdCompressionAdapter CCtx DCtx) : List Byte :=
  a.decompressInBufVec_

/-- The member `decompressionNeedInput()`. -/
def decompressionNeedInput (a : ZstdCompressionAdapter CCtx DCtx) : Bool :=
  a.inflateNeedInput_

/-- The member `setDecompressionNeedInput(needInput)`. -/
def setDecompressionNeedInput (a : ZstdCompressionAdapter CCtx DCtx) (needInput : Bool) :
    ZstdCompressionAdapter CCtx DCtx :=
  ⟨a.compressOutBufVec_, a.decompressInBufVec_, a.compressInBuf_, a.compressOutBuf_,
    a.decompressInBuf_, a.decompressOutBuf_, a.compressCtx_, a.decompressCtx_, needInput⟩

end ZstdCompressionAdapter

/-! ### A reference codec and the experiments of the spec -/

/-- The test `ZSTD_isError(code)` of zstd, `code > (size_t)-ZSTD_error_maxCode`, for a 64-bit
`size_t` and `ZSTD_error_maxCode = 120`. -/
def zstdIsError (code : Nat) : Bool :=
  decide (2 ^ 64 - 120 < code)

/-- The `size_t` zstd returns for `ZSTD_error_prefix_unknown` (error number 10). -/
def zstdPrefixUnknown : Nat := 2 ^ 64 - 10

/-- Compress context of the reference codec: whether the frame has been started, and the
bytes taken in but not yet emitted. -/
structure FrameCCtx where
  started : Bool
  pending : List Byte
deriving DecidableEq, Repr

/-- The magic byte that opens a frame of the reference codec. -/
def frameMagic : Byte := 40

/-- A reference streaming codec for concrete evaluation. A frame is the magic byte followed
by the payload, stored verbatim. The encoder takes in all the input it is given, emits nothing
under `ZSTD_e_continue`, emits as much pending output as there is room for under
`ZSTD_e_flush`, and returns the number of bytes left to flush. The decoder (whose context
records whether the magic byte has been read) rejects a stream that does not open with the
magic byte and otherwise copies as much payload as there is room for. -/
def frameCodec : Zstd FrameCCtx Bool where
  compressStep := fun c room input endOp =>
    let started := c.started || !input.isEmpty
    let buffered :=
      c.pending ++ (if c.started || input.isEmpty then [] else [frameMagic]) ++ input
    match endOp with
    | ZSTD_EndDirective.ZSTD_e_continue =>
      ⟨⟨started, buffered⟩, [], input.length, buffered.length⟩
    | _ =>
      ⟨⟨started, buffered.drop room⟩, buffered.take room, input.length,
        (buffered.drop room).length⟩
  decompressStep := fun seen room input =>
    if seen then
      ⟨true, input.take room, min room input.length, input.length - room⟩
    else
      match input with
      | [] => ⟨false, [], 0, 1⟩
      | b :: rest =>
        if b = frameMagic then
          ⟨true, rest.take room, 1 + min room rest.length, rest.length - room⟩
        else
          ⟨false, [], 0, zstdPrefixUnknown⟩
  isError := zstdIsError

/-- Memory holding zero everywhere. -/
def zeroMemory : Memory := fun _ => 0

/-- A freshly constructed adapter after a successful `initialize()` with the contexts of the
reference codec. -/
def frameAdapter : ZstdCompressionAdapter FrameCCtx Bool :=
  (ZstdCompressionAdapter.init ZstdCompressionAdapter.ctor (some ⟨false, []⟩) (some false)).2.1

/-- The reference adapter with one input byte `b` staged for decompression at address `8192`
(decompress input window `(8192, 1, 0)`), together with the memory holding it. -/
def stagedAdapter (b : Byte) : ZstdCompressionAdapter FrameCCtx Bool × Memory :=
  (⟨[], [], ⟨0, 0, 0⟩, ⟨0, 0, 0⟩, ⟨8192, 1, 0⟩, ⟨0, 0, 0⟩, some ⟨false, []⟩, some false, false⟩,
    writeBytes zeroMemory 8192 [b])

/-- The first half of the round-trip experiment: `compress()` is called on each chunk in
order, the caller holding the chunk at address `buf`. -/
def compressChunks {CCtx DCtx : Type} (z : Zstd CCtx DCtx) (buf : Nat) :
    List (List Byte) → ZstdCompressionAdapter CCtx DCtx → Memory →
      Option (ZstdCompressionAdapter CCtx DCtx × Memory)
  | [], a, mem => some (a, mem)
  | c :: cs, a, mem =>
    match ZstdCompressionAdapter.compress z a buf c.length (writeBytes mem buf c) with
    | none => none
    | some (_, a1, mem1) => compressChunks z buf cs a1 mem1

/-- The round-trip experiment up to the flush: `compress()` on each chunk, then
`flushCompressionStream()`. -/
def compressThenFlush {CCtx DCtx : Type} (z : Zstd CCtx DCtx) (buf : Nat)
    (chunks : List (List Byte)) (a : ZstdCompressionAdapter CCtx DCtx)
    (mem : Memory) : Run (NetResult × ZstdCompressionAdapter CCtx DCtx × Memory) :=
  match compressChunks z buf chunks a mem with
  | none => Run.nullContext
  | some (a1, mem1) => ZstdCompressionAdapter.flushCompressionStream z a1 mem1

/-- The spec's condition, in its words: the decoder has fully consumed the current input
chunk (the decompress input cursor equals the input size) and cannot produce further output
without more input (given no input it emits nothing, whatever the room). -/
def decoderStarved {CCtx DCtx : Type} (z : Zstd CCtx DCtx)
    (a : ZstdCompressionAdapter CCtx DCtx) : Prop :=
  a.decompressInBuf_.pos = a.decompressInBuf_.size ∧
  ∀ d, a.decompressCtx_ = some d → ∀ room, (z.decompressStep d room []).written = []

/-! ### Experiments on the flush step and on the decompress output window -/

/-- The adapter and memory after `n` codec calls `ZSTD_compressStream2(..., ZSTD_e_flush)` on
the adapter's windows, each storing the context and the windows back as the body of the loop
of `flushCompressionStream()` does, whatever their results; `none` when the compress context
is null. -/
def afterFlushSteps {CCtx DCtx : Type} (z : Zstd CCtx DCtx) :
    Nat → ZstdCompressionAdapter CCtx DCtx → Memory →
      Option (ZstdCompressionAdapter CCtx DCtx × Memory)
  | 0, a, mem => some (a, mem)
  | n + 1, a, mem =>
    match ZSTD_compressStream2 z a.compressCtx_ a.compressOutBuf_ a.compressInBuf_
        ZSTD_EndDirective.ZSTD_e_flush mem with
    | none => none
    | some call => afterFlushSteps z n (a.afterCompressCall call) call.mem

/-- The result the codec returns from flush step number `n` (counting from `0`) of a sequence
of flush steps started on `a` and `mem`. -/
def flushResult {CCtx DCtx : Type} (z : Zstd CCtx DCtx) (n : Nat)
    (a : ZstdCompressionAdapter CCtx DCtx) (mem : Memory) : Option Nat :=
  match afterFlushSteps z n a mem with
  | none => none
  | some (a1, mem1) =>
    (ZSTD_compressStream2 z a1.compressCtx_ a1.compressOutBuf_ a1.compressInBuf_
      ZSTD_EndDirective.ZSTD_e_flush mem1).map (fun call => call.ret)

/-- A codec for concrete evaluation whose compress context is the list of the results its
next steps return (`0` once the list is used up); it consumes and emits nothing. -/
def scriptedCodec : Zstd (List Nat) Unit where
  compressStep := fun script _ _ _ => ⟨script.tail, [], 0, script.headD 0⟩
  decompressStep := fun _ _ _ => ⟨(), [], 0, 0⟩
  isError := zstdIsError

/-- A freshly constructed adapter initialised with the scripted codec's contexts. -/
def scriptedAdapter (script : List Nat) : ZstdCompressionAdapter (List Nat) Unit :=
  (ZstdCompressionAdapter.init ZstdCompressionAdapter.ctor (some script) (some ())).2.1

/-- The reference adapter with the two-byte frame `[40, 65]` (magic, payload `65`) staged for
decompression at address `8192`, together with the memory holding it. -/
def stagedFrame : ZstdCompressionAdapter FrameCCtx Bool × Memory :=
  (⟨[], [], ⟨0, 0, 0⟩, ⟨0, 0, 0⟩, ⟨8192, 2, 0⟩, ⟨0, 0, 0⟩, some ⟨false, []⟩, some false, false⟩,
    writeBytes zeroMemory 8192 [40, 65])

/-! ### Assertions (`lib/framework/debug.h`)

The macros `ASSERT` and `ASSERT_OR_RETURN` are outside the embedded sources. A failed
assertion is reported; whether it then stops the program depends on the build and on the
assertion handler, so the embedded functions take that as the parameter `assertHalts`. When
it does not stop the program, execution continues after an `ASSERT` (hence the test that
follows it in `accept()`), and `ASSERT_OR_RETURN(retval, ...)` returns `retval`. -/

/-- How a call ends: it returns a value, a failed assertion stops the program, or a null
pointer is dereferenced. -/
inductive Outcome (α : Type) where
  | returned (v : α)
  | assertHalt
  | nullDeref
deriving DecidableEq, Repr

/-! ### `listen_socket.h`, `tcp/tcp_listen_socket.h`, `tcp/tcp_listen_socket.cpp` -/

/-- The functions of `lib/netplay/tcp/netsocket.h` that `tcp_listen_socket.cpp` calls, over
a world `W` that holds the socket objects. `socketHasIPv4` and `socketHasIPv6` take the socket
object by const reference: they read it as it is in the world at the time of the call and
change nothing. -/
structure ListenApi (W : Type) where
  /-- The function `tcp::socketAccept(sock)`: the accepted socket, or null. -/
  socketAccept : Socket → W → Option Socket × W
  /-- The function `tcp::socketHasIPv4(sock)`, on the object `sock` refers to. -/
  socketHasIPv4 : Socket → W → Bool
  /-- The function `tcp::socketHasIPv6(sock)`, on the object `sock` refers to. -/
  socketHasIPv6 : Socket → W → Bool
  /-- The function `tcp::socketListen(port)`: the listening socket, or null. -/
  socketListen : Nat → W → Option Socket × W

/-- The enumerator `IListenSocket::IPVersions::IPV4 = 0b00000001`. -/
def IPV4 : Nat := 1

/-- The enumerator `IListenSocket::IPVersions::IPV6 = 0b00000010`. -/
def IPV6 : Nat := 2

/-- The class `tcp::TCPListenSocket`: its only data member is `tcp::Socket* listenSocket_`,
which no member function assigns after construction. -/
structure TCPListenSocket where
  listenSocket_ : Option Socket
deriving DecidableEq, Repr

namespace TCPListenSocket

/-- The constructor `TCPListenSocket::TCPListenSocket(Socket* rawSocket)`. -/
def ctor (rawSocket : Option Socket) : TCPListenSocket :=
  ⟨rawSocket⟩

/-- The condition of `ASSERT(listenSocket_ != nullptr, ...)` in `accept()`. -/
def acceptAssertion (ls : TCPListenSocket) : Bool :=
  ls.listenSocket_.isSome

/-- The member `accept()`. -/
def accept {W : Type} (assertHalts : Bool) (api : ListenApi W) (ls : TCPListenSocket) (w : W) :
    Outcome (Option IClientConnection × W) :=
  match ls.listenSocket_ with
  | none => if assertHalts then Outcome.assertHalt else Outcome.returned (none, w)
  | some l =>
    match api.socketAccept l w with
    | (none, w1) => Outcome.returned (none, w1)
    | (some s, w1) =>
      Outcome.returned (some (IClientConnection.tcp (TCPClientConnection.ctor (some s))), w1)

/-- The member `supportedIpVersions()`, called in the world `w`; it dereferences
`listenSocket_` without a test and computes the mask from the two queries at each call. -/
def supportedIpVersions {W : Type} (api : ListenApi W) (ls : TCPListenSocket) (w : W) :
    Outcome Nat :=
  match ls.listenSocket_ with
  | none => Outcome.nullDeref
  | some l =>
    let resMask := 0
    let resMask := if api.socketHasIPv4 l w then resMask ||| IPV4 else resMask
    let resMask := if api.socketHasIPv6 l w then resMask ||| IPV6 else resMask
    Outcome.returned resMask

end TCPListenSocket

/-- The function `openTCPListenSocket(port)`. -/
def openTCPListenSocket {W : Type} (api : ListenApi W) (port : Nat) (w : W) :
    Option TCPListenSocket × W :=
  match api.socketListen port w with
  | (none, w1) => (none, w1)
  | (some s, w1) => (some (TCPListenSocket.ctor (some s)), w1)

/-- The socket the underlying accept yields for the listening socket `ls` in the world `w`:
`none` when `tcp::socketAccept` yields null, and when there is no listening socket to call
it on. -/
def acceptedSocket {W : Type} (api : ListenApi W) (ls : TCPListenSocket) (w : W) :
    Option Socket :=
  match ls.listenSocket_ with
  | none => none
  | some l => (api.socketAccept l w).1

/-- A concrete `ListenApi` over the world "number of pending inbound connections": an accept
takes one pending connection and yields the socket `100 + n`; a socket accepts IPv4 when its
descriptor is odd and IPv6 when its descriptor is at least `2`. -/
def demoListenApi : ListenApi Nat where
  socketAccept := fun _ n => if n = 0 then (none, 0) else (some ⟨100 + n⟩, n - 1)
  socketHasIPv4 := fun s _ => s.fd % 2 == 1
  socketHasIPv6 := fun s _ => decide (2 ≤ s.fd)
  socketListen := fun port n => (some ⟨port⟩, n)

/-- The functions of `lib/netplay/tcp/netsocket.h` on a wait-set of type `S`. -/
structure SocketSetApi (S W : Type) where
  /-- The function `tcp::SocketSet_AddSocket(set, socket)`. -/
  SocketSet_AddSocket : S → Option Socket → S
  /-- The function `tcp::SocketSet_DelSocket(set, socket)`. -/
  SocketSet_DelSocket : S → Option Socket → S
  /-- The function `tcp::checkSockets(set, timeout)`. -/
  checkSockets : S → Nat → W → Int × W
  /-- The socket pointers held by a wait-set. -/
  fds : S → Finset (Option Socket)

/-- The contract of the wait-set functions used for the membership invariant: adding brings
in no socket other than the one given, and deleting brings in none. -/
def SocketSetApi.Conservative {S W : Type} (api : SocketSetApi S W) : Prop :=
  (∀ set socket, api.fds (api.SocketSet_AddSocket set socket) ⊆ insert socket (api.fds set)) ∧
  (∀ set socket, api.fds (api.SocketSet_DelSocket set socket) ⊆ api.fds set)

/-- The class `tcp::TCPConnectionPollGroup`: its only data member is `SocketSet* sset_`; the
wait-set it points to is held by value. -/
structure TCPConnectionPollGroup (S : Type) where
  sset_ : Option S
deriving DecidableEq, Repr

/-- The expression `dynamic_cast<TCPClientConnection*>(conn)`: null for a null pointer and
for an object of another class. -/
def dynamicCastTCP : Option IClientConnection → Option TCPClientConnection
  | some (IClientConnection.tcp c) => some c
  | _ => none

namespace TCPConnectionPollGroup

variable {S W : Type}

/-- The condition `tcpConn != nullptr` of `ASSERT_OR_RETURN` in `add` and `remove`. -/
def kindAssertion (conn : Option IClientConnection) : Bool :=
  (dynamicCastTCP conn).isSome

/-- The sockets in the wait-set of a poll group. -/
def members (api : SocketSetApi S W) (g : TCPConnectionPollGroup S) : Finset (Option Socket) :=
  match g.sset_ with
  | none => ∅
  | some set => api.fds set

/-- The member `checkSockets(timeout)`: `return tcp::checkSockets(*sset_, timeout);`. -/
def checkSockets (api : SocketSetApi S W) (g : TCPConnectionPollGroup S) (timeout : Nat)
    (w : W) : Outcome (Int × W) :=
  match g.sset_ with
  | none => Outcome.nullDeref
  | some set => Outcome.returned (api.checkSockets set timeout w)

/-- The member `add(conn)`. -/
def add (assertHalts : Bool) (api : SocketSetApi S W) (g : TCPConnectionPollGroup S)
    (conn : Option IClientConnection) : Outcome (TCPConnectionPollGroup S) :=
  match dynamicCastTCP conn with
  | none => if assertHalts then Outcome.assertHalt else Outcome.returned g
  | some tcpConn =>
    match g.sset_ with
    | none => Outcome.nullDeref
    | some set => Outcome.returned ⟨some (api.SocketSet_AddSocket set tcpConn.socket_)⟩

/-- The member `remove(conn)`. -/
def remove (assertHalts : Bool) (api : SocketSetApi S W) (g : TCPConnectionPollGroup S)
    (conn : Option IClientConnection) : Outcome (TCPConnectionPollGroup S) :=
  match dynamicCastTCP conn with
  | none => if assertHalts then Outcome.assertHalt else Outcome.returned g
  | some tcpConn =>
    match g.sset_ with
    | none => Outcome.nullDeref
    | some set => Outcome.returned ⟨some (api.SocketSet_DelSocket set tcpConn.socket_)⟩

end TCPConnectionPollGroup

/-- A call on a poll group: `add(conn)` or `remove(conn)`. -/
inductive PollOp where
  | add (conn : Option IClientConnection)
  | remove (conn : Option IClientConnection)
deriving DecidableEq, Repr

/-- A sequence of `add` and `remove` calls on a poll group, in order; it ends where a call
does not return. -/
def runPollOps {S W : Type} (assertHalts : Bool) (api : SocketSetApi S W) :
    List PollOp → TCPConnectionPollGroup S → Outcome (TCPConnectionPollGroup S)
  | [], g => Outcome.returned g
  | PollOp.add conn :: ops, g =>
    match TCPConnectionPollGroup.add assertHalts api g conn with
    | Outcome.returned g1 => runPollOps assertHalts api ops g1
    | Outcome.assertHalt => Outcome.assertHalt
    | Outcome.nullDeref => Outcome.nullDeref
  | PollOp.remove conn :: ops, g =>
    match TCPConnectionPollGroup.remove assertHalts api g conn with
    | Outcome.returned g1 => runPollOps assertHalts api ops g1
    | Outcome.assertHalt => Outcome.assertHalt
    | Outcome.nullDeref => Outcome.nullDeref

/-- Modelled from the spec: the wait-set `tcp::SocketSet` of `lib/netplay/tcp/netsocket.h`
(not among the embedded sources), "a set of Connection references with no ordering
guarantee": the set of the socket pointers registered. -/
structure SocketSet where
  fds : Finset (Option Socket)
deriving DecidableEq

/-- Modelled from the spec: `tcp::SocketSet_AddSocket` (not among the embedded sources)
registers a socket with the wait-set. -/
def SocketSet_AddSocket (set : SocketSet) (socket : Option Socket) : SocketSet :=
  ⟨insert socket set.fds⟩

/-- Modelled from the spec: `tcp::SocketSet_DelSocket` (not among the embedded sources)
unregisters a socket from the wait-set. -/
def SocketSet_DelSocket (set : SocketSet) (socket : Option Socket) : SocketSet :=
  ⟨set.fds.erase socket⟩

/-- What the readiness-wait primitive of the operating system reports for a wait on a set of
sockets: an error, or the sockets that became read-ready within the timeout (none of them on
a timeout). -/
inductive WaitResult where
  | error
  | ready (sockets : Finset (Option Socket))

/-- The world of the readiness wait: the primitive itself, given the sockets waited on and
the timeout, and the number of waits performed so far. -/
structure WaitWorld where
  wait : Finset (Option Socket) → Nat → WaitResult
  waits : Nat

/-- The value `SOCKET_ERROR` reported on a wait error. -/
def SOCKET_ERROR : Int := -1

/-- Modelled from the spec: `tcp::checkSockets(set, timeout)` (not among the embedded
sources) "blocks up to `timeoutMs` waiting for at least one member to become read-ready;
returns the count of ready members (0 on timeout, negative on an OS-level wait error)", and
on a set with zero members "returns a defined no-members result without waiting", taken to
be the count `0`. -/
def tcp_checkSockets (set : SocketSet) (timeout : Nat) (w : WaitWorld) : Int × WaitWorld :=
  if set.fds = ∅ then (0, w)
  else
    match w.wait set.fds timeout with
    | WaitResult.error => (SOCKET_ERROR, ⟨w.wait, w.waits + 1⟩)
    | WaitResult.ready sockets => (((sockets ∩ set.fds).card : Int), ⟨w.wait, w.waits + 1⟩)

/-- The wait-set functions modelled from the spec, as a `SocketSetApi`. -/
def specSocketSetApi : SocketSetApi SocketSet WaitWorld where
  SocketSet_AddSocket := SocketSet_AddSocket
  SocketSet_DelSocket := SocketSet_DelSocket
  checkSockets := tcp_checkSockets
  fds := fun set => set.fds

/-- Whether a socket pointer is non-null with an even descriptor. -/
def evenSocket : Option Socket → Bool
  | some s => s.fd % 2 == 0
  | none => false

/-- A world for concrete evaluation in which every socket waited on with an even descriptor
is read-ready and no wait has been performed yet. -/
def demoWaitWorld : WaitWorld :=
  ⟨fun sockets _ => WaitResult.ready (sockets.filter (fun p => evenSocket p = true)), 0⟩

/-! ### Constants of the game headers used by `src/map.cpp` and `src/mission.cpp`

The headers that define them (`map.h`, `gtime.h`, the terrain types of the map library) are
outside the embedded sources, so the constants are a parameter of the embedded functions. -/

/-- The constants of the headers, as far as the embedded functions use them. -/
structure MapConsts where
  /-- The constant `TILE_SHIFT`; `TILE_UNITS` is `1 << TILE_SHIFT`. -/
  TILE_SHIFT : Nat
  /-- The constant `GAME_TICKS_PER_UPDATE`. -/
  GAME_TICKS_PER_UPDATE : Nat
  /-- The bit `BITS_ON_FIRE` of `tileInfoBits`. -/
  BITS_ON_FIRE : Nat
  /-- The mask `AUXBITS_ALL`. -/
  AUXBITS_ALL : Nat
  /-- The blocking bit `FEATURE_BLOCKED`. -/
  FEATURE_BLOCKED : Nat
  /-- The blocking bit `WATER_BLOCKED`. -/
  WATER_BLOCKED : Nat
  /-- The blocking bit `LAND_BLOCKED`. -/
  LAND_BLOCKED : Nat
  /-- The terrain type `TER_WATER`. -/
  TER_WATER : Nat
  /-- The terrain type `TER_CLIFFFACE`. -/
  TER_CLIFFFACE : Nat
  /-- The bound `TER_MAX` of the terrain types. -/
  TER_MAX : Nat
  /-- The size `MAX_TILE_TEXTURES` of the table `terrainTypes`. -/
  MAX_TILE_TEXTURES : Nat
  /-- The bound `TILE_MAX_HEIGHT` on loaded tile heights. -/
  TILE_MAX_HEIGHT : Nat
deriving DecidableEq, Repr

/-- The constant `TILE_UNITS`, `1 << TILE_SHIFT`. -/
def MapConsts.TILE_UNITS (c : MapConsts) : Int := 2 ^ c.TILE_SHIFT

/-- The values the constants have in the game headers, for concrete evaluation:
`TILE_SHIFT = 7`, `GAME_TICKS_PER_UPDATE = 100`, `BITS_ON_FIRE = 0x10`, `AUXBITS_ALL = 0xff`,
`FEATURE_BLOCKED = 0x02`, `WATER_BLOCKED = 0x04`, `LAND_BLOCKED = 0x08`, `TER_WATER = 7`,
`TER_CLIFFFACE = 8`, `TER_MAX = 12`, `MAX_TILE_TEXTURES = 255`, `TILE_MAX_HEIGHT = 510`. -/
def wzConsts : MapConsts :=
  ⟨7, 100, 16, 255, 2, 4, 8, 7, 8, 12, 255, 510⟩

/-! ### `src/map.cpp`: `SetDecals` -/

/-- The constant `#define MAX_TERRAIN_TILES 0x0200`. -/
def MAX_TERRAIN_TILES : Nat := 512

/-- The conversion `(unsigned)i` of an `int`. -/
def toUnsigned32 (i : Int) : Nat := (i % 2 ^ 32).toNat

/-- How the writes `mapDecals[tiledecal] = true` of `SetDecals` end: with the array
`mapDecals`, or at a write outside its bounds. -/
inductive DecalWrite where
  | written (mapDecals : List Bool)
  | outOfBounds (index : Int)
deriving DecidableEq, Repr

/-- The loop of `SetDecals` over the records of the decal file. An element of the list is the
value the variable `tiledecal` holds after the `sscanf` of one record: the parsed number, or
`-1` when nothing parses. -/
def SetDecals_loop : List Int → List Bool → DecalWrite
  | [], mapDecals => DecalWrite.written mapDecals
  | tiledecal :: rest, mapDecals =>
    if toUnsigned32 tiledecal > MAX_TERRAIN_TILES then
      SetDecals_loop rest mapDecals
    else if 0 ≤ tiledecal ∧ tiledecal.toNat < mapDecals.length then
      SetDecals_loop rest (mapDecals.set tiledecal.toNat true)
    else
      DecalWrite.outOfBounds tiledecal

/-- The function `SetDecals` from the allocation of `mapDecals` on:
`mapDecals = std::make_unique<bool[]>(MAX_TERRAIN_TILES)` followed by the loop. Loading and
parsing the text of the file is left to the caller of the embedding. -/
def SetDecals (tiledecals : List Int) : DecalWrite :=
  SetDecals_loop tiledecals (List.replicate MAX_TERRAIN_TILES false)

/-! ### `src/map.cpp`: `tileSetFire` -/

/-- The fields of `MAPTILE` the embedded functions use. -/
structure MAPTILE where
  tileInfoBits : Nat
  texture : Nat
  height : Int
  ground : Nat
  limitedContinent : Nat
  hoverContinent : Nat
  fireEndTime : Nat
  waterLevel : Int
deriving DecidableEq, Repr

/-- The difference `(uint16_t)(a - b)` of two `uint16_t` values. -/
def sub16 (a b : Nat) : Nat := (a + 2 ^ 16 - b % 2 ^ 16) % 2 ^ 16

/-- The value `currentTime` of `tileSetFire`: `(uint16_t)(gameTime / GAME_TICKS_PER_UPDATE)`. -/
def fireCurrentTime (c : MapConsts) (gameTime : Nat) : Nat :=
  (gameTime / c.GAME_TICKS_PER_UPDATE) % 2 ^ 16

/-- The value `fireEndTime` of `tileSetFire`:
`(uint16_t)((gameTime + duration) / GAME_TICKS_PER_UPDATE)`, the sum being a `uint32_t`. -/
def fireEndTick (c : MapConsts) (gameTime duration : Nat) : Nat :=
  (((gameTime + duration) % 2 ^ 32) / c.GAME_TICKS_PER_UPDATE) % 2 ^ 16

/-- The function `tileSetFire(x, y, duration)`, acting on the tile `mapTile(map_coord(x),
map_coord(y))` it looks up, at game time `gameTime`. -/
def tileSetFire (c : MapConsts) (gameTime duration : Nat) (tile : MAPTILE) : MAPTILE :=
  let currentTime := fireCurrentTime c gameTime
  let fireEndTime := fireEndTick c gameTime duration
  if currentTime == fireEndTime then
    tile
  else if (tile.tileInfoBits &&& c.BITS_ON_FIRE) != 0
      && decide (sub16 fireEndTime currentTime < sub16 tile.fireEndTime currentTime) then
    tile
  else
    { tile with tileInfoBits := tile.tileInfoBits ||| c.BITS_ON_FIRE, fireEndTime := fireEndTime }

/-- The test `TileIsBurning(tile)`: `(tile->tileInfoBits & BITS_ON_FIRE) != 0`. -/
def TileIsBurning (c : MapConsts) (tile : MAPTILE) : Bool :=
  (tile.tileInfoBits &&& c.BITS_ON_FIRE) != 0

/-- The remaining burn time of a tile at game time `gameTime`, in update ticks modulo
`2 ^ 16`: `(uint16_t)(tile->fireEndTime - currentTime)`. -/
def remainingBurn (c : MapConsts) (gameTime : Nat) (tile : MAPTILE) : Nat :=
  sub16 tile.fireEndTime (fireCurrentTime c gameTime)

/-! ### `src/map.cpp`: `loadTerrainTypeMap` -/

/-- The loop of `loadTerrainTypeMap` from index `i` on, over the entries not yet visited:
the return value and the table `terrainTypes`. -/
def loadTerrainTypeMap_loop (c : MapConsts) : Nat → List Nat → List Nat → Bool × List Nat
  | _, [], terrainTypes => (true, terrainTypes)
  | i, type :: rest, terrainTypes =>
    if type > c.TER_MAX then
      (false, terrainTypes)
    else
      loadTerrainTypeMap_loop c (i + 1) rest (terrainTypes.set i (type % 256))

/-- The number of entries `loadTerrainTypeMap` visits: `quantity`, after the workaround. -/
def terrainTypeQuantity (c : MapConsts) (n : Nat) : Nat :=
  if n ≥ c.MAX_TILE_TEXTURES then c.MAX_TILE_TEXTURES - 1 else n

/-- The function `loadTerrainTypeMap(ttypeData)`: the return value and the table
`terrainTypes` afterwards, given the table before. A null `ttypeData` fails
`ASSERT_OR_RETURN(false, ...)`. -/
def loadTerrainTypeMap (c : MapConsts) (assertHalts : Bool) (ttypeData : Option (List Nat))
    (terrainTypes : List Nat) : Outcome (Bool × List Nat) :=
  match ttypeData with
  | none => if assertHalts then Outcome.assertHalt else Outcome.returned (false, terrainTypes)
  | some data =>
    let quantity := terrainTypeQuantity c data.length
    Outcome.returned (loadTerrainTypeMap_loop c 0 (data.take quantity)
      (List.replicate c.MAX_TILE_TEXTURES 0))

/-! ### `src/mission.cpp`: `swapMissionPointers`, `setMissionCheatTime`,
`intUpdateMissionTimer`

Owning pointers and list containers are identified by a number; an array of them is a function
from the index, of which the indices below the size of the array are the elements. -/

/-- The fields of the global `mission` (struct `MISSION`) the embedded functions use. -/
structure MISSION where
  psMapTiles : Nat
  mapWidth : Int
  mapHeight : Int
  psBlockMap : Nat → Nat
  psAuxMap : Nat → Nat
  psGateways : Nat
  scrollMinX : Int
  scrollMinY : Int
  scrollMaxX : Int
  scrollMaxY : Int
  apsDroidLists : Nat → Nat
  apsStructLists : Nat → Nat
  apsFeatureLists : Nat → Nat
  apsFlagPosLists : Nat → Nat
  apsExtractorLists : Nat → Nat
  apsSensorList : Nat → Nat
  apsOilList : Nat → Nat
  startTime : Nat
  cheatTime : Nat
  time : Int

/-- The current-side globals `swapMissionPointers` exchanges with `mission`: `psMapTiles`,
`mapWidth`, `mapHeight`, `psBlockMap`, `psAuxMap`, the gateway list `gwGetGateways()`, the
scroll limits and the object lists. -/
structure CurrentGame where
  psMapTiles : Nat
  mapWidth : Int
  mapHeight : Int
  psBlockMap : Nat → Nat
  psAuxMap : Nat → Nat
  gateways : Nat
  scrollMinX : Int
  scrollMinY : Int
  scrollMaxX : Int
  scrollMaxY : Int
  apsDroidLists : Nat → Nat
  apsStructLists : Nat → Nat
  apsFeatureLists : Nat → Nat
  apsFlagPosLists : Nat → Nat
  apsExtractorLists : Nat → Nat
  apsSensorList : Nat → Nat
  apsOilList : Nat → Nat

/-- The sizes of the arrays: `AUX_MAX` and `MAX_PLAYERS`; `ARRAY_SIZE(mission.psBlockMap)` is
`AUX_MAX` and `ARRAY_SIZE(mission.psAuxMap)` is `MAX_PLAYERS + AUX_MAX`. -/
structure ArraySizes where
  AUX_MAX : Nat
  MAX_PLAYERS : Nat
deriving DecidableEq, Repr

/-- The loop `for (i = 0; i < n; ++i) std::swap(a[i], b[i]);`. -/
def swapLoop : Nat → (Nat → Nat) → (Nat → Nat) → (Nat → Nat) × (Nat → Nat)
  | 0, a, b => (a, b)
  | n + 1, a, b =>
    match swapLoop n a b with
    | (a1, b1) => (Function.update a1 n (b1 n), Function.update b1 n (a1 n))

/-- The function `swapMissionPointers()`. -/
def swapMissionPointers (sz : ArraySizes) (g : CurrentGame) (mission : MISSION) :
    CurrentGame × MISSION :=
  let blockMaps := swapLoop sz.AUX_MAX g.psBlockMap mission.psBlockMap
  let auxMaps := swapLoop (sz.MAX_PLAYERS + sz.AUX_MAX) g.psAuxMap mission.psAuxMap
  let droids := swapLoop sz.MAX_PLAYERS g.apsDroidLists mission.apsDroidLists
  let structs := swapLoop sz.MAX_PLAYERS g.apsStructLists mission.apsStructLists
  let features := swapLoop sz.MAX_PLAYERS g.apsFeatureLists mission.apsFeatureLists
  let flags := swapLoop sz.MAX_PLAYERS g.apsFlagPosLists mission.apsFlagPosLists
  let extractors := swapLoop sz.MAX_PLAYERS g.apsExtractorLists mission.apsExtractorLists
  let sensors := swapLoop 1 g.apsSensorList mission.apsSensorList
  let oils := swapLoop 1 g.apsOilList mission.apsOilList
  (⟨mission.psMapTiles, mission.mapWidth, mission.mapHeight, blockMaps.1, auxMaps.1,
      mission.psGateways, mission.scrollMinX, mission.scrollMinY, mission.scrollMaxX,
      mission.scrollMaxY, droids.1, structs.1, features.1, flags.1, extractors.1, sensors.1,
      oils.1⟩,
   ⟨g.psMapTiles, g.mapWidth, g.mapHeight, blockMaps.2, auxMaps.2, g.gateways, g.scrollMinX,
      g.scrollMinY, g.scrollMaxX, g.scrollMaxY, droids.2, structs.2, features.2, flags.2,
      extractors.2, sensors.2, oils.2, mission.startTime, mission.cheatTime, mission.time⟩)

/-- The difference `a - b` of two `UDWORD` values. -/
def sub32 (a b : Nat) : Nat := (a + 2 ^ 32 - b % 2 ^ 32) % 2 ^ 32

/-- The function `setMissionCheatTime(bCheating)` at game time `gameTime`. -/
def setMissionCheatTime (bCheating : Bool) (gameTime : Nat) (mission : MISSION) : MISSION :=
  if bCheating then
    { mission with cheatTime := gameTime }
  else
    { mission with
      startTime := (mission.startTime + sub32 gameTime mission.cheatTime) % 2 ^ 32,
      cheatTime := 0 }

/-- The value `timeElapsed` that `intUpdateMissionTimer` computes at game time `gameTime` and
shows (as time elapsed in a challenge, as `mission.time - timeElapsed` otherwise). -/
def missionTimeElapsed (gameTime : Nat) (mission : MISSION) : Nat :=
  if mission.cheatTime != 0 then
    sub32 mission.cheatTime mission.startTime
  else
    sub32 gameTime mission.startTime

/-- The value `timeRemaining` that `intUpdateMissionTimer` hands to `fillTimeDisplay`: the
elapsed time in a challenge, otherwise the mission time less the elapsed time (a `SDWORD`),
`0` when that is negative. -/
def missionTimerShown (challengeActive : Bool) (gameTime : Nat) (mission : MISSION) : Int :=
  if !challengeActive then
    let timeRemaining :=
      ((mission.time - (missionTimeElapsed gameTime mission : Int) + 2 ^ 31) % 2 ^ 32) - 2 ^ 31
    if timeRemaining < 0 then 0 else timeRemaining
  else
    (((missionTimeElapsed gameTime mission : Int) + 2 ^ 31) % 2 ^ 32) - 2 ^ 31

/-- A mission record for concrete evaluation: every pointer and list `0`, start time
`startTime`, no cheat time. -/
def demoMission (startTime : Nat) : MISSION :=
  ⟨0, 0, 0, fun _ => 0, fun _ => 0, 0, 0, 0, 0, 0, fun _ => 0, fun _ => 0, fun _ => 0,
    fun _ => 0, fun _ => 0, fun _ => 0, fun _ => 0, startTime, 0, 0⟩

/-! ### `src/map.cpp`: `map_Height`

The function computes in `int` and `int32_t`: every sum, difference and product is embedded
with its result converted to `int32_t`, wrapping around as the compiled code does (overflow
of signed arithmetic is undefined behaviour in C++); the division `/` of C is `Int.tdiv`
(truncation towards zero). The helpers `map_coord`, `world_coord` and
`map_TileHeightSurface` belong to `map.h`, outside the embedded sources: the first two are
embedded by their use in `map.cpp` (a tile is `TILE_UNITS` world units wide), the third is
a parameter. -/

/-- The conversion of an integer to `int32_t` (two's complement). -/
def toInt32 (i : Int) : Int := (i + 2 ^ 31) % 2 ^ 32 - 2 ^ 31

/-- The sum `a + b` of two `int32_t` values, in `int32_t`. -/
def addInt32 (a b : Int) : Int := toInt32 (a + b)

/-- The difference `a - b` of two `int32_t` values, in `int32_t`. -/
def subInt32 (a b : Int) : Int := toInt32 (a - b)

/-- The product `a * b` of two `int32_t` values, in `int32_t`. -/
def mulInt32 (a b : Int) : Int := toInt32 (a * b)

/-- The helper `world_coord(mapCoord)` of `map.h`: `mapCoord << TILE_SHIFT`. -/
def world_coord (c : MapConsts) (mapCoord : Int) : Int :=
  mapCoord * c.TILE_UNITS

/-- The helper `map_coord(worldCoord)` of `map.h`: `worldCoord >> TILE_SHIFT`, the tile a
world coordinate falls in. -/
def map_coord (c : MapConsts) (worldCoord : Int) : Int :=
  worldCoord / c.TILE_UNITS

/-- The last statements of `map_Height`, from `middle = (left + right) / 2` to the `return`:
the interpolation between the corners `left` and `right` of the triangle and the centre of
the tile. -/
def map_Height_interpolate (tileUnits left right center towardsCenter towardsRight : Int) :
    Int :=
  let middle := Int.tdiv (addInt32 left right) 2
  let onBottom := addInt32 (mulInt32 left (subInt32 tileUnits towardsRight))
    (mulInt32 right towardsRight)
  let result := addInt32 onBottom (mulInt32 (mulInt32 (subInt32 center middle) towardsCenter) 2)
  Int.tdiv (addInt32 result (Int.tdiv tileUnits 2)) tileUnits

/-- The part of `map_Height` after the four corner heights have been read: the centre, the
choice of the triangle `A`, `B`, `C` or `D` of the tile the point `(onTileX, onTileY)` lies
in, and the interpolation. `h00`, `h01`, `h10`, `h11` are `height[0][0]`, `height[0][1]`,
`height[1][0]`, `height[1][1]`, added to `center` in this order. -/
def map_Height_onTile (tileUnits h00 h01 h10 h11 onTileX onTileY : Int) : Int :=
  let center := Int.tdiv (addInt32 (addInt32 (addInt32 (addInt32 0 h00) h01) h10) h11) 4
  let sel : Int × Int × Int × Int :=
    if onTileY > onTileX then
      if onTileY < subInt32 tileUnits onTileX then
        (h00, h01, onTileX, subInt32 tileUnits onTileY)
      else
        (h01, h11, subInt32 tileUnits onTileY, subInt32 tileUnits onTileX)
    else
      if onTileX > subInt32 tileUnits onTileY then
        (h11, h10, subInt32 tileUnits onTileX, onTileY)
      else
        (h10, h00, onTileY, onTileX)
  let right := sel.1
  let left := sel.2.1
  let towardsCenter := sel.2.2.1
  let towardsRight := sel.2.2.2
  map_Height_interpolate tileUnits left right center towardsCenter towardsRight

/-- The function `map_Height(x, y)` for `int` arguments; `surface` is
`map_TileHeightSurface`. -/
def map_Height (c : MapConsts) (mapWidth mapHeight : Int) (surface : Int → Int → Int)
    (x y : Int) : Int :=
  let x := max x 0
  let y := max y 0
  let x := min x (subInt32 (toInt32 (world_coord c mapWidth)) 1)
  let y := min y (subInt32 (toInt32 (world_coord c mapHeight)) 1)
  let tileX := map_coord c x
  let tileY := map_coord c y
  let onTileX := subInt32 x (toInt32 (world_coord c tileX))
  let onTileY := subInt32 y (toInt32 (world_coord c tileY))
  map_Height_onTile c.TILE_UNITS (surface tileX tileY) (surface tileX (addInt32 tileY 1))
    (surface (addInt32 tileX 1) tileY) (surface (addInt32 tileX 1) (addInt32 tileY 1))
    onTileX onTileY

/-- The conditions of the four `ASSERT`s on the coordinates at the head of `map_Height`. -/
def map_Height_assertions (c : MapConsts) (mapWidth mapHeight : Int) (x y : Int) : Bool :=
  decide (x ≥ -c.TILE_UNITS) && decide (y ≥ -c.TILE_UNITS)
    && decide (max x 0 < addInt32 (toInt32 (world_coord c mapWidth)) c.TILE_UNITS)
    && decide (max y 0 < addInt32 (toInt32 (world_coord c mapHeight)) c.TILE_UNITS)

/-- The least of four heights. -/
def min4 (a b c d : Int) : Int := min (min a b) (min c d)

/-- The greatest of four heights. -/
def max4 (a b c d : Int) : Int := max (max a b) (max c d)

/-- A surface for concrete evaluation: height `10` at even tile columns and `20` at odd
ones, raised by `5` on odd tile rows. -/
def demoSurface (tileX tileY : Int) : Int :=
  (if tileX % 2 = 0 then 10 else 20) + (if tileY % 2 = 0 then 0 else 5)

/-- A surface of great heights for concrete evaluation: `20000005` at the tile `(1, 2)`, one
more for each tile further in `x`, two more for each tile further in `y`. -/
def highSurface (tileX tileY : Int) : Int :=
  20000005 + (tileX - 1) + 2 * (tileY - 2)

/-- A surface height that `map_Height` can interpolate without leaving `int32_t`: it is not
negative, four of it can be added up, and it can be weighted by the distances on a tile and
rounded. With `TILE_UNITS = 128` these are the heights from `0` to `16777214`. -/
def HeightInRange (c : MapConsts) (h : Int) : Prop :=
  0 ≤ h ∧ 4 * h < 2 ^ 31 ∧ h * c.TILE_UNITS + c.TILE_UNITS < 2 ^ 31

/-! ### `src/map.cpp`: `map_LineIntersect`

`int` arithmetic is over the integers (the intermediate values are taken not to overflow);
the loop `while (true)` runs on fuel. -/

/-- The type `Vector2i`. -/
structure Vector2i where
  x : Int
  y : Int
deriving DecidableEq, Repr

/-- The type `Vector3i`. -/
structure Vector3i where
  x : Int
  y : Int
  z : Int
deriving DecidableEq, Repr

/-- The scalar product `dot(a, b)` of two `Vector3i`. -/
def dot (a b : Vector3i) : Int :=
  a.x * b.x + a.y * b.y + a.z * b.z

/-- The function `rotateWorldQuadrant(v, quadrant)`; `quadrant & 3` is the residue of
`quadrant` modulo `4`. -/
def rotateWorldQuadrant (c : MapConsts) (v : Vector3i) (quadrant : Int) : Vector3i :=
  if quadrant % 4 = 0 then v
  else if quadrant % 4 = 1 then ⟨c.TILE_UNITS - v.y, v.x, v.z⟩
  else if quadrant % 4 = 2 then ⟨c.TILE_UNITS - v.x, c.TILE_UNITS - v.y, v.z⟩
  else ⟨v.y, c.TILE_UNITS - v.x, v.z⟩

/-- The function `quadrantCorner(quadrant)`: `dx = {0, 1, 1, 0}`, `dy = {0, 0, 1, 1}`. -/
def quadrantCorner (quadrant : Int) : Vector2i :=
  if quadrant % 4 = 0 then ⟨0, 0⟩
  else if quadrant % 4 = 1 then ⟨1, 0⟩
  else if quadrant % 4 = 2 then ⟨1, 1⟩
  else ⟨0, 1⟩

/-- The function `quadrantDelta(quadrant)`: `dx = {0, 1, 0, -1}`, `dy = {-1, 0, 1, 0}`. -/
def quadrantDelta (quadrant : Int) : Vector2i :=
  if quadrant % 4 = 0 then ⟨0, -1⟩
  else if quadrant % 4 = 1 then ⟨1, 0⟩
  else if quadrant % 4 = 2 then ⟨0, 1⟩
  else ⟨-1, 0⟩

/-- The function `fracTest(numerA, denomA, numerB, denomB)`; the products are taken in
`int64_t`. -/
def fracTest (numerA denomA numerB denomB : Int) : Bool :=
  decide (denomA > 0) && decide (numerA ≥ 0)
    && (decide (denomB ≤ 0) || decide (numerB < 0)
      || decide (numerA * denomB < numerB * denomA))

/-- The variables of the loop of `map_LineIntersect`: `tile`, `quadrant`, `src`, `dst`. -/
structure LineState where
  tile : Vector2i
  quadrant : Int
  src : Vector3i
  dst : Vector3i
deriving DecidableEq, Repr

/-- The array `height[q]` of an iteration: the surface height at the corner
`tile + quadrantCorner(quadrant + q)`. -/
def lineHeight (surface : Int → Int → Int) (st : LineState) (q : Int) : Int :=
  surface (st.tile.x + (quadrantCorner (st.quadrant + q)).x)
    (st.tile.y + (quadrantCorner (st.quadrant + q)).y)

/-- The vector `normal` of an iteration. -/
def lineNormal (c : MapConsts) (surface : Int → Int → Int) (st : LineState) : Vector3i :=
  ⟨2 * (lineHeight surface st 1 - lineHeight surface st 0),
    lineHeight surface st 2 + lineHeight surface st 3 - lineHeight surface st 0
      - lineHeight surface st 1,
    -2 * c.TILE_UNITS⟩

/-- The vector `dif = dst - src` of an iteration. -/
def lineDif (st : LineState) : Vector3i :=
  ⟨st.dst.x - st.src.x, st.dst.y - st.src.y, st.dst.z - st.src.z⟩

/-- The array `numer[5]` of an iteration. -/
def lineNumer (c : MapConsts) (surface : Int → Int → Int) (st : LineState) (i : Nat) : Int :=
  match i with
  | 0 => -(-st.src.y)
  | 1 => c.TILE_UNITS - (st.src.x + st.src.y)
  | 2 => -(-st.src.x + st.src.y)
  | 3 => lineHeight surface st 0 * (lineNormal c surface st).z
      - dot st.src (lineNormal c surface st)
  | _ => 1

/-- The array `denom[5]` of an iteration. -/
def lineDenom (c : MapConsts) (surface : Int → Int → Int) (st : LineState) (i : Nat) : Int :=
  match i with
  | 0 => -(lineDif st).y
  | 1 => (lineDif st).x + (lineDif st).y
  | 2 => -(lineDif st).x + (lineDif st).y
  | 3 => dot (lineDif st) (lineNormal c surface st)
  | _ => 1

/-- The loop `for (test ...) if (!fracTest(numer[firstIntersection], denom[firstIntersection],
numer[test], denom[test])) firstIntersection = test;` over the given tests, from the given
value of `firstIntersection`. -/
def selectFirst (numer denom : Nat → Int) (tests : List Nat) (firstIntersection : Nat) : Nat :=
  tests.foldl (fun fi test =>
    if !fracTest (numer fi) (denom fi) (numer test) (denom test) then test else fi)
    firstIntersection

/-- The value of `firstIntersection` after the loop over `test = 0, ..., 4`. -/
def firstIntersection (numer denom : Nat → Int) : Nat :=
  selectFirst numer denom [0, 1, 2, 3, 4] 0

/-- The constant `UINT32_MAX`. -/
def UINT32_MAX : Nat := 2 ^ 32 - 1

/-- The returned value `(int64_t)tMax * numer / denom`, converted to `unsigned`. -/
def lineReturn (tMax : Nat) (numer denom : Int) : Nat :=
  ((Int.tdiv ((tMax : Int) * numer) denom) % 2 ^ 32).toNat

/-- What one iteration of the loop does: return a value, or go on with new variables. -/
inductive LineStep where
  | ret (v : Nat)
  | next (st : LineState)
deriving DecidableEq, Repr

/-- The sum of a `Vector3i` and `Vector3i(0, -TILE_UNITS, 0)`. -/
def shiftUp (c : MapConsts) (v : Vector3i) : Vector3i :=
  ⟨v.x, v.y - c.TILE_UNITS, v.z⟩

/-- One iteration of the loop of `map_LineIntersect`. -/
def map_LineIntersect_step (c : MapConsts) (mapWidth mapHeight : Int)
    (surface : Int → Int → Int) (tMax : Nat) (st : LineState) : LineStep :=
  let numer := lineNumer c surface st
  let denom := lineDenom c surface st
  let fi := firstIntersection numer denom
  match fi with
  | 0 =>
    let tile : Vector2i :=
      ⟨st.tile.x + (quadrantDelta st.quadrant).x, st.tile.y + (quadrantDelta st.quadrant).y⟩
    if tile.x < 0 ∨ tile.x ≥ mapWidth ∨ tile.y < 0 ∨ tile.y ≥ mapHeight then
      LineStep.ret (lineReturn tMax (numer fi) (denom fi))
    else
      LineStep.next ⟨tile, st.quadrant + 2, shiftUp c (rotateWorldQuadrant c st.src (-2)),
        shiftUp c (rotateWorldQuadrant c st.dst (-2))⟩
  | 1 =>
    LineStep.next ⟨st.tile, st.quadrant + 1, rotateWorldQuadrant c st.src (-1),
      rotateWorldQuadrant c st.dst (-1)⟩
  | 2 =>
    LineStep.next ⟨st.tile, st.quadrant - 1, rotateWorldQuadrant c st.src 1,
      rotateWorldQuadrant c st.dst 1⟩
  | 3 => LineStep.ret (lineReturn tMax (numer fi) (denom fi))
  | 4 => LineStep.ret UINT32_MAX
  | _ => LineStep.next st

/-- The loop `while (true)` of `map_LineIntersect`, run for at most `fuel` iterations;
`none` when the fuel is used up. -/
def map_LineIntersect_loop (c : MapConsts) (mapWidth mapHeight : Int)
    (surface : Int → Int → Int) (tMax : Nat) : Nat → LineState → Option Nat
  | 0, _ => none
  | fuel + 1, st =>
    match map_LineIntersect_step c mapWidth mapHeight surface tMax st with
    | LineStep.ret v => some v
    | LineStep.next st1 => map_LineIntersect_loop c mapWidth mapHeight surface tMax fuel st1

/-- The variables of the loop as `map_LineIntersect(src, dst, tMax)` sets them up. -/
def map_LineIntersect_init (c : MapConsts) (src dst : Vector3i) : LineState :=
  let tile : Vector2i := ⟨map_coord c src.x, map_coord c src.y⟩
  let src1 : Vector3i := ⟨src.x - world_coord c tile.x, src.y - world_coord c tile.y, src.z⟩
  let dst1 : Vector3i := ⟨dst.x - world_coord c tile.x, dst.y - world_coord c tile.y, dst.z⟩
  let quadrant : Int :=
    if src1.x < src1.y then (if c.TILE_UNITS - src1.x < src1.y then 2 else 3)
    else (if c.TILE_UNITS - src1.x < src1.y then 1 else 0)
  ⟨tile, quadrant, rotateWorldQuadrant c src1 (-quadrant), rotateWorldQuadrant c dst1 (-quadrant)⟩

/-- The function `map_LineIntersect(src, dst, tMax)`, its loop run for at most `fuel`
iterations. -/
def map_LineIntersect (c : MapConsts) (mapWidth mapHeight : Int) (surface : Int → Int → Int)
    (fuel : Nat) (src dst : Vector3i) (tMax : Nat) : Option Nat :=
  map_LineIntersect_loop c mapWidth mapHeight surface tMax fuel (map_LineIntersect_init c src dst)

/-- The property claimed of the case selected in an iteration: its index is one of the five
cases, its denominator is positive, its numerator is non-negative and at most the
denominator. -/
def SelectedCaseValid (numer denom : Nat → Int) (fi : Nat) : Prop :=
  fi < 5 ∧ 0 < denom fi ∧ 0 ≤ numer fi ∧ numer fi ≤ denom fi

/-! ### `src/map.cpp`: `mapLoadFromWzMapData`, `afterMapLoad`, `generateRiverbed`,
`mapSaveToWzMapData`

The globals `mapWidth`, `mapHeight`, `psMapTiles`, `psBlockMap[AUX_MAP]` and the scroll limits
are the fields of `MapState`. A pointer to a tile is its index in `psMapTiles`. The arrays are
functions from the index; the entries below the allocated size are the elements. The other
block maps, the aux maps of `auxClearAll`, the light map, the gateways and the visibility
fields of a tile are not represented: no embedded function reads them. -/

/-- The constant `#define WATER_MIN_DEPTH 500`. -/
def WATER_MIN_DEPTH : Int := 500

/-- The constant `#define WATER_MAX_DEPTH (WATER_MIN_DEPTH + 400)`. -/
def WATER_MAX_DEPTH : Int := WATER_MIN_DEPTH + 400

/-- The mask `TILE_NUMMASK` of `map.h`, to which the comment at `MAX_TERRAIN_TILES` refers:
the tile number is the low nine bits of a texture word. -/
def TILE_NUMMASK : Nat := 0x01ff

/-- The accessor `TileNumber_tile(tilenum)`: `tilenum & TILE_NUMMASK`. -/
def TileNumber_tile (tilenum : Nat) : Nat := tilenum &&& TILE_NUMMASK

/-- The conversion of an integer to `uint16_t`. -/
def toUint16 (i : Int) : Nat := (i % 2 ^ 16).toNat

/-- A tile of the map data, `WzMap::MapData::MapTile`: the two `uint16_t` fields that
`map.cpp` reads and writes. -/
structure MapTile where
  height : Nat
  texture : Nat
deriving DecidableEq, Repr

/-- The map data `WzMap::MapData`: `width`, `height` (both `uint32_t`) and the vector
`mMapTiles`. -/
structure MapData where
  width : Nat
  height : Nat
  mMapTiles : List MapTile
deriving DecidableEq, Repr

/-- The globals of `map.cpp` that loading and saving use. -/
structure MapState where
  mapWidth : Int
  mapHeight : Int
  psMapTiles : Nat → MAPTILE
  psBlockMap : Nat → Nat
  scrollMinX : Int
  scrollMinY : Int
  scrollMaxX : Int
  scrollMaxY : Int

/-- What loading takes from outside the embedded functions. -/
structure MapEnv where
  /-- The table `terrainTypes[]`. -/
  terrainTypes : Nat → Nat
  /-- The array `mapDecals[]`. -/
  mapDecals : Nat → Bool
  /-- The bit `BITS_DECAL` of `tileInfoBits`. -/
  BITS_DECAL : Nat
  /-- The value of `determineGroundType(x, y, tilesetDir)`, which reads the map and writes
  nothing. -/
  determineGroundType : MapState → Int → Int → Nat
  /-- The sequence of values of `mt.u32()` for `MersenneTwister mt(12345)`. -/
  u32 : Nat → Nat
  /-- The result of `mapLoadGroundTypes(preview)`, which reads the tileset files. -/
  mapLoadGroundTypes : Bool
  /-- The continents `mapFloodFillContinents()` assigns to the tile of an index: it uses
  `fpathBlockingTile` and writes `limitedContinent` and `hoverContinent` only. -/
  continents : MapState → Nat → Nat × Nat

/-- A value-initialised `MAPTILE`. -/
def zeroTile : MAPTILE := ⟨0, 0, 0, 0, 0, 0, 0, 0⟩

/-- The assignment `f[i] = v` to an array element. -/
def setAt {α : Type} (f : Nat → α) (i : Nat) (v : α) : Nat → α :=
  fun j => if j = i then v else f j

/-- The loop `for (x = lo; x < hi; ++x) body(x)`. -/
def forLoop {σ : Type} (lo hi : Int) (body : Int → σ → σ) (s : σ) : σ :=
  (List.range (hi - lo).toNat).foldl (fun s (k : Nat) => body (lo + (k : Int)) s) s

/-- The loops `for (y = 0; y < mapHeight; ++y) for (x = 0; x < mapWidth; ++x) body(x, y)`. -/
def forEachTile {σ : Type} (mapWidth mapHeight : Int) (body : Int → Int → σ → σ) (s : σ) : σ :=
  forLoop 0 mapHeight (fun y => forLoop 0 mapWidth (fun x => body x y)) s

/-- The function `mapTile(x, y)` of `map.h`: the coordinates are clamped to the map and the
tile is `&psMapTiles[x + (y * mapWidth)]`. -/
def mapTile (st : MapState) (x y : Int) : Nat :=
  let x := max x 0
  let y := max y 0
  let x := min x (st.mapWidth - 1)
  let y := min y (st.mapHeight - 1)
  (x + y * st.mapWidth).toNat

/-- The assignment `*psTile = t` through a tile pointer. -/
def MapState.setTile (st : MapState) (psTile : Nat) (t : MAPTILE) : MapState :=
  { st with psMapTiles := setAt st.psMapTiles psTile t }

/-- The function `terrainType(psTile)` of `map.h`:
`terrainTypes[TileNumber_tile(psTile->texture)]`. -/
def terrainType (env : MapEnv) (st : MapState) (psTile : Nat) : Nat :=
  env.terrainTypes (TileNumber_tile (st.psMapTiles psTile).texture)

/-- The function `auxSetBlocking(x, y, state)` of `map.h`:
`psBlockMap[AUX_MAP][x + y * mapWidth] |= state`, on `uint8_t`. -/
def auxSetBlocking (st : MapState) (x y : Int) (state : Nat) : MapState :=
  let i := (x + y * st.mapWidth).toNat
  { st with psBlockMap := setAt st.psBlockMap i ((st.psBlockMap i ||| state) % 256) }

/-- The function `auxClearBlocking(x, y, state)` of `map.h`:
`psBlockMap[AUX_MAP][x + y * mapWidth] &= ~state`, on `uint8_t`. -/
def auxClearBlocking (st : MapState) (x y : Int) (state : Nat) : MapState :=
  let i := (x + y * st.mapWidth).toNat
  { st with psBlockMap := setAt st.psBlockMap i (st.psBlockMap i &&& (255 ^^^ (state % 256))) }

/-- The function `hasDecals(i, j)`. The branch that calls `abort()` needs
`index > MAX_TERRAIN_TILES`, which a tile number, being at most `TILE_NUMMASK`, never is; it
is embedded as the value `false`. -/
def hasDecals (env : MapEnv) (st : MapState) (i j : Int) : Bool :=
  let index := TileNumber_tile (st.psMapTiles (mapTile st i j)).texture
  if index > MAX_TERRAIN_TILES then false else env.mapDecals index

/-- The body of the loops of `mapSetGroundTypes()`. -/
def mapSetGroundTypes_tile (env : MapEnv) (i j : Int) (st : MapState) : MapState :=
  let psTile := mapTile st i j
  let st1 := st.setTile psTile
    { st.psMapTiles psTile with ground := env.determineGroundType st i j % 256 }
  if hasDecals env st1 i j then
    st1.setTile psTile { st1.psMapTiles psTile with
      tileInfoBits := ((st1.psMapTiles psTile).tileInfoBits ||| env.BITS_DECAL) % 256 }
  else
    st1.setTile psTile { st1.psMapTiles psTile with
      tileInfoBits := (st1.psMapTiles psTile).tileInfoBits &&& (255 ^^^ (env.BITS_DECAL % 256)) }

/-- The function `mapSetGroundTypes()`. -/
def mapSetGroundTypes (env : MapEnv) (st : MapState) : Bool × MapState :=
  (true, forEachTile st.mapWidth st.mapHeight (mapSetGroundTypes_tile env) st)

/-- The function `isWaterVertex(x, y)`. -/
def isWaterVertex (env : MapEnv) (c : MapConsts) (st : MapState) (x y : Int) : Bool :=
  if x < 1 ∨ y < 1 ∨ x > st.mapWidth - 1 ∨ y > st.mapHeight - 1 then
    false
  else
    terrainType env st (mapTile st x y) == c.TER_WATER
      && terrainType env st (mapTile st (x - 1) y) == c.TER_WATER
      && terrainType env st (mapTile st x (y - 1)) == c.TER_WATER
      && terrainType env st (mapTile st (x - 1) (y - 1)) == c.TER_WATER

/-- The first loops of `generateRiverbed()`: the vector `idx` and the count `l` of water
vertices. -/
def riverbedInit (env : MapEnv) (c : MapConsts) (st : MapState) : (Nat → Int) × Int :=
  forEachTile st.mapWidth st.mapHeight
    (fun x y s =>
      let val : Int := 100 * (if isWaterVertex env c st x y then 1 else 0)
      (setAt s.1 (x + y * st.mapWidth).toNat val, if val > 0 then s.2 + 1 else s.2))
    (fun _ => 0, 0)

/-- One iteration of the `do` loop of `generateRiverbed()`, without the `++l`: the pair of
`maxIdx` and `idx` after the two `for` loops. -/
def riverbedPass (mapWidth mapHeight : Int) (idx : Nat → Int) : Int × (Nat → Int) :=
  forLoop 1 (mapHeight - 2)
    (fun y => forLoop 1 (mapWidth - 2)
      (fun x s =>
        let rowOffset := y * mapWidth
        if s.2 (x + rowOffset).toNat > 0 then
          let idxVal := Int.tdiv (s.2 ((x - 1) + rowOffset).toNat
            + s.2 (x + ((y - 1) * mapWidth)).toNat + s.2 (x + ((y + 1) * mapWidth)).toNat
            + s.2 ((x + 1) + rowOffset).toNat) 4
          (if idxVal > s.1 then idxVal else s.1, setAt s.2 (x + rowOffset).toNat idxVal)
        else s))
    (1, idx)

/-- The `do ... while (maxIdx > 90 && l < 20)` loop of `generateRiverbed()` when `l` is
`20 - n`: the pair of `maxIdx` and `idx` at its end. It starts with `n = 20`; with `n = 0`
there is no iteration left. -/
def riverbedPasses (mapWidth mapHeight : Int) : Nat → (Nat → Int) → Int × (Nat → Int)
  | 0, idx => (1, idx)
  | n + 1, idx =>
    let r := riverbedPass mapWidth mapHeight idx
    if r.1 > 90 ∧ 0 < n then riverbedPasses mapWidth mapHeight n r.2 else r

/-- The body of the last loops of `generateRiverbed()`, on the vector `idx`, the map and the
number of values drawn from `mt`. The product is computed in `unsigned` and converted to
`int`. -/
def riverbedLower (env : MapEnv) (c : MapConsts) (maxIdx : Int) (x y : Int)
    (s : (Nat → Int) × MapState × Nat) : (Nat → Int) × MapState × Nat :=
  let i := (x + y * s.2.1.mapWidth).toNat
  let v := if s.1 i > maxIdx then maxIdx else s.1 i
  let idxVal := if v < 1 then 1 else v
  let idx := setAt s.1 i idxVal
  if isWaterVertex env c s.2.1 x y then
    let r : Int := ((env.u32 s.2.2 % 2 ^ 32 % toUnsigned32 (Int.tdiv maxIdx 6 + 1) : Nat) : Int)
    let l := toInt32 ((WATER_MAX_DEPTH + 1 - WATER_MIN_DEPTH) * (maxIdx - idxVal - r))
    let psTile := mapTile s.2.1 x y
    (idx, s.2.1.setTile psTile { s.2.1.psMapTiles psTile with
        height := (s.2.1.psMapTiles psTile).height - (WATER_MIN_DEPTH - Int.tdiv l maxIdx) },
      s.2.2 + 1)
  else
    (idx, s.2.1, s.2.2)

/-- The function `generateRiverbed()` after its assertion. -/
def generateRiverbed_run (env : MapEnv) (c : MapConsts) (st : MapState) : MapState :=
  let init := riverbedInit env c st
  if init.2 == 0 then
    st
  else
    let r := riverbedPasses st.mapWidth st.mapHeight 20 init.1
    (forEachTile st.mapWidth st.mapHeight (riverbedLower env c r.1) (r.2, st, 0)).2.1

/-- The function `generateRiverbed()`. -/
def generateRiverbed (env : MapEnv) (c : MapConsts) (assertHalts : Bool) (st : MapState) :
    Outcome MapState :=
  if st.mapWidth > 0 ∧ st.mapHeight > 0 then
    Outcome.returned (generateRiverbed_run env c st)
  else if assertHalts then Outcome.assertHalt
  else Outcome.returned st

/-- The body of the loops of `afterMapLoad()` that set `waterLevel`. -/
def afterMapLoad_waterLevel (c : MapConsts) (x y : Int) (st : MapState) : MapState :=
  st.setTile (mapTile st x y) { st.psMapTiles (mapTile st x y) with
    waterLevel := (st.psMapTiles (mapTile st x y)).height - Int.tdiv (world_coord c 1) 3 }

/-- The body of the loops of `afterMapLoad()` that set the blocking bits. -/
def afterMapLoad_blocking (env : MapEnv) (c : MapConsts) (x y : Int) (st : MapState) :
    MapState :=
  let psTile := mapTile st x y
  let st1 := auxClearBlocking st x y c.AUXBITS_ALL
  let st2 :=
    if x < 1 ∨ y < 1 ∨ x > st1.mapWidth - 1 ∨ y > st1.mapHeight - 1 then
      auxSetBlocking st1 x y c.AUXBITS_ALL
    else st1
  let st3 :=
    if terrainType env st2 psTile == c.TER_WATER then auxSetBlocking st2 x y c.WATER_BLOCKED
    else auxSetBlocking st2 x y c.LAND_BLOCKED
  if terrainType env st3 psTile == c.TER_CLIFFFACE then
    auxSetBlocking st3 x y c.FEATURE_BLOCKED
  else st3

/-- The function `mapFloodFillContinents()`: the two continent fields of the tiles are
assigned. -/
def mapFloodFillContinents (env : MapEnv) (st : MapState) : MapState :=
  { st with psMapTiles := fun i =>
      { st.psMapTiles i with
        limitedContinent := (env.continents st i).1
        hoverContinent := (env.continents st i).2 } }

/-- The function `afterMapLoad()` from the call of `generateRiverbed()` on. -/
def afterMapLoad_rest (env : MapEnv) (c : MapConsts) (assertHalts : Bool) (st : MapState) :
    Outcome (Bool × MapState) :=
  match generateRiverbed env c assertHalts st with
  | Outcome.returned st3 =>
    let st4 : MapState := { st3 with
      scrollMinX := 0, scrollMinY := 0, scrollMaxX := st3.mapWidth, scrollMaxY := st3.mapHeight }
    if assertHalts && !(decide (st4.mapWidth ≥ 0) && decide (st4.mapHeight ≥ 0)) then
      Outcome.assertHalt
    else
      let st5 : MapState := { st4 with psBlockMap := fun _ => 0 }
      let st6 := forEachTile st5.mapWidth st5.mapHeight (afterMapLoad_blocking env c) st5
      Outcome.returned (true, mapFloodFillContinents env st6)
  | Outcome.assertHalt => Outcome.assertHalt
  | Outcome.nullDeref => Outcome.nullDeref

/-- The function `afterMapLoad()`. -/
def afterMapLoad (env : MapEnv) (c : MapConsts) (assertHalts : Bool) (st : MapState) :
    Outcome (Bool × MapState) :=
  let r := mapSetGroundTypes env st
  if !r.1 then
    Outcome.returned (false, r.2)
  else
    afterMapLoad_rest env c assertHalts
      (forEachTile r.2.mapWidth r.2.mapHeight (afterMapLoad_waterLevel c) r.2)

/-- The body of the loop of `mapLoadFromWzMapData` that copies the tiles. -/
def mapLoadFromWzMapData_tile (loadedMap : MapData) (i : Int) (st : MapState) : MapState :=
  st.setTile i.toNat { st.psMapTiles i.toNat with
    texture := (loadedMap.mMapTiles.getD i.toNat ⟨0, 0⟩).texture
    height := ((loadedMap.mMapTiles.getD i.toNat ⟨0, 0⟩).height : Int) }

/-- The conditions of the `ASSERT`s in the loop of `mapLoadFromWzMapData`: the height of each
tile read is at most `TILE_MAX_HEIGHT`. -/
def mapLoadFromWzMapData_assertions (c : MapConsts) (loadedMap : MapData) (n : Int) : Bool :=
  (List.range n.toNat).all
    (fun i => decide ((loadedMap.mMapTiles.getD i ⟨0, 0⟩).height ≤ c.TILE_MAX_HEIGHT))

/-- The function `mapLoadFromWzMapData(loadedMap)`, called in the state `st` in which
`psMapTiles` is null exactly when `cleared`. -/
def mapLoadFromWzMapData (env : MapEnv) (c : MapConsts) (assertHalts cleared : Bool)
    (st : MapState) (loadedMap : MapData) : Outcome (Bool × MapState) :=
  let width := loadedMap.width
  let height := loadedMap.height
  if assertHalts && !cleared then
    Outcome.assertHalt
  else
    let st1 : MapState := { st with
      psMapTiles := fun _ => zeroTile
      mapWidth := toInt32 width
      mapHeight := toInt32 height }
    if !env.mapLoadGroundTypes then
      Outcome.returned (false, st1)
    else if assertHalts
        && !mapLoadFromWzMapData_assertions c loadedMap (st1.mapWidth * st1.mapHeight) then
      Outcome.assertHalt
    else
      afterMapLoad env c assertHalts
        (forLoop 0 (st1.mapWidth * st1.mapHeight) (mapLoadFromWzMapData_tile loadedMap) st1)

/-- The tile that `mapSaveToWzMapData` writes for the index `i`. -/
def mapSaveToWzMapData_tile (env : MapEnv) (c : MapConsts) (st : MapState) (i : Nat) :
    MapTile :=
  { texture := (st.psMapTiles i).texture
    height :=
      if terrainType env st i == c.TER_WATER then
        toUint16 ((st.psMapTiles i).waterLevel + Int.tdiv (world_coord c 1) 3)
      else
        toUint16 (st.psMapTiles i).height }

/-- A map environment for concrete evaluation: tile number 1 is water, tile number 2 is a
cliff face, every other tile is terrain type 0. -/
def demoMapEnv : MapEnv where
  terrainTypes := fun n => if n = 1 then 7 else if n = 2 then 8 else 0
  mapDecals := fun _ => false
  BITS_DECAL := 2
  determineGroundType := fun _ _ _ => 0
  u32 := fun k => (1103515245 * k + 12345) % 2 ^ 32
  mapLoadGroundTypes := true
  continents := fun _ _ => (0, 0)

/-- A starting state with no map. -/
def noMap : MapState := ⟨0, 0, fun _ => zeroTile, fun _ => 0, 0, 0, 0, 0⟩

/-- A 3 by 3 map of land of height 100. -/
def landMap : MapData := ⟨3, 3, List.replicate 9 ⟨100, 0⟩⟩

/-- A 3 by 3 map of height 100 whose tiles (0,0), (1,0), (0,1) and (1,1) are water. -/
def lakeMap : MapData :=
  ⟨3, 3, [⟨100, 1⟩, ⟨100, 1⟩, ⟨100, 0⟩, ⟨100, 1⟩, ⟨100, 1⟩, ⟨100, 0⟩,
    ⟨100, 0⟩, ⟨100, 0⟩, ⟨100, 0⟩]⟩

/-- The state after loading `loadedMap` in `demoMapEnv`, when loading returns. -/
def loadedState (assertHalts : Bool) (loadedMap : MapData) : MapState :=
  match mapLoadFromWzMapData demoMapEnv wzConsts assertHalts true noMap loadedMap with
  | Outcome.returned r => r.2
  | _ => noMap

/-- A 3 by 3 map of land of height 100 before `afterMapLoad()`: every tile has texture 0. -/
def landState : MapState :=
  ⟨3, 3, fun _ => { zeroTile with height := 100 }, fun _ => 0, 0, 0, 0, 0⟩

/-- The `AUX_MAP` blocking value of the tile `(x, y)` after `afterMapLoad()`, when it returns
`true`. -/
def blockingAfterMapLoad (env : MapEnv) (c : MapConsts) (assertHalts : Bool) (st : MapState)
    (x y : Int) : Option Nat :=
  match afterMapLoad env c assertHalts st with
  | Outcome.returned (true, st1) => some (st1.psBlockMap (x + y * st1.mapWidth).toNat)
  | _ => none

/-! ## Part II. Theorems -/

/-! ### `OpenConnectionResult` -/

/-- C2 (as stated, refuted): the error constructor called with error code `0` builds a value
in which neither alternative is populated: no connection and `hasError()` false. -/
theorem openConnectionResult_zero_error_neither :
    ¬ (OpenConnectionResult.ofError 0 "no error").exactlyOnePopulated := by
  decide

/-- C2 (amended): for the values built by the two public constructors the alternatives are
never both populated; exactly one is populated if and only if the error constructor is given
a nonzero error code, respectively the connection constructor a non-null pointer. -/
theorem openConnectionResult_populated (error : Int) (errorString : String)
    (p : Option IClientConnection) :
    ((OpenConnectionResult.ofError error errorString).exactlyOnePopulated ↔ error ≠ 0) ∧
    ((OpenConnectionResult.ofConnection p).exactlyOnePopulated ↔ p ≠ none) ∧
    ¬ ((OpenConnectionResult.ofError error errorString).open_socket.isSome = true ∧
        (OpenConnectionResult.ofError error errorString).hasError = true) ∧
    ¬ ((OpenConnectionResult.ofConnection p).open_socket.isSome = true ∧
        (OpenConnectionResult.ofConnection p).hasError = true) := by
  refine ⟨?_, ?_, ?_, ?_⟩
  · simp [OpenConnectionResult.exactlyOnePopulated, OpenConnectionResult.ofError,
      OpenConnectionResult.hasError]
  · cases p <;>
      simp [OpenConnectionResult.exactlyOnePopulated, OpenConnectionResult.ofConnection,
        OpenConnectionResult.hasError]
  · simp [OpenConnectionResult.ofError]
  · simp [OpenConnectionResult.ofConnection, OpenConnectionResult.hasError]

/-! ### Synchronous open -/

/-- C3: the result of `socketOpenTCPConnectionSync` has `hasError()` true exactly when the
resolution or the connect attempt failed; then its error code is nonzero, equal to the OS
socket error or to `-1` when that is `0`, and it holds no connection; otherwise it holds the
connection wrapping the opened socket and its error code is `0`. -/
theorem socketOpenTCPConnectionSync_result {W : Type} (api : NetApi W) (host : String)
    (port : Nat) (w : W) :
    ((socketOpenTCPConnectionSync api host port w).1.hasError = true ↔
      (resolveFails api host port w = true ∨ connectFails api host port w = true)) ∧
    (((resolveFails api host port w = true ∨ connectFails api host port w = true) ∧
        (socketOpenTCPConnectionSync api host port w).1.error ≠ 0 ∧
        (socketOpenTCPConnectionSync api host port w).1.error =
          (if osSockErr api host port w ≠ 0 then osSockErr api host port w else -1) ∧
        (socketOpenTCPConnectionSync api host port w).1.open_socket = none) ∨
     (resolveFails api host port w = false ∧ connectFails api host port w = false ∧
        (socketOpenTCPConnectionSync api host port w).1.error = 0 ∧
        ∃ s, openedSocket api host port w = some s ∧
          (socketOpenTCPConnectionSync api host port w).1.open_socket =
            some (IClientConnection.tcp (TCPClientConnection.ctor (some s))) ∧
          TCPClientConnection.ctorAssertion (some s) = true)) := by
  unfold socketOpenTCPConnectionSync resolveFails connectFails openedSocket osSockErr
    resolveFails TCPconnectionOpenAny
  rcases hr : api.resolveHost host port w with ⟨_ | hosts, w1⟩
  · by_cases h0 : api.getSockErr w1 = 0 <;>
      simp [OpenConnectionResult.ofError, OpenConnectionResult.hasError, h0]
  · simp only []
    rcases ho : api.socketOpenAny hosts 15000 w1 with ⟨_ | s, w2⟩
    · by_cases h0 : api.getSockErr w2 = 0 <;>
        simp [OpenConnectionResult.ofError, OpenConnectionResult.hasError, h0]
    · simp [OpenConnectionResult.ofConnection, OpenConnectionResult.hasError,
        TCPClientConnection.ctorAssertion]

/-! ### Asynchronous open -/

/-- C4: for a non-null request the thread body invokes the request's callback exactly once,
with the result of the synchronous open for the request's host and port, invokes no other
callback, and returns `0`. -/
theorem openDirectTCPConnectionAsyncImpl_once {W : Type} (api : NetApi W)
    (req : OpenConnectionRequest) (w : W) :
    (openDirectTCPConnectionAsyncImpl api (some req) w).1 = 0 ∧
    (openDirectTCPConnectionAsyncImpl api (some req) w).2.2 =
      [Event.invoke req.callback (socketOpenTCPConnectionSync api req.host req.port w).1,
       Event.freeRequest req] ∧
    invocations req.callback (openDirectTCPConnectionAsyncImpl api (some req) w).2.2 = 1 ∧
    ∀ cb, cb ≠ req.callback →
      invocations cb (openDirectTCPConnectionAsyncImpl api (some req) w).2.2 = 0 := by
  refine ⟨rfl, rfl, ?_, ?_⟩
  · simp [openDirectTCPConnectionAsyncImpl, invocations]
  · intro cb hcb
    simp [openDirectTCPConnectionAsyncImpl, invocations, Ne.symm hcb]

/-- C5: when thread creation fails `socketOpenTCPConnectionAsync` returns false, invokes no
callback and releases the request it allocated, once, before returning; when thread creation
succeeds it returns true and the calling thread does not release the request, which it has
handed to the created thread. -/
theorem socketOpenTCPConnectionAsync_result {W : Type} (api : NetApi W) (host : String)
    (port : Nat) (callback : Nat) (w : W) :
    ((api.wzThreadCreate w).1 = none ∧
      (socketOpenTCPConnectionAsync api host port callback w).1 = false ∧
      (socketOpenTCPConnectionAsync api host port callback w).2.2 =
        [Event.allocRequest ⟨host, port, callback⟩, Event.freeRequest ⟨host, port, callback⟩] ∧
      (∀ cb, invocations cb (socketOpenTCPConnectionAsync api host port callback w).2.2 = 0) ∧
      frees ⟨host, port, callback⟩
        (socketOpenTCPConnectionAsync api host port callback w).2.2 = 1) ∨
    (∃ t, (api.wzThreadCreate w).1 = some t ∧
      (socketOpenTCPConnectionAsync api host port callback w).1 = true ∧
      (socketOpenTCPConnectionAsync api host port callback w).2.2 =
        [Event.allocRequest ⟨host, port, callback⟩,
         Event.threadCreated t ⟨host, port, callback⟩, Event.threadDetached t] ∧
      (∀ cb, invocations cb (socketOpenTCPConnectionAsync api host port callback w).2.2 = 0) ∧
      frees ⟨host, port, callback⟩
        (socketOpenTCPConnectionAsync api host port callback w).2.2 = 0) := by
  unfold socketOpenTCPConnectionAsync
  rcases ht : api.wzThreadCreate w with ⟨_ | t, w1⟩
  · left
    simp [invocations, frees]
  · right
    simp [invocations, frees]

/-- Evaluation of the synchronous open in the concrete world where the host resolves and
the connect attempt is refused with socket error `111`. -/
theorem socketOpenTCPConnectionSync_refused :
    (socketOpenTCPConnectionSync demoApi "host" 80 ⟨true, false, true, 0⟩).1 =
      ⟨none, 111, "Cannot connect to [host]:80, [111]:error"⟩ := by
  decide

/-- Evaluation of the synchronous open in the concrete world where the host resolves and the
connect attempt yields the socket `7`. -/
theorem socketOpenTCPConnectionSync_connected :
    (socketOpenTCPConnectionSync demoApi "host" 80 ⟨true, true, true, 0⟩).1 =
      ⟨some (IClientConnection.tcp ⟨some ⟨7⟩⟩), 0, ""⟩ := by
  decide

/-! ### The streaming compression adapter -/

/-- No member function of the adapter stores into the accumulator `compressOutBufVec_`:
`compress()` leaves `compressionOutBuffer()` as it was, for every codec. -/
theorem compress_keeps_compressionOutBuffer {CCtx DCtx : Type} (z : Zstd CCtx DCtx)
    (a a1 : ZstdCompressionAdapter CCtx DCtx) (src size : Nat) (mem mem1 : Memory)
    (r : Returned)
    (h : ZstdCompressionAdapter.compress z a src size mem = some (r, a1, mem1)) :
    a1.compressionOutBuffer = a.compressionOutBuffer := by
  dsimp only [ZstdCompressionAdapter.compress] at h
  split at h
  · exact absurd h (by simp)
  · split at h <;>
      · simp only [Option.some.injEq, Prod.mk.injEq] at h
        rw [← h.2.1]
        rfl

/-- The member `flushCompressionStream()` leaves `compressionOutBuffer()` as it was too, for
every codec, when it returns. -/
theorem flushCompressionStream_keeps_compressionOutBuffer {CCtx DCtx : Type}
    (z : Zstd CCtx DCtx) (a a1 : ZstdCompressionAdapter CCtx DCtx) (mem mem1 : Memory)
    (r : NetResult)
    (h : ZstdCompressionAdapter.flushCompressionStream z a mem = Run.done (r, a1, mem1)) :
    a1.compressionOutBuffer = a.compressionOutBuffer := by
  unfold ZstdCompressionAdapter.flushCompressionStream at h
  split at h
  · simp at h
  · split at h
    · simp only [Run.done.injEq, Prod.mk.injEq] at h
      rw [← h.2.1]
      rfl
    · simp at h

/-- The accumulator is the same before and after any sequence of `compress()` calls. -/
theorem compressChunks_keeps_compressionOutBuffer {CCtx DCtx : Type} (z : Zstd CCtx DCtx)
    (buf : Nat) (chunks : List (List Byte)) :
    ∀ (a a1 : ZstdCompressionAdapter CCtx DCtx) (mem mem1 : Memory),
      compressChunks z buf chunks a mem = some (a1, mem1) →
      a1.compressionOutBuffer = a.compressionOutBuffer := by
  induction chunks with
  | nil =>
    intro a a1 mem mem1 h
    simp only [compressChunks, Option.some.injEq, Prod.mk.injEq] at h
    rw [h.1]
  | cons c cs ih =>
    intro a a1 mem mem1 h
    unfold compressChunks at h
    split at h
    · simp at h
    · rename_i r a2 mem2 hc
      exact (ih _ _ _ _ h).trans (compress_keeps_compressionOutBuffer z a a2 _ _ _ mem2 r hc)

/-- The reference codec is a working streaming codec when it is given room: what the encoder
emits on a flush after taking in `S` decodes back to `S`. -/
theorem frameCodec_roundTrip (S : List Byte) (room : Nat) (h : S.length + 1 ≤ room) :
    (frameCodec.decompressStep false room
      (frameCodec.compressStep
        (frameCodec.compressStep ⟨false, []⟩ 0 S ZSTD_EndDirective.ZSTD_e_continue).ctx
        room [] ZSTD_EndDirective.ZSTD_e_flush).written).written = S := by
  cases S with
  | nil => simp [frameCodec]
  | cons b bs =>
    have h1 : (b :: bs).length ≤ room := by omega
    have h2 : bs.length ≤ room := by simp at h1; omega
    have h3 : (frameMagic :: b :: bs).length ≤ room := by simpa using h
    simp only [frameCodec, List.isEmpty_cons, Bool.not_false, Bool.or_true, Bool.false_or,
      Bool.false_eq_true, if_false, List.nil_append, List.append_nil, List.isEmpty_nil,
      Bool.not_true, Bool.or_false, if_true, List.singleton_append,
      List.take_of_length_le h3, List.take_of_length_le h1]

/-- One unfolding of `afterFlushSteps` along a performed flush step. -/
theorem afterFlushSteps_succ {CCtx DCtx : Type} (z : Zstd CCtx DCtx) (n : Nat)
    (a : ZstdCompressionAdapter CCtx DCtx) (mem : Memory) (call : CodecCall CCtx)
    (h : ZSTD_compressStream2 z a.compressCtx_ a.compressOutBuf_ a.compressInBuf_
      ZSTD_EndDirective.ZSTD_e_flush mem = some call) :
    afterFlushSteps z (n + 1) a mem = afterFlushSteps z n (a.afterCompressCall call) call.mem := by
  simp only [afterFlushSteps, h]

/-- One unfolding of `flushResult` along a performed flush step. -/
theorem flushResult_succ {CCtx DCtx : Type} (z : Zstd CCtx DCtx) (n : Nat)
    (a : ZstdCompressionAdapter CCtx DCtx) (mem : Memory) (call : CodecCall CCtx)
    (h : ZSTD_compressStream2 z a.compressCtx_ a.compressOutBuf_ a.compressInBuf_
      ZSTD_EndDirective.ZSTD_e_flush mem = some call) :
    flushResult z (n + 1) a mem = flushResult z n (a.afterCompressCall call) call.mem := by
  simp only [flushResult, afterFlushSteps_succ z n a mem call h]

/-- With the reference codec, flush steps get nowhere when the encoder holds pending output,
the compress output window has no room left and the input window is used up: every step,
however many are made, emits nothing, reports the same nonzero number of bytes left to flush
and leaves `compressionOutBuffer()` as it was. -/
theorem flushSteps_without_room (n : Nat) :
    ∀ (a : ZstdCompressionAdapter FrameCCtx Bool) (mem : Memory) (c : FrameCCtx),
      a.compressCtx_ = some c → c.pending ≠ [] → c.pending.length ≤ 2 ^ 64 - 120 →
      a.compressOutBuf_.size ≤ a.compressOutBuf_.pos →
      a.compressInBuf_.size ≤ a.compressInBuf_.pos →
      flushResult frameCodec n a mem = some c.pending.length ∧
      (afterFlushSteps frameCodec n a mem).map (fun r => r.1.compressionOutBuffer)
        = some a.compressionOutBuffer := by
  induction n with
  | zero =>
    intro a mem c hctx hp hlen hout hin
    have hroom : a.compressOutBuf_.size - a.compressOutBuf_.pos = 0 := Nat.sub_eq_zero_of_le hout
    have hleft : a.compressInBuf_.size - a.compressInBuf_.pos = 0 := Nat.sub_eq_zero_of_le hin
    refine ⟨?_, rfl⟩
    simp [flushResult, afterFlushSteps, ZSTD_compressStream2, hctx, hroom, hleft, readBytes,
      frameCodec]
  | succ k ih =>
    intro a mem c hctx hp hlen hout hin
    have hroom : a.compressOutBuf_.size - a.compressOutBuf_.pos = 0 := Nat.sub_eq_zero_of_le hout
    have hleft : a.compressInBuf_.size - a.compressInBuf_.pos = 0 := Nat.sub_eq_zero_of_le hin
    have hcall : ZSTD_compressStream2 frameCodec a.compressCtx_ a.compressOutBuf_
        a.compressInBuf_ ZSTD_EndDirective.ZSTD_e_flush mem
        = some ⟨⟨c.started, c.pending⟩, ⟨a.compressOutBuf_.dst, a.compressOutBuf_.size,
            a.compressOutBuf_.pos⟩, ⟨a.compressInBuf_.src, a.compressInBuf_.size,
            a.compressInBuf_.pos⟩,
          writeBytes mem (a.compressOutBuf_.dst + a.compressOutBuf_.pos) [],
          c.pending.length⟩ := by
      simp [ZSTD_compressStream2, hctx, hroom, hleft, readBytes, frameCodec]
    rw [flushResult_succ frameCodec k a mem _ hcall, afterFlushSteps_succ frameCodec k a mem _ hcall]
    exact ih _ _ ⟨c.started, c.pending⟩ rfl hp hlen hout hin

/-- C1 (evaluation at the failing input): with the reference codec, after `compress()` of the
single chunk `[65]` on an initialised adapter `compressionOutBuffer()` is still empty, and
the following `flushCompressionStream()` returns nothing: its one flush step reports no
error and the loop condition names the undeclared `res`. Whatever the loop was meant to test,
flush steps get nowhere: however many are made, each reports `2` bytes left to flush and
`compressionOutBuffer()` stays empty, the bytes being held by the codec, whose output window
is the zeroed one of the constructor. -/
theorem roundTrip_one_byte_never_completes :
    (compressChunks frameCodec 4096 [[65]] frameAdapter zeroMemory).map
        (fun r => r.1.compressionOutBuffer) = some [] ∧
    compressThenFlush frameCodec 4096 [[65]] frameAdapter zeroMemory = Run.undeclared "res" ∧
    ∀ a1 mem1, compressChunks frameCodec 4096 [[65]] frameAdapter zeroMemory = some (a1, mem1) →
      ∀ n, flushResult frameCodec n a1 mem1 = some 2 ∧
        (afterFlushSteps frameCodec n a1 mem1).map (fun r => r.1.compressionOutBuffer)
          = some [] := by
  have hc : compressChunks frameCodec 4096 [[65]] frameAdapter zeroMemory =
      some (⟨[], [], ⟨4096, 1, 1⟩, ⟨0, 0, 0⟩, ⟨0, 0, 0⟩, ⟨0, 0, 0⟩, some ⟨true, [40, 65]⟩,
        some false, false⟩, writeBytes (writeBytes zeroMemory 4096 [65]) 0 []) := rfl
  refine ⟨by rw [hc]; rfl, ?_, ?_⟩
  · unfold compressThenFlush
    rw [hc]
    rfl
  · intro a1 mem1 h n
    rw [hc] at h
    simp only [Option.some.injEq, Prod.mk.injEq] at h
    rw [← h.1, ← h.2]
    exact flushSteps_without_room n _ _ ⟨true, [40, 65]⟩ rfl (by simp) (by norm_num)
      (Nat.le_refl _) (Nat.le_refl _)

/-- C7: on a freshly constructed adapter `initialize()` either fails, which it does exactly
when one of the two context allocations fails, returning an error and leaving both contexts
null and no context allocated; or succeeds, both allocations having succeeded, leaving both
contexts non-null (the two contexts just allocated). -/
theorem init_atomic {CCtx DCtx : Type} (newCCtx : Option CCtx) (newDCtx : Option DCtx) :
    ((newCCtx = none ∨ newDCtx = none) ∧
      (ZstdCompressionAdapter.init (ZstdCompressionAdapter.ctor) newCCtx newDCtx).1 =
        NetResult.unexpected (make_network_error_code EBADF) ∧
      (ZstdCompressionAdapter.init (ZstdCompressionAdapter.ctor) newCCtx newDCtx).2.1.compressCtx_
        = none ∧
      (ZstdCompressionAdapter.init (ZstdCompressionAdapter.ctor) newCCtx
        newDCtx).2.1.decompressCtx_ = none ∧
      liveContexts (ZstdCompressionAdapter.init (ZstdCompressionAdapter.ctor) newCCtx
        newDCtx).2.2 = 0) ∨
    (∃ c d, newCCtx = some c ∧ newDCtx = some d ∧
      (ZstdCompressionAdapter.init (ZstdCompressionAdapter.ctor) newCCtx newDCtx).1 =
        NetResult.ok ∧
      (ZstdCompressionAdapter.init (ZstdCompressionAdapter.ctor) newCCtx newDCtx).2.1.compressCtx_
        = some c ∧
      (ZstdCompressionAdapter.init (ZstdCompressionAdapter.ctor) newCCtx
        newDCtx).2.1.decompressCtx_ = some d ∧
      liveContexts (ZstdCompressionAdapter.init (ZstdCompressionAdapter.ctor) newCCtx
        newDCtx).2.2 = 2) := by
  cases newCCtx with
  | none => left; simp [ZstdCompressionAdapter.init, ZstdCompressionAdapter.ctor, liveContexts]
  | some c =>
    cases newDCtx with
    | none =>
      left
      simp [ZstdCompressionAdapter.init, liveContexts]
    | some d =>
      right
      exact ⟨c, d, rfl, rfl, rfl, rfl, rfl, by simp [ZstdCompressionAdapter.init, liveContexts]⟩

/-- C8 (as stated, refuted): with the reference codec and the one-byte chunk `[40]` (the frame
magic) staged as input, `decompress()` consumes the whole chunk and the decoder can emit
nothing more without further input, yet `decompressionNeedInput()` is false afterwards. -/
theorem decompress_starved_needInput_false :
    ∃ r a1 mem1,
      ZstdCompressionAdapter.decompress frameCodec (stagedAdapter 40).1 0 0 (stagedAdapter 40).2
        = some (r, a1, mem1) ∧
      decoderStarved frameCodec a1 ∧ a1.decompressionNeedInput = false := by
  refine ⟨_, _, _, rfl, ⟨rfl, ?_⟩, rfl⟩
  intro d hd room
  have hd1 : d = true := (Option.some.inj hd).symm
  subst hd1
  simp [frameCodec]

/-- C8 (amended): `decompress()` does not update the flag: after every call that returns,
`decompressionNeedInput()` has the value it had before the call. The flag is false on a
freshly constructed adapter and `setDecompressionNeedInput(b)` makes it `b`. -/
theorem decompress_keeps_needInput {CCtx DCtx : Type} (z : Zstd CCtx DCtx)
    (a a1 : ZstdCompressionAdapter CCtx DCtx) (src size : Nat) (mem mem1 : Memory)
    (r : NetResult) (b : Bool)
    (h : ZstdCompressionAdapter.decompress z a src size mem = some (r, a1, mem1)) :
    a1.decompressionNeedInput = a.decompressionNeedInput ∧
    (ZstdCompressionAdapter.ctor : ZstdCompressionAdapter CCtx DCtx).decompressionNeedInput
      = false ∧
    (a.setDecompressionNeedInput b).decompressionNeedInput = b := by
  refine ⟨?_, rfl, rfl⟩
  dsimp only [ZstdCompressionAdapter.decompress] at h
  split at h
  · exact absurd h (by simp)
  · split at h <;>
      · simp only [Option.some.injEq, Prod.mk.injEq] at h
        rw [← h.2.1]
        rfl

/-- Witness of C8 (amended): the call on the staged one-byte chunk returns, and the flag,
false before, is false after. -/
theorem decompress_keeps_needInput_witness :
    ZstdCompressionAdapter.decompress frameCodec (stagedAdapter 40).1 0 0 (stagedAdapter 40).2
      = some (NetResult.ok,
          ⟨[], [], ⟨0, 0, 0⟩, ⟨0, 0, 0⟩, ⟨8192, 1, 1⟩, ⟨0, 0, 0⟩, some ⟨false, []⟩, some true,
            false⟩,
          writeBytes (stagedAdapter 40).2 0 []) ∧
    (false = (stagedAdapter 40).1.decompressionNeedInput ∧
      (ZstdCompressionAdapter.ctor :
        ZstdCompressionAdapter FrameCCtx Bool).decompressionNeedInput = false ∧
      ((stagedAdapter 40).1.setDecompressionNeedInput true).decompressionNeedInput = true) :=
  ⟨rfl, decompress_keeps_needInput frameCodec (stagedAdapter 40).1 _ 0 0 (stagedAdapter 40).2 _
    NetResult.ok true rfl⟩

/-- On an adapter whose decompress context is non-null, `decompress()` performs one codec
step on the windows the adapter holds and returns an error result, wrapping the code the step
returned, if and only if the codec reports that code as an error; it returns success
otherwise. -/
theorem decompress_error_iff {CCtx DCtx : Type} (z : Zstd CCtx DCtx)
    (a : ZstdCompressionAdapter CCtx DCtx) (d : DCtx) (src size : Nat) (mem : Memory)
    (h : a.decompressCtx_ = some d) :
    ∃ call, ZSTD_decompressStream z (some d) a.decompressOutBuf_ a.decompressInBuf_ mem
        = some call ∧
      ((ZstdCompressionAdapter.decompress z a src size mem).map (fun o => o.1)
          = some (NetResult.unexpected (make_zstd_error_code call.ret)) ↔
        z.isError call.ret = true) ∧
      ((ZstdCompressionAdapter.decompress z a src size mem).map (fun o => o.1)
          = some NetResult.ok ↔
        z.isError call.ret = false) := by
  refine ⟨_, rfl, ?_, ?_⟩ <;>
    · unfold ZstdCompressionAdapter.decompress
      rw [h]
      simp only [ZSTD_decompressStream]
      split <;> simp_all

/-- Evaluation of the preceding theorem: with the reference codec and the byte `255`, which
does not open a frame, placed in the decompress input window by hand, the decompress context
is non-null and `decompress()` returns the codec's prefix-unknown error. -/
theorem decompress_error_iff_witness :
    (stagedAdapter 255).1.decompressCtx_ = some false ∧
    (ZstdCompressionAdapter.decompress frameCodec (stagedAdapter 255).1 0 0
        (stagedAdapter 255).2).map (fun o => o.1)
      = some (NetResult.unexpected (make_zstd_error_code zstdPrefixUnknown)) ∧
    ∃ call, ZSTD_decompressStream frameCodec (some false) (stagedAdapter 255).1.decompressOutBuf_
        (stagedAdapter 255).1.decompressInBuf_ (stagedAdapter 255).2 = some call ∧
      ((ZstdCompressionAdapter.decompress frameCodec (stagedAdapter 255).1 0 0
          (stagedAdapter 255).2).map (fun o => o.1)
          = some (NetResult.unexpected (make_zstd_error_code call.ret)) ↔
        frameCodec.isError call.ret = true) ∧
      ((ZstdCompressionAdapter.decompress frameCodec (stagedAdapter 255).1 0 0
          (stagedAdapter 255).2).map (fun o => o.1)
          = some NetResult.ok ↔
        frameCodec.isError call.ret = false) :=
  ⟨rfl, rfl, decompress_error_iff frameCodec (stagedAdapter 255).1 false 0 0
    (stagedAdapter 255).2 rfl⟩

/-- On the path where the codec reports no error, `compress()` reaches the end of its body
without executing a `return` statement, for every codec, adapter with a non-null compress
context, source and size. -/
theorem compress_no_error_returns_nothing {CCtx DCtx : Type} (z : Zstd CCtx DCtx)
    (a : ZstdCompressionAdapter CCtx DCtx) (c : CCtx) (src size : Nat) (mem : Memory)
    (h : a.compressCtx_ = some c)
    (hok : z.isError (z.compressStep c (a.compressOutBuf_.size - a.compressOutBuf_.pos)
      (readBytes mem src size) ZSTD_EndDirective.ZSTD_e_continue).ret = false) :
    (ZstdCompressionAdapter.compress z a src size mem).map (fun o => o.1)
      = some Returned.missing := by
  unfold ZstdCompressionAdapter.compress
  simp only [ZstdCompressionAdapter.resetCompressionStreamInput, h, ZSTD_compressStream2,
    Nat.add_zero, Nat.sub_zero, hok, Bool.false_eq_true, if_false, Option.map_some']

/-- C10 (evaluation at the failing input): with the reference codec, `compress()` of one
byte on an initialised adapter, where the codec reports no error, hands back no
`net::result<void>` at all: control leaves the function without a `return` statement. -/
theorem compress_one_byte_returns_nothing :
    (ZstdCompressionAdapter.compress frameCodec frameAdapter 4096 1
      (writeBytes zeroMemory 4096 [65])).map (fun o => o.1) = some Returned.missing :=
  compress_no_error_returns_nothing frameCodec frameAdapter ⟨false, []⟩ 4096 1 _ rfl rfl

/-! ### The flush loop -/

/-- For every codec, adapter and memory, `flushCompressionStream()` never returns success:
what it returns is the error its first flush step reports. -/
theorem flushCompressionStream_never_succeeds {CCtx DCtx : Type} (z : Zstd CCtx DCtx)
    (a a1 : ZstdCompressionAdapter CCtx DCtx) (mem mem1 : Memory) (r : NetResult)
    (h : ZstdCompressionAdapter.flushCompressionStream z a mem = Run.done (r, a1, mem1)) :
    r ≠ NetResult.ok ∧
    ∃ code, flushResult z 0 a mem = some code ∧ z.isError code = true ∧
      r = NetResult.unexpected (make_zstd_error_code code) := by
  unfold ZstdCompressionAdapter.flushCompressionStream at h
  split at h
  · simp at h
  · rename_i call hcall
    split at h
    · rename_i herr
      simp only [Run.done.injEq, Prod.mk.injEq] at h
      refine ⟨by rw [← h.1]; simp, call.ret, ?_, herr, h.1.symm⟩
      simp [flushResult, afterFlushSteps, hcall]
    · simp at h

/-- C11 (evaluation at the failing input): with a codec whose first flush step returns `0`,
`flushCompressionStream()` on an initialised adapter does not return success: after the step
the loop condition `res != 0` names a variable that is declared only inside the loop body.
The same holds when the steps return `5`, `3`, `0`: no second step is made. Only a step that
reports an error leads to a `return`, of that error. -/
theorem flushCompressionStream_condition_undeclared :
    flushResult scriptedCodec 0 (scriptedAdapter [0]) zeroMemory = some 0 ∧
    ZstdCompressionAdapter.flushCompressionStream scriptedCodec (scriptedAdapter [0]) zeroMemory
      = Run.undeclared "res" ∧
    ZstdCompressionAdapter.flushCompressionStream scriptedCodec (scriptedAdapter [5, 3, 0])
      zeroMemory = Run.undeclared "res" ∧
    (match ZstdCompressionAdapter.flushCompressionStream scriptedCodec
        (scriptedAdapter [zstdPrefixUnknown, 0]) zeroMemory with
      | Run.done r => some r.1
      | _ => none)
      = some (NetResult.unexpected (make_zstd_error_code zstdPrefixUnknown)) := by
  refine ⟨rfl, rfl, rfl, ?_⟩
  decide

/-! ### The windows staged by `compress()` and `decompress()` -/

/-- C12: `compress(src, size)` on an adapter with a non-null compress context invokes the
codec with the compress input window `(src, size, 0)`, whatever the window and its cursor
were before, keeps `src` and `size` in the window afterwards, and leaves the decompress-side
input and output windows as they were. -/
theorem compress_stages_input_window {CCtx DCtx : Type} (z : Zstd CCtx DCtx)
    (a : ZstdCompressionAdapter CCtx DCtx) (c : CCtx) (src size : Nat) (mem : Memory)
    (h : a.compressCtx_ = some c) :
    (a.resetCompressionStreamInput src size).compressInBuf_ = ⟨src, size, 0⟩ ∧
    ∃ call r a1,
      ZSTD_compressStream2 z (some c) a.compressOutBuf_ ⟨src, size, 0⟩
        ZSTD_EndDirective.ZSTD_e_continue mem = some call ∧
      ZstdCompressionAdapter.compress z a src size mem = some (r, a1, call.mem) ∧
      a1.compressInBuf_ = call.input ∧
      a1.compressInBuf_.src = src ∧ a1.compressInBuf_.size = size ∧
      a1.decompressInBuf_ = a.decompressInBuf_ ∧
      a1.decompressOutBuf_ = a.decompressOutBuf_ := by
  refine ⟨rfl, ?_⟩
  unfold ZstdCompressionAdapter.compress
  simp only [ZstdCompressionAdapter.resetCompressionStreamInput, h, ZSTD_compressStream2]
  split
  · exact ⟨_, _, _, rfl, rfl, rfl, rfl, rfl, rfl, rfl⟩
  · exact ⟨_, _, _, rfl, rfl, rfl, rfl, rfl, rfl, rfl⟩

/-- Witness of C12: on the initialised reference adapter, whose compress context is
non-null, `compress(4096, 1)` stages the window `(4096, 1, 0)`. -/
theorem compress_stages_input_window_witness :
    frameAdapter.compressCtx_ = some ⟨false, []⟩ ∧
    ((frameAdapter.resetCompressionStreamInput 4096 1).compressInBuf_ = ⟨4096, 1, 0⟩ ∧
    ∃ call r a1,
      ZSTD_compressStream2 frameCodec (some ⟨false, []⟩) frameAdapter.compressOutBuf_
        ⟨4096, 1, 0⟩ ZSTD_EndDirective.ZSTD_e_continue (writeBytes zeroMemory 4096 [65])
        = some call ∧
      ZstdCompressionAdapter.compress frameCodec frameAdapter 4096 1
        (writeBytes zeroMemory 4096 [65]) = some (r, a1, call.mem) ∧
      a1.compressInBuf_ = call.input ∧
      a1.compressInBuf_.src = 4096 ∧ a1.compressInBuf_.size = 1 ∧
      a1.decompressInBuf_ = frameAdapter.decompressInBuf_ ∧
      a1.decompressOutBuf_ = frameAdapter.decompressOutBuf_) :=
  ⟨rfl, compress_stages_input_window frameCodec frameAdapter ⟨false, []⟩ 4096 1
    (writeBytes zeroMemory 4096 [65]) rfl⟩

/-- The member `decompress()` does not depend on its two parameters: the codec is invoked on
the output window the adapter already holds. -/
theorem decompress_ignores_parameters {CCtx DCtx : Type} (z : Zstd CCtx DCtx)
    (a : ZstdCompressionAdapter CCtx DCtx) (dst size : Nat) (mem : Memory) :
    ZstdCompressionAdapter.decompress z a dst size mem =
      ZstdCompressionAdapter.decompress z a 0 0 mem := rfl

/-- C13 (evaluation at the failing input): with the frame `[40, 65]` staged as input on the
initialised reference adapter, `decompress(12288, 16)` leaves the decompress output window
at the zeroed `(0, 0, 0)` of the constructor and the caller's buffer at `12288` untouched;
had `resetDecompressionStreamOutput(12288, 16)` been applied first, the window would be
`(12288, 16, 1)` and the buffer would hold the decoded byte `65`. -/
theorem decompress_leaves_caller_buffer_untouched :
    (ZstdCompressionAdapter.decompress frameCodec stagedFrame.1 12288 16 stagedFrame.2).map
        (fun o => (o.2.1.decompressOutBuf_, readBytes o.2.2 12288 1))
      = some (⟨0, 0, 0⟩, [0]) ∧
    (ZstdCompressionAdapter.decompress frameCodec
        (stagedFrame.1.resetDecompressionStreamOutput 12288 16) 12288 16 stagedFrame.2).map
        (fun o => (o.2.1.decompressOutBuf_, readBytes o.2.2 12288 1))
      = some (⟨12288, 16, 1⟩, [65]) := by
  constructor <;> rfl

/-! ### The listening socket -/

/-- C14: `accept()` returns no connection exactly when the underlying accept yields no
socket; otherwise it returns a connection wrapping exactly the accepted socket, for which the
non-null assertion of the `TCPClientConnection` constructor holds. On a listening socket
whose handle is null no accept is made and the call returns no connection, unless the failed
assertion stops the program. -/
theorem accept_result {W : Type} (assertHalts : Bool) (api : ListenApi W)
    (ls : TCPListenSocket) (w : W) :
    (ls.listenSocket_ = none ∧ acceptedSocket api ls w = none ∧
      TCPListenSocket.accept assertHalts api ls w =
        (if assertHalts then Outcome.assertHalt else Outcome.returned (none, w))) ∨
    (∃ l, ls.listenSocket_ = some l ∧
      ((acceptedSocket api ls w = none ∧
        TCPListenSocket.accept assertHalts api ls w =
          Outcome.returned (none, (api.socketAccept l w).2)) ∨
       (∃ s, acceptedSocket api ls w = some s ∧
        TCPListenSocket.accept assertHalts api ls w =
          Outcome.returned (some (IClientConnection.tcp (TCPClientConnection.ctor (some s))),
            (api.socketAccept l w).2) ∧
        (TCPClientConnection.ctor (some s)).socket_ = some s ∧
        TCPClientConnection.ctorAssertion (some s) = true))) := by
  rcases ls with ⟨_ | l⟩
  · left
    exact ⟨rfl, rfl, rfl⟩
  · right
    refine ⟨l, rfl, ?_⟩
    simp only [acceptedSocket, TCPListenSocket.accept]
    rcases hacc : api.socketAccept l w with ⟨_ | s, w1⟩
    · left
      exact ⟨rfl, rfl⟩
    · right
      exact ⟨s, rfl, rfl, rfl, rfl⟩

/-- Evaluation of `accept()` in the concrete world with two pending connections, and with
none. -/
theorem accept_demo :
    TCPListenSocket.accept false demoListenApi ⟨some ⟨3⟩⟩ 2 =
      Outcome.returned (some (IClientConnection.tcp ⟨some ⟨102⟩⟩), 1) ∧
    TCPListenSocket.accept false demoListenApi ⟨some ⟨3⟩⟩ 0 = Outcome.returned (none, 0) := by
  decide

/-- Evaluation of `supportedIpVersions()` on concrete listening sockets: dual-stack, IPv4
only, IPv6 only; and before and after an `accept()` on the same listening socket. -/
theorem supportedIpVersions_demo :
    TCPListenSocket.supportedIpVersions demoListenApi ⟨some ⟨3⟩⟩ 0 = Outcome.returned 3 ∧
    TCPListenSocket.supportedIpVersions demoListenApi ⟨some ⟨1⟩⟩ 0 = Outcome.returned 1 ∧
    TCPListenSocket.supportedIpVersions demoListenApi ⟨some ⟨2⟩⟩ 0 = Outcome.returned 2 ∧
    TCPListenSocket.supportedIpVersions demoListenApi ⟨some ⟨3⟩⟩ 2 = Outcome.returned 3 ∧
    TCPListenSocket.accept false demoListenApi ⟨some ⟨3⟩⟩ 2 =
      Outcome.returned (some (IClientConnection.tcp ⟨some ⟨102⟩⟩), 1) ∧
    TCPListenSocket.supportedIpVersions demoListenApi ⟨some ⟨3⟩⟩ 1 = Outcome.returned 3 := by
  decide

/-! ### The poll group -/

/-- A pointer that casts to a `TCPClientConnection` points to that TCP connection. -/
theorem dynamicCastTCP_eq_some (conn : Option IClientConnection) (c : TCPClientConnection)
    (h : dynamicCastTCP conn = some c) : conn = some (IClientConnection.tcp c) := by
  rcases conn with _ | (c1 | k)
  · simp [dynamicCastTCP] at h
  · simp only [dynamicCastTCP, Option.some.injEq] at h
    rw [h]
  · simp [dynamicCastTCP] at h

/-- C16 (as stated, refuted): where a failed assertion does not stop the program, `add` and
`remove` called with a connection of another transport kind fail the transport-kind
assertion and then return normally, the group being as before. -/
theorem pollGroup_mismatch_returns :
    TCPConnectionPollGroup.kindAssertion (some (IClientConnection.other 1)) = false ∧
    TCPConnectionPollGroup.add false specSocketSetApi ⟨some ⟨{some ⟨3⟩}⟩⟩
        (some (IClientConnection.other 1)) = Outcome.returned ⟨some ⟨{some ⟨3⟩}⟩⟩ ∧
    TCPConnectionPollGroup.remove false specSocketSetApi ⟨some ⟨{some ⟨3⟩}⟩⟩
        (some (IClientConnection.other 1)) = Outcome.returned ⟨some ⟨{some ⟨3⟩}⟩⟩ :=
  ⟨rfl, rfl, rfl⟩

/-- C16 (amended): for every connection that is not a TCP connection (a null pointer
included) the transport-kind assertion of `add` and `remove` fails and the wait-set is not
touched: the call stops the program when a failed assertion does, and otherwise returns with
the group unchanged. -/
theorem pollGroup_mismatch_leaves_group {S W : Type} (assertHalts : Bool)
    (api : SocketSetApi S W) (g : TCPConnectionPollGroup S) (conn : Option IClientConnection)
    (h : dynamicCastTCP conn = none) :
    TCPConnectionPollGroup.kindAssertion conn = false ∧
    TCPConnectionPollGroup.add assertHalts api g conn =
      (if assertHalts then Outcome.assertHalt else Outcome.returned g) ∧
    TCPConnectionPollGroup.remove assertHalts api g conn =
      (if assertHalts then Outcome.assertHalt else Outcome.returned g) := by
  refine ⟨?_, ?_, ?_⟩
  · simp [TCPConnectionPollGroup.kindAssertion, h]
  · simp only [TCPConnectionPollGroup.add, h]
  · simp only [TCPConnectionPollGroup.remove, h]

/-- Witness of C16 (amended): the null pointer is not a TCP connection; `add` and `remove`
called with it stop the program where a failed assertion does. -/
theorem pollGroup_mismatch_leaves_group_witness :
    dynamicCastTCP none = none ∧
    (TCPConnectionPollGroup.kindAssertion none = false ∧
    TCPConnectionPollGroup.add true specSocketSetApi ⟨some ⟨{some ⟨3⟩}⟩⟩ none =
      (if true then Outcome.assertHalt else Outcome.returned ⟨some ⟨{some ⟨3⟩}⟩⟩) ∧
    TCPConnectionPollGroup.remove true specSocketSetApi ⟨some ⟨{some ⟨3⟩}⟩⟩ none =
      (if true then Outcome.assertHalt else Outcome.returned ⟨some ⟨{some ⟨3⟩}⟩⟩)) :=
  ⟨rfl, pollGroup_mismatch_leaves_group true specSocketSetApi ⟨some ⟨{some ⟨3⟩}⟩⟩ none rfl⟩

/-- The wait-set functions modelled from the spec satisfy the contract `Conservative`. -/
theorem specSocketSetApi_conservative : specSocketSetApi.Conservative := by
  constructor
  · intro set socket
    exact Finset.Subset.refl _
  · intro set socket
    exact Finset.erase_subset _ _

/-- C17: for wait-set functions that bring in no socket other than the one given to
`SocketSet_AddSocket`, after any sequence of `add` and `remove` calls that returns, every
socket in the wait-set was there at the start or is the socket of a TCP connection passed to
`add`; and a returning `add` or `remove` with a connection that is not a TCP connection
leaves the group as it was. -/
theorem pollGroup_members_were_added {S W : Type} (assertHalts : Bool) (api : SocketSetApi S W)
    (ops : List PollOp) (g0 g : TCPConnectionPollGroup S)
    (hapi : api.Conservative)
    (hrun : runPollOps assertHalts api ops g0 = Outcome.returned g) :
    (∀ p, p ∈ TCPConnectionPollGroup.members api g →
      p ∈ TCPConnectionPollGroup.members api g0 ∨
      ∃ c, PollOp.add (some (IClientConnection.tcp c)) ∈ ops ∧ c.socket_ = p) ∧
    (∀ conn g1 g2, dynamicCastTCP conn = none →
      (TCPConnectionPollGroup.add assertHalts api g1 conn = Outcome.returned g2 → g2 = g1) ∧
      (TCPConnectionPollGroup.remove assertHalts api g1 conn = Outcome.returned g2 → g2 = g1)) := by
  constructor
  · induction ops generalizing g0 with
    | nil =>
      intro p hp
      simp only [runPollOps, Outcome.returned.injEq] at hrun
      rw [hrun]
      exact Or.inl hp
    | cons op ops ih =>
      intro p hp
      cases op with
      | add conn =>
        simp only [runPollOps] at hrun
        cases hdc : dynamicCastTCP conn with
        | none =>
          cases assertHalts <;> simp only [TCPConnectionPollGroup.add, hdc] at hrun
          · rcases ih g0 hrun p hp with h | ⟨c, hc, hs⟩
            · exact Or.inl h
            · exact Or.inr ⟨c, List.mem_cons_of_mem _ hc, hs⟩
          · simp at hrun
        | some c =>
          have hconn := dynamicCastTCP_eq_some conn c hdc
          cases hset : g0.sset_ with
          | none => simp [TCPConnectionPollGroup.add, hdc, hset] at hrun
          | some set =>
            simp only [TCPConnectionPollGroup.add, hdc, hset] at hrun
            rcases ih _ hrun p hp with h | ⟨c1, hc, hs⟩
            · simp only [TCPConnectionPollGroup.members] at h
              have h1 := hapi.1 set c.socket_ h
              rcases Finset.mem_insert.mp h1 with heq | hmem
              · exact Or.inr ⟨c, by rw [hconn]; exact List.mem_cons_self _ _, heq.symm⟩
              · left
                simp only [TCPConnectionPollGroup.members, hset]
                exact hmem
            · exact Or.inr ⟨c1, List.mem_cons_of_mem _ hc, hs⟩
      | remove conn =>
        simp only [runPollOps] at hrun
        cases hdc : dynamicCastTCP conn with
        | none =>
          cases assertHalts <;> simp only [TCPConnectionPollGroup.remove, hdc] at hrun
          · rcases ih g0 hrun p hp with h | ⟨c, hc, hs⟩
            · exact Or.inl h
            · exact Or.inr ⟨c, List.mem_cons_of_mem _ hc, hs⟩
          · simp at hrun
        | some c =>
          cases hset : g0.sset_ with
          | none => simp [TCPConnectionPollGroup.remove, hdc, hset] at hrun
          | some set =>
            simp only [TCPConnectionPollGroup.remove, hdc, hset] at hrun
            rcases ih _ hrun p hp with h | ⟨c1, hc, hs⟩
            · simp only [TCPConnectionPollGroup.members] at h
              left
              simp only [TCPConnectionPollGroup.members, hset]
              exact hapi.2 set c.socket_ h
            · exact Or.inr ⟨c1, List.mem_cons_of_mem _ hc, hs⟩
  · intro conn g1 g2 hdc
    constructor
    · intro h
      cases assertHalts <;> simp [TCPConnectionPollGroup.add, hdc] at h
      exact h.symm
    · intro h
      cases assertHalts <;> simp [TCPConnectionPollGroup.remove, hdc] at h
      exact h.symm

/-- Witness of C17: with the wait-set functions modelled from the spec, the calls
`add(tcp 3)`, `add(other)`, `remove(tcp 3)`, `add(tcp 5)` on an empty group return the group
holding socket `5` alone. -/
theorem pollGroup_members_were_added_witness :
    specSocketSetApi.Conservative ∧
    runPollOps false specSocketSetApi
      [PollOp.add (some (IClientConnection.tcp ⟨some ⟨3⟩⟩)),
       PollOp.add (some (IClientConnection.other 1)),
       PollOp.remove (some (IClientConnection.tcp ⟨some ⟨3⟩⟩)),
       PollOp.add (some (IClientConnection.tcp ⟨some ⟨5⟩⟩))]
      ⟨some ⟨∅⟩⟩ = Outcome.returned ⟨some ⟨{some ⟨5⟩}⟩⟩ ∧
    ((∀ p, p ∈ TCPConnectionPollGroup.members specSocketSetApi ⟨some ⟨{some ⟨5⟩}⟩⟩ →
      p ∈ TCPConnectionPollGroup.members specSocketSetApi ⟨some ⟨∅⟩⟩ ∨
      ∃ c, PollOp.add (some (IClientConnection.tcp c)) ∈
          [PollOp.add (some (IClientConnection.tcp ⟨some ⟨3⟩⟩)),
           PollOp.add (some (IClientConnection.other 1)),
           PollOp.remove (some (IClientConnection.tcp ⟨some ⟨3⟩⟩)),
           PollOp.add (some (IClientConnection.tcp ⟨some ⟨5⟩⟩))] ∧ c.socket_ = p) ∧
    (∀ conn g1 g2, dynamicCastTCP conn = none →
      (TCPConnectionPollGroup.add false specSocketSetApi g1 conn = Outcome.returned g2 →
        g2 = g1) ∧
      (TCPConnectionPollGroup.remove false specSocketSetApi g1 conn = Outcome.returned g2 →
        g2 = g1))) :=
  ⟨specSocketSetApi_conservative, by decide,
    pollGroup_members_were_added false specSocketSetApi _ ⟨some ⟨∅⟩⟩ ⟨some ⟨{some ⟨5⟩}⟩⟩
      specSocketSetApi_conservative (by decide)⟩

/-- C18 (as stated, refuted): on a group whose wait-set already holds socket `4`, `add` of
the TCP connection on socket `4` followed by `remove` of it leaves an empty wait-set, not
the one before the calls, and a subsequent `checkSockets` with socket `4` read-ready counts
`0` where it counted `1` before. -/
theorem pollGroup_add_remove_member_differs :
    runPollOps false specSocketSetApi
      [PollOp.add (some (IClientConnection.tcp ⟨some ⟨4⟩⟩)),
       PollOp.remove (some (IClientConnection.tcp ⟨some ⟨4⟩⟩))]
      ⟨some ⟨{some ⟨4⟩}⟩⟩ = Outcome.returned ⟨some ⟨∅⟩⟩ ∧
    TCPConnectionPollGroup.members specSocketSetApi ⟨some ⟨∅⟩⟩ ≠
      TCPConnectionPollGroup.members specSocketSetApi ⟨some ⟨{some ⟨4⟩}⟩⟩ ∧
    (tcp_checkSockets ⟨∅⟩ 10 demoWaitWorld).1 = 0 ∧
    (tcp_checkSockets ⟨{some ⟨4⟩}⟩ 10 demoWaitWorld).1 = 1 := by
  decide

/-- C18 (amended): with the wait-set functions modelled from the spec, `add(c)` immediately
followed by `remove(c)` of a TCP connection `c` leaves the wait-set without the socket of
`c`; when that socket was not in the wait-set before, the group, and with it the result of
any subsequent `checkSockets`, is identical to the one before the two calls. -/
theorem pollGroup_add_remove (assertHalts : Bool) (set : SocketSet) (c : TCPClientConnection) :
    runPollOps assertHalts specSocketSetApi
      [PollOp.add (some (IClientConnection.tcp c)), PollOp.remove (some (IClientConnection.tcp c))]
      ⟨some set⟩ = Outcome.returned ⟨some ⟨set.fds.erase c.socket_⟩⟩ ∧
    (c.socket_ ∉ set.fds →
      runPollOps assertHalts specSocketSetApi
        [PollOp.add (some (IClientConnection.tcp c)),
         PollOp.remove (some (IClientConnection.tcp c))]
        ⟨some set⟩ = Outcome.returned ⟨some set⟩ ∧
      ∀ timeout w,
        TCPConnectionPollGroup.checkSockets specSocketSetApi
            ⟨some ⟨set.fds.erase c.socket_⟩⟩ timeout w =
          TCPConnectionPollGroup.checkSockets specSocketSetApi ⟨some set⟩ timeout w) := by
  have hrun : runPollOps assertHalts specSocketSetApi
      [PollOp.add (some (IClientConnection.tcp c)), PollOp.remove (some (IClientConnection.tcp c))]
      ⟨some set⟩ = Outcome.returned ⟨some ⟨set.fds.erase c.socket_⟩⟩ := by
    simp [runPollOps, TCPConnectionPollGroup.add, TCPConnectionPollGroup.remove, dynamicCastTCP,
      specSocketSetApi, SocketSet_AddSocket, SocketSet_DelSocket]
  refine ⟨hrun, ?_⟩
  intro hnot
  have herase : (⟨set.fds.erase c.socket_⟩ : SocketSet) = set := by
    rw [Finset.erase_eq_of_not_mem hnot]
  rw [hrun, herase]
  exact ⟨rfl, fun _ _ => rfl⟩

/-- C19: with the wait function modelled from the spec, `checkSockets(timeout)` of a poll
group hands back what `tcp::checkSockets` yields on its wait-set. On a wait-set with zero
members that is `0` with no wait performed; in general it is the number of read-ready
members when the wait reports readiness, so it never exceeds the number of members and is
`0` when no member became ready within the timeout, and it is negative exactly when a wait
was made and reported an error. -/
theorem checkSockets_count (set : SocketSet) (timeout : Nat) (w : WaitWorld) :
    TCPConnectionPollGroup.checkSockets specSocketSetApi ⟨some set⟩ timeout w =
      Outcome.returned (tcp_checkSockets set timeout w) ∧
    (set.fds = ∅ → tcp_checkSockets set timeout w = (0, w)) ∧
    (tcp_checkSockets set timeout w).1 ≤ (set.fds.card : Int) ∧
    (∀ sockets, w.wait set.fds timeout = WaitResult.ready sockets →
      (tcp_checkSockets set timeout w).1 = ((sockets ∩ set.fds).card : Int)) ∧
    (∀ sockets, w.wait set.fds timeout = WaitResult.ready sockets → sockets ∩ set.fds = ∅ →
      (tcp_checkSockets set timeout w).1 = 0) ∧
    ((tcp_checkSockets set timeout w).1 < 0 ↔
      (set.fds ≠ ∅ ∧ w.wait set.fds timeout = WaitResult.error)) := by
  refine ⟨rfl, ?_, ?_, ?_, ?_, ?_⟩
  · intro h
    simp [tcp_checkSockets, h]
  · unfold tcp_checkSockets
    split
    · simp
    · split
      · simp only [SOCKET_ERROR]
        omega
      · simp only [Nat.cast_le]
        exact Finset.card_le_card Finset.inter_subset_right
  · intro sockets hw
    unfold tcp_checkSockets
    split
    · rename_i h
      simp [h]
    · simp [hw]
  · intro sockets hw hnone
    unfold tcp_checkSockets
    split
    · rfl
    · simp [hw, hnone]
  · unfold tcp_checkSockets
    split
    · rename_i h
      simp [h]
    · rename_i h
      split
      · rename_i hw
        simp [SOCKET_ERROR, h, hw]
      · rename_i sockets hw
        simp only [hw, ne_eq, h, not_false_eq_true, true_and]
        constructor
        · intro hlt
          have : (0 : Int) ≤ ((sockets ∩ set.fds).card : Int) := Int.natCast_nonneg _
          omega
        · intro hcontra
          cases hcontra

/-- Evaluation of `checkSockets` in the concrete world where the sockets with an even
descriptor are read-ready: two of the three members `2`, `3`, `4` are counted after one
wait, and the empty group gives `0` after no wait. -/
theorem checkSockets_demo :
    (tcp_checkSockets ⟨{some ⟨2⟩, some ⟨3⟩, some ⟨4⟩}⟩ 10 demoWaitWorld).1 = 2 ∧
    (tcp_checkSockets ⟨{some ⟨2⟩, some ⟨3⟩, some ⟨4⟩}⟩ 10 demoWaitWorld).2.waits = 1 ∧
    (tcp_checkSockets ⟨∅⟩ 10 demoWaitWorld).1 = 0 ∧
    (tcp_checkSockets ⟨∅⟩ 10 demoWaitWorld).2.waits = 0 := by
  decide

/-! ### Synchronous open of a resolved address -/

/-- C20: `TCPconnectionOpenAny` returns an absent connection exactly when the underlying
`tcp::socketOpenAny` yields no socket; otherwise it returns a connection wrapping exactly the
opened socket, for which the non-null assertion of the `TCPClientConnection` constructor
holds. -/
theorem TCPconnectionOpenAny_result {W : Type} (api : NetApi W) (addr : SocketAddress)
    (timeout : Nat) (w : W) :
    ((api.socketOpenAny addr timeout w).1 = none ∧
      (TCPconnectionOpenAny api addr timeout w).1 = none) ∨
    (∃ s, (api.socketOpenAny addr timeout w).1 = some s ∧
      (TCPconnectionOpenAny api addr timeout w).1 =
        some (IClientConnection.tcp (TCPClientConnection.ctor (some s))) ∧
      (TCPClientConnection.ctor (some s)).socket_ = some s ∧
      TCPClientConnection.ctorAssertion (some s) = true) := by
  unfold TCPconnectionOpenAny
  rcases hopen : api.socketOpenAny addr timeout w with ⟨_ | s, w1⟩
  · left
    exact ⟨rfl, rfl⟩
  · right
    exact ⟨s, rfl, rfl, rfl, rfl⟩

/-- Evaluation of `TCPconnectionOpenAny` in the concrete worlds where the socket open
succeeds with socket `7`, and where it fails. -/
theorem TCPconnectionOpenAny_demo :
    (TCPconnectionOpenAny demoApi ⟨1⟩ 15000 ⟨true, true, true, 0⟩).1 =
      some (IClientConnection.tcp ⟨some ⟨7⟩⟩) ∧
    (TCPconnectionOpenAny demoApi ⟨1⟩ 15000 ⟨true, false, true, 0⟩).1 = none := by
  decide

/-! ### The compress output window -/

/-- C21 (evaluation at the failing input): on a freshly constructed and initialised adapter
the compress output window is the zeroed `(nullptr, 0, 0)` of the constructor, with no
remaining capacity; `compress()` of one byte invokes the codec on that window, after which
the window is unchanged, `compressionOutBuffer()` is empty and the byte is held by the
codec. -/
theorem compress_output_window_is_null :
    (ZstdCompressionAdapter.ctor : ZstdCompressionAdapter FrameCCtx Bool).compressOutBuf_
      = ⟨0, 0, 0⟩ ∧
    frameAdapter.compressOutBuf_ = ⟨0, 0, 0⟩ ∧
    frameAdapter.compressOutBuf_.size - frameAdapter.compressOutBuf_.pos = 0 ∧
    (ZstdCompressionAdapter.compress frameCodec frameAdapter 4096 1
        (writeBytes zeroMemory 4096 [65])).map
      (fun o => (o.2.1.compressOutBuf_, o.2.1.compressionOutBuffer, o.2.1.compressCtx_))
      = some (⟨0, 0, 0⟩, [], some ⟨true, [40, 65]⟩) := by
  refine ⟨rfl, rfl, rfl, rfl⟩

/-- No member function assigns the compress output window: `compress()` invokes the codec on
the window the adapter holds, for every codec, and only the cursor of that window moves. -/
theorem compress_keeps_output_window {CCtx DCtx : Type} (z : Zstd CCtx DCtx)
    (a a1 : ZstdCompressionAdapter CCtx DCtx) (src size : Nat) (mem mem1 : Memory)
    (r : Returned)
    (h : ZstdCompressionAdapter.compress z a src size mem = some (r, a1, mem1)) :
    a1.compressOutBuf_.dst = a.compressOutBuf_.dst ∧
    a1.compressOutBuf_.size = a.compressOutBuf_.size := by
  dsimp only [ZstdCompressionAdapter.compress] at h
  split at h
  · exact absurd h (by simp)
  · rename_i call hcall
    have hout : call.output.dst = a.compressOutBuf_.dst ∧
        call.output.size = a.compressOutBuf_.size := by
      simp only [ZSTD_compressStream2, ZstdCompressionAdapter.resetCompressionStreamInput]
        at hcall
      split at hcall
      · exact absurd hcall (by simp)
      · simp only [Option.some.injEq] at hcall
        rw [← hcall]
        exact ⟨rfl, rfl⟩
    split at h <;>
      · simp only [Option.some.injEq, Prod.mk.injEq] at h
        rw [← h.2.1]
        exact hout

/-! ### `SetDecals` -/

/-- C23 (evaluation at the failing input): for a decal file whose records hold `3`, nothing
that parses, and `512`, the first is written, the second is skipped, and the third passes
the range check `(unsigned)tiledecal > MAX_TERRAIN_TILES` and is written at index `512` of
the array of `512` entries. -/
theorem SetDecals_writes_past_end :
    SetDecals [3, -1, 512] = DecalWrite.outOfBounds 512 ∧
    (List.replicate MAX_TERRAIN_TILES false).length = 512 := by
  have hlen : (List.replicate MAX_TERRAIN_TILES false).length = 512 :=
    (List.length_replicate _ _).trans rfl
  refine ⟨?_, hlen⟩
  unfold SetDecals
  generalize List.replicate MAX_TERRAIN_TILES false = mapDecals at hlen
  have h3 : toUnsigned32 3 = 3 := by decide
  have hneg : toUnsigned32 (-1) = 4294967295 := by decide
  have h512 : toUnsigned32 512 = 512 := by decide
  simp [SetDecals_loop, h3, hneg, h512, hlen, MAX_TERRAIN_TILES]

/-- The index `MAX_TERRAIN_TILES` is the only one the range check lets through past the end:
for `int` values of `tiledecal`, a write outside an array of `MAX_TERRAIN_TILES` entries is
at index `512`. -/
theorem SetDecals_loop_outOfBounds (tiledecals : List Int) :
    ∀ (mapDecals : List Bool) (i : Int),
      (∀ t ∈ tiledecals, -2 ^ 31 ≤ t ∧ t < 2 ^ 31) →
      mapDecals.length = MAX_TERRAIN_TILES →
      SetDecals_loop tiledecals mapDecals = DecalWrite.outOfBounds i → i = 512 := by
  induction tiledecals with
  | nil =>
    intro mapDecals i _ _ h
    simp [SetDecals_loop] at h
  | cons t ts ih =>
    intro mapDecals i hrange hlen h
    have ht := hrange t (List.mem_cons_self _ _)
    have hts : ∀ t1 ∈ ts, -2 ^ 31 ≤ t1 ∧ t1 < 2 ^ 31 :=
      fun t1 h1 => hrange t1 (List.mem_cons_of_mem _ h1)
    unfold SetDecals_loop at h
    split at h
    · exact ih mapDecals i hts hlen h
    · rename_i hle
      split at h
      · exact ih _ i hts (by simpa using hlen) h
      · rename_i hnot
        simp only [DecalWrite.outOfBounds.injEq] at h
        subst h
        simp only [toUnsigned32, MAX_TERRAIN_TILES, hlen] at hle hnot
        omega

/-! ### `swapMissionPointers` -/

/-- After the swap loop over `n` elements each array holds the elements of the other below
`n` and its own from `n` on. -/
theorem swapLoop_apply (n : Nat) (a b : Nat → Nat) :
    ∀ i, (swapLoop n a b).1 i = (if i < n then b i else a i) ∧
      (swapLoop n a b).2 i = (if i < n then a i else b i) := by
  induction n with
  | zero => intro i; simp [swapLoop]
  | succ k ih =>
    intro i
    simp only [swapLoop]
    by_cases hik : i = k
    · subst hik
      have h1 := (ih i).1
      have h2 := (ih i).2
      simp only [Nat.lt_irrefl, if_false] at h1 h2
      simp [h1, h2]
    · rw [Function.update_noteq hik, Function.update_noteq hik, (ih i).1, (ih i).2]
      by_cases h1 : i < k
      · simp [h1, Nat.lt_succ_of_lt h1]
      · have h2 : ¬ i < k + 1 := by omega
        simp [h1, h2]

/-- The swap loop applied twice gives back both arrays. -/
theorem swapLoop_involutive (n : Nat) (a b : Nat → Nat) :
    swapLoop n (swapLoop n a b).1 (swapLoop n a b).2 = (a, b) := by
  apply Prod.ext
  · funext i
    rw [(swapLoop_apply n _ _ i).1, (swapLoop_apply n a b i).1, (swapLoop_apply n a b i).2]
    by_cases h : i < n <;> simp [h]
  · funext i
    rw [(swapLoop_apply n _ _ i).2, (swapLoop_apply n a b i).1, (swapLoop_apply n a b i).2]
    by_cases h : i < n <;> simp [h]

/-- C27: `swapMissionPointers` called twice in a row gives back the current and the mission
values it touches (map tiles, width and height, block and aux maps, gateways, scroll limits,
object lists) exactly as they were, and a single call puts each mission value in the place of
its current counterpart and the other way round: the scalars outright, the arrays element by
element below their size. -/
theorem swapMissionPointers_involutive (sz : ArraySizes) (g : CurrentGame) (mission : MISSION) :
    swapMissionPointers sz (swapMissionPointers sz g mission).1
        (swapMissionPointers sz g mission).2 = (g, mission) ∧
    ((swapMissionPointers sz g mission).1.psMapTiles = mission.psMapTiles ∧
      (swapMissionPointers sz g mission).2.psMapTiles = g.psMapTiles ∧
      (swapMissionPointers sz g mission).1.mapWidth = mission.mapWidth ∧
      (swapMissionPointers sz g mission).2.mapWidth = g.mapWidth ∧
      (swapMissionPointers sz g mission).1.mapHeight = mission.mapHeight ∧
      (swapMissionPointers sz g mission).2.mapHeight = g.mapHeight ∧
      (swapMissionPointers sz g mission).1.gateways = mission.psGateways ∧
      (swapMissionPointers sz g mission).2.psGateways = g.gateways ∧
      (swapMissionPointers sz g mission).1.scrollMinX = mission.scrollMinX ∧
      (swapMissionPointers sz g mission).2.scrollMinX = g.scrollMinX ∧
      (swapMissionPointers sz g mission).1.scrollMinY = mission.scrollMinY ∧
      (swapMissionPointers sz g mission).2.scrollMinY = g.scrollMinY ∧
      (swapMissionPointers sz g mission).1.scrollMaxX = mission.scrollMaxX ∧
      (swapMissionPointers sz g mission).2.scrollMaxX = g.scrollMaxX ∧
      (swapMissionPointers sz g mission).1.scrollMaxY = mission.scrollMaxY ∧
      (swapMissionPointers sz g mission).2.scrollMaxY = g.scrollMaxY) ∧
    (∀ i, i < sz.AUX_MAX →
      (swapMissionPointers sz g mission).1.psBlockMap i = mission.psBlockMap i ∧
      (swapMissionPointers sz g mission).2.psBlockMap i = g.psBlockMap i) ∧
    (∀ i, i < sz.MAX_PLAYERS + sz.AUX_MAX →
      (swapMissionPointers sz g mission).1.psAuxMap i = mission.psAuxMap i ∧
      (swapMissionPointers sz g mission).2.psAuxMap i = g.psAuxMap i) ∧
    (∀ i, i < sz.MAX_PLAYERS →
      (swapMissionPointers sz g mission).1.apsDroidLists i = mission.apsDroidLists i ∧
      (swapMissionPointers sz g mission).2.apsDroidLists i = g.apsDroidLists i ∧
      (swapMissionPointers sz g mission).1.apsStructLists i = mission.apsStructLists i ∧
      (swapMissionPointers sz g mission).2.apsStructLists i = g.apsStructLists i ∧
      (swapMissionPointers sz g mission).1.apsFeatureLists i = mission.apsFeatureLists i ∧
      (swapMissionPointers sz g mission).2.apsFeatureLists i = g.apsFeatureLists i ∧
      (swapMissionPointers sz g mission).1.apsFlagPosLists i = mission.apsFlagPosLists i ∧
      (swapMissionPointers sz g mission).2.apsFlagPosLists i = g.apsFlagPosLists i ∧
      (swapMissionPointers sz g mission).1.apsExtractorLists i = mission.apsExtractorLists i ∧
      (swapMissionPointers sz g mission).2.apsExtractorLists i = g.apsExtractorLists i) ∧
    ((swapMissionPointers sz g mission).1.apsSensorList 0 = mission.apsSensorList 0 ∧
      (swapMissionPointers sz g mission).2.apsSensorList 0 = g.apsSensorList 0 ∧
      (swapMissionPointers sz g mission).1.apsOilList 0 = mission.apsOilList 0 ∧
      (swapMissionPointers sz g mission).2.apsOilList 0 = g.apsOilList 0) := by
  refine ⟨?_, ?_, ?_, ?_, ?_, ?_⟩
  · simp only [swapMissionPointers, swapLoop_involutive]
  · exact ⟨rfl, rfl, rfl, rfl, rfl, rfl, rfl, rfl, rfl, rfl, rfl, rfl, rfl, rfl, rfl, rfl⟩
  · intro i hi
    simp only [swapMissionPointers, swapLoop_apply, hi, if_true, and_self]
  · intro i hi
    simp only [swapMissionPointers, swapLoop_apply, hi, if_true, and_self]
  · intro i hi
    simp only [swapMissionPointers, swapLoop_apply, hi, if_true, and_self]
  · simp only [swapMissionPointers, swapLoop_apply, Nat.lt_one_iff, if_true, and_self]

/-! ### `tileSetFire` -/

/-- Setting the bits of a mask leaves them set. -/
theorem lor_land_self_ne_zero (a b : Nat) (h : a &&& b ≠ 0) : (a ||| b) &&& b ≠ 0 := by
  have hb : (a ||| b) &&& b = b := by
    apply Nat.eq_of_testBit_eq
    intro i
    simp only [Nat.testBit_and, Nat.testBit_or]
    cases a.testBit i <;> cases b.testBit i <;> rfl
  rw [hb]
  intro h0
  apply h
  rw [h0]
  exact Nat.and_zero a

/-- C28: on a tile that is burning, `tileSetFire` never shortens the fire: the remaining
burn time `(uint16_t)(fireEndTime - currentTime)` after the call is at least the one before,
and the tile is still burning; and a call whose end tick equals the current tick leaves the
tile as it was. -/
theorem tileSetFire_never_shortens (c : MapConsts) (gameTime duration : Nat) (tile : MAPTILE)
    (hburn : TileIsBurning c tile = true) :
    remainingBurn c gameTime tile ≤
      remainingBurn c gameTime (tileSetFire c gameTime duration tile) ∧
    TileIsBurning c (tileSetFire c gameTime duration tile) = true ∧
    (fireEndTick c gameTime duration = fireCurrentTime c gameTime →
      tileSetFire c gameTime duration tile = tile) := by
  have hbits : tile.tileInfoBits &&& c.BITS_ON_FIRE ≠ 0 := by
    simpa [TileIsBurning] using hburn
  refine ⟨?_, ?_, ?_⟩
  · unfold tileSetFire
    simp only []
    split
    · exact Nat.le_refl _
    · split
      · exact Nat.le_refl _
      · rename_i hnot
        simp only [Bool.and_eq_true, bne_iff_ne, ne_eq, decide_eq_true_eq, not_and, not_lt]
          at hnot
        exact hnot hbits
  · unfold tileSetFire
    simp only []
    split
    · exact hburn
    · split
      · exact hburn
      · simp only [TileIsBurning, bne_iff_ne, ne_eq]
        exact lor_land_self_ne_zero _ _ hbits
  · intro heq
    unfold tileSetFire
    simp [heq]

/-- Witness of C28: a tile burning until tick `50`, set on fire again at game time `1000`
(tick `10`) for `500` ticks of game time (until tick `15`), keeps its `40` ticks of remaining
burn time. -/
theorem tileSetFire_never_shortens_witness :
    TileIsBurning wzConsts ⟨16, 0, 0, 0, 0, 0, 50, 0⟩ = true ∧
    remainingBurn wzConsts 1000 ⟨16, 0, 0, 0, 0, 0, 50, 0⟩ = 40 ∧
    (remainingBurn wzConsts 1000 ⟨16, 0, 0, 0, 0, 0, 50, 0⟩ ≤
      remainingBurn wzConsts 1000 (tileSetFire wzConsts 1000 500 ⟨16, 0, 0, 0, 0, 0, 50, 0⟩) ∧
    TileIsBurning wzConsts (tileSetFire wzConsts 1000 500 ⟨16, 0, 0, 0, 0, 0, 50, 0⟩) = true ∧
    (fireEndTick wzConsts 1000 500 = fireCurrentTime wzConsts 1000 →
      tileSetFire wzConsts 1000 500 ⟨16, 0, 0, 0, 0, 0, 50, 0⟩ = ⟨16, 0, 0, 0, 0, 0, 50, 0⟩)) :=
  ⟨by decide, by decide,
    tileSetFire_never_shortens wzConsts 1000 500 ⟨16, 0, 0, 0, 0, 0, 50, 0⟩ (by decide)⟩

/-- Evaluation of `tileSetFire`: a longer fire replaces the end tick, a shorter one does
not. -/
theorem tileSetFire_demo :
    (tileSetFire wzConsts 1000 9000 ⟨16, 0, 0, 0, 0, 0, 50, 0⟩).fireEndTime = 100 ∧
    (tileSetFire wzConsts 1000 500 ⟨16, 0, 0, 0, 0, 0, 50, 0⟩).fireEndTime = 50 ∧
    (tileSetFire wzConsts 1000 500 ⟨0, 0, 0, 0, 0, 0, 50, 0⟩) = ⟨16, 0, 0, 0, 0, 0, 15, 0⟩ := by
  decide

/-! ### The mission clock -/

/-- C30 (as stated, refuted): when cheating begins at game time `0` the stored cheat time is
`0`, which the timer reads as "not cheating": at game time `100` during the cheat the timer
computes `100` elapsed, not the `0` elapsed when cheating began. -/
theorem missionTimer_runs_when_cheat_starts_at_zero :
    (setMissionCheatTime true 0 (demoMission 0)).cheatTime = 0 ∧
    missionTimeElapsed 100 (setMissionCheatTime true 0 (demoMission 0)) = 100 ∧
    sub32 0 (demoMission 0).startTime = 0 := by
  decide

/-- C30 (amended): after `setMissionCheatTime(true)` at game time `g1` and
`setMissionCheatTime(false)` at game time `g2`, `mission.cheatTime` is `0` and the elapsed
mission time `g2 - mission.startTime` equals, modulo `2 ^ 32`, the elapsed time
`g1 - startTime` when cheating began; when `g1` is not `0`, that is also the elapsed time the
mission timer computes at every game time during the cheat. -/
theorem setMissionCheatTime_pauses_clock (mission : MISSION) (g1 g2 : Nat) :
    (setMissionCheatTime false g2 (setMissionCheatTime true g1 mission)).cheatTime = 0 ∧
    sub32 g2 (setMissionCheatTime false g2 (setMissionCheatTime true g1 mission)).startTime
      = sub32 g1 mission.startTime ∧
    (g1 ≠ 0 → ∀ g, missionTimeElapsed g (setMissionCheatTime true g1 mission)
      = sub32 g1 mission.startTime) := by
  refine ⟨rfl, ?_, ?_⟩
  · simp only [setMissionCheatTime, if_true, Bool.false_eq_true, if_false, sub32]
    omega
  · intro h g
    simp [missionTimeElapsed, setMissionCheatTime, h]

/-- Evaluation of the mission clock: started at `1000`, cheat from `5000` to `9000`; the
timer shows `4000` elapsed during the cheat and at its end. -/
theorem setMissionCheatTime_demo :
    missionTimeElapsed 7000 (setMissionCheatTime true 5000 (demoMission 1000)) = 4000 ∧
    missionTimeElapsed 9000
      (setMissionCheatTime false 9000 (setMissionCheatTime true 5000 (demoMission 1000)))
      = 4000 ∧
    (setMissionCheatTime false 9000
      (setMissionCheatTime true 5000 (demoMission 1000))).startTime = 5000 := by
  decide

/-! ### `loadTerrainTypeMap` -/

/-- The loop of `loadTerrainTypeMap` started at index `i` on a table with room for the
entries left: it answers true exactly when every entry left is at most `TER_MAX`, and then
the table holds those entries from index `i` on and is unchanged elsewhere. -/
theorem loadTerrainTypeMap_loop_spec (c : MapConsts) (hmax : c.TER_MAX < 256)
    (rest : List Nat) :
    ∀ (i : Nat) (table : List Nat), i + rest.length ≤ table.length →
      ((loadTerrainTypeMap_loop c i rest table).1 = true ↔ ∀ t ∈ rest, t ≤ c.TER_MAX) ∧
      ((loadTerrainTypeMap_loop c i rest table).1 = true →
        (loadTerrainTypeMap_loop c i rest table).2.length = table.length ∧
        ∀ j, (loadTerrainTypeMap_loop c i rest table).2.getD j 0 =
          if i ≤ j ∧ j < i + rest.length then rest.getD (j - i) 0 else table.getD j 0) := by
  induction rest with
  | nil =>
    intro i table _
    simp only [loadTerrainTypeMap_loop, List.not_mem_nil, false_imp_iff, implies_true,
      List.length_nil, Nat.add_zero, true_and, iff_self, forall_const]
    intro j
    have hno : ¬ (i ≤ j ∧ j < i) := by omega
    simp [hno]
  | cons t ts ih =>
    intro i table hlen
    simp only [List.length_cons] at hlen
    unfold loadTerrainTypeMap_loop
    by_cases ht : t > c.TER_MAX
    · simp only [ht, if_true, Bool.false_eq_true, false_iff, false_imp_iff, and_true]
      intro hall
      exact absurd (hall t (List.mem_cons_self _ _)) (by omega)
    · simp only [ht, if_false]
      have hle : t ≤ c.TER_MAX := by omega
      have hmod : t % 256 = t := Nat.mod_eq_of_lt (by omega)
      have hih := ih (i + 1) (table.set i (t % 256)) (by simp only [List.length_set]; omega)
      refine ⟨?_, ?_⟩
      · rw [hih.1]
        simp [hle]
      · intro hok
        obtain ⟨hl, hget⟩ := hih.2 hok
        refine ⟨by simpa using hl, ?_⟩
        intro j
        rw [hget j]
        by_cases hji : j = i
        · subst hji
          have h1 : ¬ (j + 1 ≤ j ∧ j < j + 1 + ts.length) := by omega
          have h2 : j ≤ j ∧ j < j + (ts.length + 1) := by omega
          have h3 : j < table.length := by omega
          simp [h1, h2, h3, hmod, List.getD_eq_getElem?_getD]
        · by_cases hin : i + 1 ≤ j ∧ j < i + 1 + ts.length
          · have h2 : i ≤ j ∧ j < i + (ts.length + 1) := by omega
            obtain ⟨k, hk⟩ : ∃ k, j - i = k + 1 := ⟨j - i - 1, by omega⟩
            have hk1 : j - (i + 1) = k := by omega
            simp [hin, h2, hk, hk1]
          · have h2 : ¬ (i ≤ j ∧ j < i + (ts.length + 1)) := by omega
            have hne : i ≠ j := fun h => hji h.symm
            simp [hin, h2, List.getD_eq_getElem?_getD, List.getElem?_set_ne hne]

/-- C29: for constants with `TER_MAX` below `256` and a nonempty table, `loadTerrainTypeMap`
on non-null data of `n` entries returns true if and only if each of the first
`min n (MAX_TILE_TEXTURES - 1)` entries is at most `TER_MAX`; on success the table has
`MAX_TILE_TEXTURES` entries, entry `i` of the data at every index `i` below that count and
`0` at every other index. -/
theorem loadTerrainTypeMap_result (c : MapConsts) (assertHalts : Bool) (data old : List Nat)
    (hmax : c.TER_MAX < 256) (hsize : 0 < c.MAX_TILE_TEXTURES) :
    ∃ ok table,
      loadTerrainTypeMap c assertHalts (some data) old = Outcome.returned (ok, table) ∧
      (ok = true ↔
        ∀ t ∈ data.take (min data.length (c.MAX_TILE_TEXTURES - 1)), t ≤ c.TER_MAX) ∧
      (ok = true →
        table.length = c.MAX_TILE_TEXTURES ∧
        ∀ i, i < c.MAX_TILE_TEXTURES →
          table.getD i 0 =
            if i < min data.length (c.MAX_TILE_TEXTURES - 1) then data.getD i 0 else 0) := by
  have hq : terrainTypeQuantity c data.length = min data.length (c.MAX_TILE_TEXTURES - 1) := by
    unfold terrainTypeQuantity
    split <;> omega
  have hlen : 0 + (data.take (min data.length (c.MAX_TILE_TEXTURES - 1))).length ≤
      (List.replicate c.MAX_TILE_TEXTURES 0).length := by
    simp only [List.length_take, List.length_replicate]
    omega
  have hspec := loadTerrainTypeMap_loop_spec c hmax
    (data.take (min data.length (c.MAX_TILE_TEXTURES - 1))) 0
    (List.replicate c.MAX_TILE_TEXTURES 0) hlen
  refine ⟨(loadTerrainTypeMap_loop c 0 (data.take (min data.length (c.MAX_TILE_TEXTURES - 1)))
      (List.replicate c.MAX_TILE_TEXTURES 0)).1,
    (loadTerrainTypeMap_loop c 0 (data.take (min data.length (c.MAX_TILE_TEXTURES - 1)))
      (List.replicate c.MAX_TILE_TEXTURES 0)).2, ?_, ?_, ?_⟩
  · simp only [loadTerrainTypeMap, hq]
  · exact hspec.1
  · intro hok
    obtain ⟨hl, hget⟩ := hspec.2 hok
    refine ⟨by simpa using hl, ?_⟩
    intro i hi
    rw [hget i]
    have htl : (data.take (min data.length (c.MAX_TILE_TEXTURES - 1))).length =
        min data.length (c.MAX_TILE_TEXTURES - 1) := by
      simp only [List.length_take]
      omega
    by_cases hin : i < min data.length (c.MAX_TILE_TEXTURES - 1)
    · have h1 : 0 ≤ i ∧ i < 0 + (data.take (min data.length (c.MAX_TILE_TEXTURES - 1))).length := by
        omega
      simp only [h1, and_self, if_true, hin, Nat.sub_zero, List.getD_eq_getElem?_getD,
        List.getElem?_take_of_lt hin]
    · have h1 : ¬ (0 ≤ i ∧ i < 0 + (data.take (min data.length (c.MAX_TILE_TEXTURES - 1))).length) := by
        omega
      simp [h1, hin, List.getD_eq_getElem?_getD, hi]

/-- Witness of C29: with the constants of the game headers (`TER_MAX = 12`,
`MAX_TILE_TEXTURES = 255`) the data `[1, 7, 12]` loads; the rejected data `[1, 13]` is
evaluated alongside. -/
theorem loadTerrainTypeMap_result_witness :
    wzConsts.TER_MAX < 256 ∧ 0 < wzConsts.MAX_TILE_TEXTURES ∧
    (∃ table, loadTerrainTypeMap wzConsts false (some [1, 13]) [] =
      Outcome.returned (false, table)) ∧
    ∃ ok table,
      loadTerrainTypeMap wzConsts false (some [1, 7, 12]) [] = Outcome.returned (ok, table) ∧
      (ok = true ↔
        ∀ t ∈ ([1, 7, 12] : List Nat).take
          (min ([1, 7, 12] : List Nat).length (wzConsts.MAX_TILE_TEXTURES - 1)),
          t ≤ wzConsts.TER_MAX) ∧
      (ok = true →
        table.length = wzConsts.MAX_TILE_TEXTURES ∧
        ∀ i, i < wzConsts.MAX_TILE_TEXTURES →
          table.getD i 0 =
            if i < min ([1, 7, 12] : List Nat).length (wzConsts.MAX_TILE_TEXTURES - 1)
            then ([1, 7, 12] : List Nat).getD i 0 else 0) :=
  ⟨by decide, by decide, ⟨_, rfl⟩,
    loadTerrainTypeMap_result wzConsts false [1, 7, 12] [] (by decide) (by decide)⟩

/-! ### `map_Height` -/

/-- A value that fits `int32_t` is its own conversion to `int32_t`. -/
theorem toInt32_eq (v : Int) (h1 : -2 ^ 31 ≤ v) (h2 : v < 2 ^ 31) : toInt32 v = v := by
  unfold toInt32
  norm_num at h1 h2 ⊢
  omega

/-- The interpolation of `map_Height` between two corners `l`, `r` of the tile and its
centre stays, before the final scaling, between `lo * T` and `hi * T` when the four corner
heights lie between `lo` and `hi`. `s` is the sum of the four corner heights, `tC` and `tR`
the distances towards the centre and towards the right corner. -/
theorem map_Height_interpolation (T l r s tC tR lo hi : Int)
    (hl : lo ≤ l ∧ l ≤ hi) (hr : lo ≤ r ∧ r ≤ hi)
    (hs : 2 * lo ≤ s - l - r ∧ s - l - r ≤ 2 * hi) (hlo : 0 ≤ lo)
    (h1 : 0 ≤ tC) (h2 : tC ≤ tR) (h3 : tC + tR ≤ T) :
    lo * T ≤ l * (T - tR) + r * tR + (Int.tdiv s 4 - Int.tdiv (l + r) 2) * tC * 2 ∧
    l * (T - tR) + r * tR + (Int.tdiv s 4 - Int.tdiv (l + r) 2) * tC * 2 ≤ hi * T := by
  have hs0 : 0 ≤ s := by omega
  have hlr0 : 0 ≤ l + r := by omega
  rw [Int.tdiv_eq_ediv hs0 (by decide), Int.tdiv_eq_ediv hlr0 (by decide)]
  have hc1 : lo ≤ s / 4 := by omega
  have hc2 : s / 4 ≤ hi := by omega
  have he0 : 0 ≤ l + r - 2 * ((l + r) / 2) := by omega
  have he1 : 0 ≤ 2 * (hi - s / 4) - (l + r - 2 * ((l + r) / 2)) := by omega
  have p1 := mul_nonneg (sub_nonneg.mpr hl.1) (by linarith : (0 : Int) ≤ T - tR - tC)
  have p2 := mul_nonneg (sub_nonneg.mpr hr.1) (by linarith : (0 : Int) ≤ tR - tC)
  have p3 := mul_nonneg (sub_nonneg.mpr hc1) h1
  have p4 := mul_nonneg he0 h1
  have q1 := mul_nonneg (sub_nonneg.mpr hl.2) (by linarith : (0 : Int) ≤ T - tR - tC)
  have q2 := mul_nonneg (sub_nonneg.mpr hr.2) (by linarith : (0 : Int) ≤ tR - tC)
  have q3 := mul_nonneg he1 h1
  constructor
  · nlinarith [p1, p2, p3, p4]
  · nlinarith [q1, q2, q3]

/-- The final scaling `(result + TILE_UNITS / 2) / TILE_UNITS` of `map_Height` maps a result
between `lo * T` and `hi * T` to a height between `lo` and `hi`. -/
theorem map_Height_scaling (T R lo hi : Int) (hT : 0 < T) (hlo : 0 ≤ lo)
    (h1 : lo * T ≤ R) (h2 : R ≤ hi * T) :
    lo ≤ Int.tdiv (R + Int.tdiv T 2) T ∧ Int.tdiv (R + Int.tdiv T 2) T ≤ hi := by
  have hT2 : Int.tdiv T 2 = T / 2 := Int.tdiv_eq_ediv (le_of_lt hT) (by decide)
  have hhalf : 0 ≤ T / 2 ∧ T / 2 < T := by omega
  have hR0 : 0 ≤ R := le_trans (mul_nonneg hlo (le_of_lt hT)) h1
  rw [hT2, Int.tdiv_eq_ediv (by omega) (le_of_lt hT)]
  constructor
  · exact Int.le_ediv_of_mul_le hT (by linarith)
  · have hlt : R + T / 2 < (hi + 1) * T := by nlinarith
    exact Int.lt_add_one_iff.mp (Int.ediv_lt_of_lt_mul hT hlt)

/-- The least and the greatest of four heights bound each of them. -/
theorem min4_max4_bounds (a b c d : Int) :
    (min4 a b c d ≤ a ∧ min4 a b c d ≤ b ∧ min4 a b c d ≤ c ∧ min4 a b c d ≤ d) ∧
    (a ≤ max4 a b c d ∧ b ≤ max4 a b c d ∧ c ≤ max4 a b c d ∧ d ≤ max4 a b c d) := by
  unfold min4 max4
  omega

/-- When the corner heights `l`, `r` and the other two corners (`s` is the sum of the four)
lie between `0` and a bound `M` with `4 * M` and `M * T + T` below `2 ^ 31`, no operation of
the interpolation of `map_Height` leaves `int32_t`: its result is the one over the
integers. -/
theorem map_Height_interpolate_eq (T l r s tC tR M : Int) (hT : 0 < T)
    (hl : 0 ≤ l ∧ l ≤ M) (hr : 0 ≤ r ∧ r ≤ M)
    (hs : 0 ≤ s - l - r ∧ s - l - r ≤ 2 * M)
    (h1 : 0 ≤ tC) (h2 : tC ≤ tR) (h3 : tC + tR ≤ T)
    (hM4 : 4 * M < 2 ^ 31) (hMT : M * T + T < 2 ^ 31) :
    map_Height_interpolate T l r (Int.tdiv s 4) tC tR =
      Int.tdiv (l * (T - tR) + r * tR + (Int.tdiv s 4 - Int.tdiv (l + r) 2) * tC * 2
        + Int.tdiv T 2) T := by
  have hM0 : 0 ≤ M := le_trans hl.1 hl.2
  have hs0 : 0 ≤ s := by omega
  have hlr0 : 0 ≤ l + r := by omega
  have hc : Int.tdiv s 4 = s / 4 := Int.tdiv_eq_ediv hs0 (by decide)
  have hm : Int.tdiv (l + r) 2 = (l + r) / 2 := Int.tdiv_eq_ediv hlr0 (by decide)
  have hT2 : Int.tdiv T 2 = T / 2 := Int.tdiv_eq_ediv (le_of_lt hT) (by decide)
  have hhalf : 0 ≤ T / 2 ∧ T / 2 < T := by omega
  have hMT0 : 0 ≤ M * T := mul_nonneg hM0 (le_of_lt hT)
  have hbig : (2 : Int) ^ 31 = 2147483648 := by norm_num
  rw [hbig] at hM4 hMT
  have hneg : -(2 : Int) ^ 31 = -2147483648 := by norm_num
  -- the bounds of the intermediate values
  have b_lr : 0 ≤ l + r ∧ l + r ≤ 2 * M := by omega
  have b_TtR : 0 ≤ T - tR ∧ T - tR ≤ T := by omega
  have b_l : 0 ≤ l * (T - tR) ∧ l * (T - tR) ≤ M * (T - tR) :=
    ⟨mul_nonneg hl.1 b_TtR.1, mul_le_mul_of_nonneg_right hl.2 b_TtR.1⟩
  have b_r : 0 ≤ r * tR ∧ r * tR ≤ M * tR :=
    ⟨mul_nonneg hr.1 (by omega), mul_le_mul_of_nonneg_right hr.2 (by omega)⟩
  have b_MtR : M * (T - tR) + M * tR = M * T := by ring
  have b_MtR0 : 0 ≤ M * (T - tR) := mul_nonneg hM0 b_TtR.1
  have b_MtR1 : 0 ≤ M * tR := mul_nonneg hM0 (by omega)
  have b_cm : -M ≤ s / 4 - (l + r) / 2 ∧ s / 4 - (l + r) / 2 ≤ M := by omega
  have b_MtC : 0 ≤ M * tC ∧ 2 * (M * tC) ≤ M * T := by
    refine ⟨mul_nonneg hM0 h1, ?_⟩
    have : M * (2 * tC) ≤ M * T := mul_le_mul_of_nonneg_left (by omega) hM0
    linarith [this]
  have b_d : -(M * tC) ≤ (s / 4 - (l + r) / 2) * tC ∧ (s / 4 - (l + r) / 2) * tC ≤ M * tC := by
    constructor
    · have := mul_le_mul_of_nonneg_right b_cm.1 h1
      linarith [this]
    · exact mul_le_mul_of_nonneg_right b_cm.2 h1
  have b_res := map_Height_interpolation T l r s tC tR 0 M hl hr (by omega) (le_refl 0) h1 h2 h3
  rw [hc, hm] at b_res
  simp only [zero_mul] at b_res
  unfold map_Height_interpolate
  simp only [addInt32, subInt32, mulInt32, hc, hm, hT2]
  rw [toInt32_eq (l + r) (by rw [hneg]; omega) (by rw [hbig]; omega), hm]
  rw [toInt32_eq (T - tR) (by rw [hneg]; omega) (by rw [hbig]; omega)]
  rw [toInt32_eq (l * (T - tR)) (by rw [hneg]; linarith [b_l.1])
    (by rw [hbig]; linarith [b_l.2, b_MtR1])]
  rw [toInt32_eq (r * tR) (by rw [hneg]; linarith [b_r.1])
    (by rw [hbig]; linarith [b_r.2, b_MtR0])]
  rw [toInt32_eq (l * (T - tR) + r * tR) (by rw [hneg]; linarith [b_l.1, b_r.1])
    (by rw [hbig]; linarith [b_l.2, b_r.2])]
  rw [toInt32_eq (s / 4 - (l + r) / 2) (by rw [hneg]; omega) (by rw [hbig]; omega)]
  rw [toInt32_eq ((s / 4 - (l + r) / 2) * tC) (by rw [hneg]; linarith [b_d.1, b_MtC.2, b_MtC.1])
    (by rw [hbig]; linarith [b_d.2, b_MtC.2, b_MtC.1])]
  rw [toInt32_eq ((s / 4 - (l + r) / 2) * tC * 2)
    (by rw [hneg]; linarith [b_d.1, b_MtC.2, b_MtC.1])
    (by rw [hbig]; linarith [b_d.2, b_MtC.2, b_MtC.1])]
  rw [toInt32_eq (l * (T - tR) + r * tR + (s / 4 - (l + r) / 2) * tC * 2)
    (by rw [hneg]; linarith [b_res.1]) (by rw [hbig]; linarith [b_res.2])]
  rw [toInt32_eq (l * (T - tR) + r * tR + (s / 4 - (l + r) / 2) * tC * 2 + T / 2)
    (by rw [hneg]; linarith [b_res.1, hhalf.1]) (by rw [hbig]; linarith [b_res.2, hhalf.2])]

/-- On a tile whose corner heights lie between `0` and a bound `M` with `4 * M` and
`M * T + T` below `2 ^ 31`, at every point `(onTileX, onTileY)` of the tile, the
interpolated height lies between the least and the greatest corner height. -/
theorem map_Height_onTile_between (T h00 h01 h10 h11 X Y M : Int) (hT : 0 < T)
    (hX : 0 ≤ X ∧ X < T) (hY : 0 ≤ Y ∧ Y < T)
    (p00 : 0 ≤ h00 ∧ h00 ≤ M) (p01 : 0 ≤ h01 ∧ h01 ≤ M) (p10 : 0 ≤ h10 ∧ h10 ≤ M)
    (p11 : 0 ≤ h11 ∧ h11 ≤ M) (hM4 : 4 * M < 2 ^ 31) (hMT : M * T + T < 2 ^ 31) :
    min4 h00 h01 h10 h11 ≤ map_Height_onTile T h00 h01 h10 h11 X Y ∧
    map_Height_onTile T h00 h01 h10 h11 X Y ≤ max4 h00 h01 h10 h11 := by
  obtain ⟨⟨l1, l2, l3, l4⟩, ⟨u1, u2, u3, u4⟩⟩ := min4_max4_bounds h00 h01 h10 h11
  have hlo : 0 ≤ min4 h00 h01 h10 h11 := by
    unfold min4
    omega
  have hbig : (2 : Int) ^ 31 = 2147483648 := by norm_num
  have hneg : -(2 : Int) ^ 31 = -2147483648 := by norm_num
  have hM4' := hM4
  have hMT' := hMT
  rw [hbig] at hM4' hMT'
  have hM0 : 0 ≤ M := le_trans p00.1 p00.2
  have hTlt : T < 2147483648 := by
    have := mul_nonneg hM0 (le_of_lt hT)
    linarith
  have e0 : addInt32 0 h00 = h00 := by
    unfold addInt32
    rw [zero_add]
    exact toInt32_eq _ (by rw [hneg]; omega) (by rw [hbig]; omega)
  have e1 : addInt32 h00 h01 = h00 + h01 :=
    toInt32_eq _ (by rw [hneg]; omega) (by rw [hbig]; omega)
  have e2 : addInt32 (h00 + h01) h10 = h00 + h01 + h10 :=
    toInt32_eq _ (by rw [hneg]; omega) (by rw [hbig]; omega)
  have e3 : addInt32 (h00 + h01 + h10) h11 = h00 + h01 + h10 + h11 :=
    toInt32_eq _ (by rw [hneg]; omega) (by rw [hbig]; omega)
  have eX : subInt32 T X = T - X :=
    toInt32_eq _ (by rw [hneg]; omega) (by rw [hbig]; omega)
  have eY : subInt32 T Y = T - Y :=
    toInt32_eq _ (by rw [hneg]; omega) (by rw [hbig]; omega)
  unfold map_Height_onTile
  simp only [e0, e1, e2, e3, eX, eY]
  by_cases hA : Y > X
  · by_cases hB : Y < T - X
    · simp only [hA, hB, if_true]
      rw [map_Height_interpolate_eq T h01 h00 (h00 + h01 + h10 + h11) X (T - Y) M hT p01 p00
        (by omega) hX.1 (by omega) (by omega) hM4 hMT]
      obtain ⟨b1, b2⟩ := map_Height_interpolation T h01 h00 (h00 + h01 + h10 + h11) X (T - Y)
        (min4 h00 h01 h10 h11) (max4 h00 h01 h10 h11) ⟨l2, u2⟩ ⟨l1, u1⟩
        (by omega) hlo hX.1 (by omega) (by omega)
      exact map_Height_scaling T _ _ _ hT hlo b1 b2
    · simp only [hA, hB, if_true, if_false]
      rw [map_Height_interpolate_eq T h11 h01 (h00 + h01 + h10 + h11) (T - Y) (T - X) M hT
        p11 p01 (by omega) (by omega) (by omega) (by omega) hM4 hMT]
      obtain ⟨b1, b2⟩ := map_Height_interpolation T h11 h01 (h00 + h01 + h10 + h11) (T - Y)
        (T - X) (min4 h00 h01 h10 h11) (max4 h00 h01 h10 h11) ⟨l4, u4⟩ ⟨l2, u2⟩
        (by omega) hlo (by omega) (by omega) (by omega)
      exact map_Height_scaling T _ _ _ hT hlo b1 b2
  · by_cases hC : X > T - Y
    · simp only [hA, hC, if_true, if_false]
      rw [map_Height_interpolate_eq T h10 h11 (h00 + h01 + h10 + h11) (T - X) Y M hT
        p10 p11 (by omega) (by omega) (by omega) (by omega) hM4 hMT]
      obtain ⟨b1, b2⟩ := map_Height_interpolation T h10 h11 (h00 + h01 + h10 + h11) (T - X) Y
        (min4 h00 h01 h10 h11) (max4 h00 h01 h10 h11) ⟨l3, u3⟩ ⟨l4, u4⟩
        (by omega) hlo (by omega) (by omega) (by omega)
      exact map_Height_scaling T _ _ _ hT hlo b1 b2
    · simp only [hA, hC, if_false]
      rw [map_Height_interpolate_eq T h00 h10 (h00 + h01 + h10 + h11) Y X M hT
        p00 p10 (by omega) hY.1 (by omega) (by omega) hM4 hMT]
      obtain ⟨b1, b2⟩ := map_Height_interpolation T h00 h10 (h00 + h01 + h10 + h11) Y X
        (min4 h00 h01 h10 h11) (max4 h00 h01 h10 h11) ⟨l1, u1⟩ ⟨l3, u3⟩
        (by omega) hlo hY.1 (by omega) (by omega)
      exact map_Height_scaling T _ _ _ hT hlo b1 b2

/-- At the corner `(0, 0)` of a tile whose corner heights lie between `0` and such a bound
`M`, the interpolated height is the height of that corner. -/
theorem map_Height_onTile_corner (T h00 h01 h10 h11 M : Int) (hT : 0 < T)
    (p00 : 0 ≤ h00 ∧ h00 ≤ M) (p01 : 0 ≤ h01 ∧ h01 ≤ M) (p10 : 0 ≤ h10 ∧ h10 ≤ M)
    (p11 : 0 ≤ h11 ∧ h11 ≤ M) (hM4 : 4 * M < 2 ^ 31) (hMT : M * T + T < 2 ^ 31) :
    map_Height_onTile T h00 h01 h10 h11 0 0 = h00 := by
  have hbig : (2 : Int) ^ 31 = 2147483648 := by norm_num
  have hneg : -(2 : Int) ^ 31 = -2147483648 := by norm_num
  have hM4' := hM4
  have hMT' := hMT
  rw [hbig] at hM4' hMT'
  have hM0 : 0 ≤ M := le_trans p00.1 p00.2
  have hTlt : T < 2147483648 := by
    have := mul_nonneg hM0 (le_of_lt hT)
    linarith
  have e0 : addInt32 0 h00 = h00 := by
    unfold addInt32
    rw [zero_add]
    exact toInt32_eq _ (by rw [hneg]; omega) (by rw [hbig]; omega)
  have e1 : addInt32 h00 h01 = h00 + h01 :=
    toInt32_eq _ (by rw [hneg]; omega) (by rw [hbig]; omega)
  have e2 : addInt32 (h00 + h01) h10 = h00 + h01 + h10 :=
    toInt32_eq _ (by rw [hneg]; omega) (by rw [hbig]; omega)
  have e3 : addInt32 (h00 + h01 + h10) h11 = h00 + h01 + h10 + h11 :=
    toInt32_eq _ (by rw [hneg]; omega) (by rw [hbig]; omega)
  have eT : subInt32 T 0 = T - 0 :=
    toInt32_eq _ (by rw [hneg]; omega) (by rw [hbig]; omega)
  have hneg0 : ¬ (0 : Int) > T - 0 := by omega
  have hirr : ¬ (0 : Int) > 0 := by omega
  unfold map_Height_onTile
  simp only [e0, e1, e2, e3, eT, hneg0, hirr, if_false]
  rw [map_Height_interpolate_eq T h00 h10 (h00 + h01 + h10 + h11) 0 0 M hT
    p00 p10 (by omega) (le_refl 0) (le_refl 0) (by omega) hM4 hMT]
  have hR : h00 * (T - 0) + h10 * 0
      + (Int.tdiv (h00 + h01 + h10 + h11) 4 - Int.tdiv (h00 + h10) 2) * 0 * 2 = h00 * T := by
    ring
  rw [hR]
  obtain ⟨b1, b2⟩ := map_Height_scaling T (h00 * T) h00 h00 hT p00.1 (le_refl _) (le_refl _)
  omega

/-- The tile size `TILE_UNITS` is positive. -/
theorem TILE_UNITS_pos (c : MapConsts) : 0 < c.TILE_UNITS := by
  unfold MapConsts.TILE_UNITS
  positivity

/-- The greatest of four heights in range is in range. -/
theorem HeightInRange_max4 (c : MapConsts) (h00 h01 h10 h11 : Int)
    (p00 : HeightInRange c h00) (p01 : HeightInRange c h01) (p10 : HeightInRange c h10)
    (p11 : HeightInRange c h11) : HeightInRange c (max4 h00 h01 h10 h11) := by
  have hcase : max4 h00 h01 h10 h11 = h00 ∨ max4 h00 h01 h10 h11 = h01 ∨
      max4 h00 h01 h10 h11 = h10 ∨ max4 h00 h01 h10 h11 = h11 := by
    unfold max4
    omega
  rcases hcase with h | h | h | h <;> rw [h] <;> assumption

/-- C24 (as stated, refuted): on a four-by-four map whose tile `(1, 2)` has the corner
heights `20000005`, `20000007`, `20000006` and `20000008`, all non-negative, the point
`(200, 333)` lies inside the map and `map_Height` returns `-13554424`, below the least corner
height: the products of a height and a distance on the tile leave `int32_t`. -/
theorem map_Height_overflows :
    ((0 : Int) ≤ 200 ∧ (200 : Int) < world_coord wzConsts 4) ∧
    ((0 : Int) ≤ 333 ∧ (333 : Int) < world_coord wzConsts 4) ∧
    (map_coord wzConsts 200 = 1 ∧ map_coord wzConsts 333 = 2) ∧
    min4 (highSurface 1 2) (highSurface 1 3) (highSurface 2 2) (highSurface 2 3) = 20000005 ∧
    max4 (highSurface 1 2) (highSurface 1 3) (highSurface 2 2) (highSurface 2 3) = 20000008 ∧
    map_Height_assertions wzConsts 4 4 200 333 = true ∧
    map_Height wzConsts 4 4 highSurface 200 333 = -13554424 := by
  decide

/-- C24 (amended): for a world coordinate `(x, y)` inside a map whose size in world units,
one tile more, is below `2 ^ 31`, and surface heights `h` at the four corners of the
containing tile that are in range (`0 ≤ h`, `4 * h < 2 ^ 31` and
`h * TILE_UNITS + TILE_UNITS < 2 ^ 31`), `map_Height(x, y)` lies between the least and the
greatest of the four corner heights, the coordinate assertions of the function hold, and at
a point exactly on a tile corner the result is that corner's surface height. -/
theorem map_Height_between (c : MapConsts) (mapWidth mapHeight : Int)
    (surface : Int → Int → Int) (x y : Int)
    (hx : 0 ≤ x ∧ x < world_coord c mapWidth) (hy : 0 ≤ y ∧ y < world_coord c mapHeight)
    (hW : world_coord c mapWidth + c.TILE_UNITS < 2 ^ 31)
    (hH : world_coord c mapHeight + c.TILE_UNITS < 2 ^ 31)
    (p00 : HeightInRange c (surface (map_coord c x) (map_coord c y)))
    (p01 : HeightInRange c (surface (map_coord c x) (map_coord c y + 1)))
    (p10 : HeightInRange c (surface (map_coord c x + 1) (map_coord c y)))
    (p11 : HeightInRange c (surface (map_coord c x + 1) (map_coord c y + 1))) :
    min4 (surface (map_coord c x) (map_coord c y)) (surface (map_coord c x) (map_coord c y + 1))
        (surface (map_coord c x + 1) (map_coord c y))
        (surface (map_coord c x + 1) (map_coord c y + 1))
      ≤ map_Height c mapWidth mapHeight surface x y ∧
    map_Height c mapWidth mapHeight surface x y ≤
      max4 (surface (map_coord c x) (map_coord c y)) (surface (map_coord c x) (map_coord c y + 1))
        (surface (map_coord c x + 1) (map_coord c y))
        (surface (map_coord c x + 1) (map_coord c y + 1)) ∧
    map_Height_assertions c mapWidth mapHeight x y = true ∧
    (x = world_coord c (map_coord c x) → y = world_coord c (map_coord c y) →
      map_Height c mapWidth mapHeight surface x y = surface (map_coord c x) (map_coord c y)) := by
  have hT := TILE_UNITS_pos c
  have hbig : (2 : Int) ^ 31 = 2147483648 := by norm_num
  have hneg : -(2 : Int) ^ 31 = -2147483648 := by norm_num
  have hW' := hW
  have hH' := hH
  rw [hbig] at hW' hH'
  have hX : 0 ≤ x - world_coord c (map_coord c x) ∧ x - world_coord c (map_coord c x)
      < c.TILE_UNITS := by
    unfold world_coord map_coord
    have h1 := Int.emod_nonneg x (ne_of_gt hT)
    have h2 := Int.emod_lt_of_pos x hT
    have h3 := Int.emod_add_ediv x c.TILE_UNITS
    constructor <;> nlinarith
  have hY : 0 ≤ y - world_coord c (map_coord c y) ∧ y - world_coord c (map_coord c y)
      < c.TILE_UNITS := by
    unfold world_coord map_coord
    have h1 := Int.emod_nonneg y (ne_of_gt hT)
    have h2 := Int.emod_lt_of_pos y hT
    have h3 := Int.emod_add_ediv y c.TILE_UNITS
    constructor <;> nlinarith
  have htx : 0 ≤ map_coord c x ∧ map_coord c x ≤ x := by
    unfold map_coord
    exact ⟨Int.ediv_nonneg hx.1 (le_of_lt hT), Int.ediv_le_self _ hx.1⟩
  have hty : 0 ≤ map_coord c y ∧ map_coord c y ≤ y := by
    unfold map_coord
    exact ⟨Int.ediv_nonneg hy.1 (le_of_lt hT), Int.ediv_le_self _ hy.1⟩
  have eW : toInt32 (world_coord c mapWidth) = world_coord c mapWidth :=
    toInt32_eq _ (by rw [hneg]; omega) (by rw [hbig]; omega)
  have eH : toInt32 (world_coord c mapHeight) = world_coord c mapHeight :=
    toInt32_eq _ (by rw [hneg]; omega) (by rw [hbig]; omega)
  have eW1 : subInt32 (world_coord c mapWidth) 1 = world_coord c mapWidth - 1 :=
    toInt32_eq _ (by rw [hneg]; omega) (by rw [hbig]; omega)
  have eH1 : subInt32 (world_coord c mapHeight) 1 = world_coord c mapHeight - 1 :=
    toInt32_eq _ (by rw [hneg]; omega) (by rw [hbig]; omega)
  have hmx : min (max x 0) (world_coord c mapWidth - 1) = x := by omega
  have hmy : min (max y 0) (world_coord c mapHeight - 1) = y := by omega
  have eTx : toInt32 (world_coord c (map_coord c x)) = world_coord c (map_coord c x) :=
    toInt32_eq _ (by rw [hneg]; omega) (by rw [hbig]; omega)
  have eTy : toInt32 (world_coord c (map_coord c y)) = world_coord c (map_coord c y) :=
    toInt32_eq _ (by rw [hneg]; omega) (by rw [hbig]; omega)
  have eOx : subInt32 x (world_coord c (map_coord c x)) = x - world_coord c (map_coord c x) :=
    toInt32_eq _ (by rw [hneg]; omega) (by rw [hbig]; omega)
  have eOy : subInt32 y (world_coord c (map_coord c y)) = y - world_coord c (map_coord c y) :=
    toInt32_eq _ (by rw [hneg]; omega) (by rw [hbig]; omega)
  have eX1 : addInt32 (map_coord c x) 1 = map_coord c x + 1 :=
    toInt32_eq _ (by rw [hneg]; omega) (by rw [hbig]; omega)
  have eY1 : addInt32 (map_coord c y) 1 = map_coord c y + 1 :=
    toInt32_eq _ (by rw [hneg]; omega) (by rw [hbig]; omega)
  have hdef : map_Height c mapWidth mapHeight surface x y =
      map_Height_onTile c.TILE_UNITS (surface (map_coord c x) (map_coord c y))
        (surface (map_coord c x) (map_coord c y + 1))
        (surface (map_coord c x + 1) (map_coord c y))
        (surface (map_coord c x + 1) (map_coord c y + 1))
        (x - world_coord c (map_coord c x)) (y - world_coord c (map_coord c y)) := by
    unfold map_Height
    simp only [eW, eH, eW1, eH1, hmx, hmy, eTx, eTy, eOx, eOy, eX1, eY1]
  obtain ⟨⟨_, _, _, _⟩, ⟨u1, u2, u3, u4⟩⟩ := min4_max4_bounds
    (surface (map_coord c x) (map_coord c y)) (surface (map_coord c x) (map_coord c y + 1))
    (surface (map_coord c x + 1) (map_coord c y))
    (surface (map_coord c x + 1) (map_coord c y + 1))
  have hM := HeightInRange_max4 c _ _ _ _ p00 p01 p10 p11
  obtain ⟨b1, b2⟩ := map_Height_onTile_between c.TILE_UNITS _ _ _ _ _ _ _ hT hX hY
    ⟨p00.1, u1⟩ ⟨p01.1, u2⟩ ⟨p10.1, u3⟩ ⟨p11.1, u4⟩ hM.2.1 hM.2.2
  refine ⟨by rw [hdef]; exact b1, by rw [hdef]; exact b2, ?_, ?_⟩
  · have hmax0 : max x 0 = x ∧ max y 0 = y := by omega
    have eWT : addInt32 (world_coord c mapWidth) c.TILE_UNITS
        = world_coord c mapWidth + c.TILE_UNITS :=
      toInt32_eq _ (by rw [hneg]; omega) (by rw [hbig]; omega)
    have eHT : addInt32 (world_coord c mapHeight) c.TILE_UNITS
        = world_coord c mapHeight + c.TILE_UNITS :=
      toInt32_eq _ (by rw [hneg]; omega) (by rw [hbig]; omega)
    simp only [map_Height_assertions, hmax0.1, hmax0.2, eW, eH, eWT, eHT, ge_iff_le,
      Bool.and_eq_true, decide_eq_true_eq]
    omega
  · intro hcx hcy
    rw [hdef]
    have h0x : x - world_coord c (map_coord c x) = 0 := by omega
    have h0y : y - world_coord c (map_coord c y) = 0 := by omega
    rw [h0x, h0y]
    exact map_Height_onTile_corner _ _ _ _ _ _ hT ⟨p00.1, u1⟩ ⟨p01.1, u2⟩ ⟨p10.1, u3⟩
      ⟨p11.1, u4⟩ hM.2.1 hM.2.2

/-- Witness of C24: on a two-by-two map with the demonstration surface, the point
`(64, 64)`, the centre of tile `(0, 0)` whose corners have heights `10`, `15`, `20`, `25`,
has height `17`; the corner `(128, 128)` of tile `(1, 1)` has that corner's height `25`. -/
theorem map_Height_between_witness :
    ((0 : Int) ≤ 64 ∧ (64 : Int) < world_coord wzConsts 2) ∧
    world_coord wzConsts 2 + wzConsts.TILE_UNITS < 2 ^ 31 ∧
    HeightInRange wzConsts (demoSurface (map_coord wzConsts 64) (map_coord wzConsts 64)) ∧
    map_Height wzConsts 2 2 demoSurface 64 64 = 17 ∧
    map_Height wzConsts 2 2 demoSurface 128 128 = 25 ∧
    (min4 (demoSurface (map_coord wzConsts 64) (map_coord wzConsts 64))
        (demoSurface (map_coord wzConsts 64) (map_coord wzConsts 64 + 1))
        (demoSurface (map_coord wzConsts 64 + 1) (map_coord wzConsts 64))
        (demoSurface (map_coord wzConsts 64 + 1) (map_coord wzConsts 64 + 1))
      ≤ map_Height wzConsts 2 2 demoSurface 64 64 ∧
    map_Height wzConsts 2 2 demoSurface 64 64 ≤
      max4 (demoSurface (map_coord wzConsts 64) (map_coord wzConsts 64))
        (demoSurface (map_coord wzConsts 64) (map_coord wzConsts 64 + 1))
        (demoSurface (map_coord wzConsts 64 + 1) (map_coord wzConsts 64))
        (demoSurface (map_coord wzConsts 64 + 1) (map_coord wzConsts 64 + 1)) ∧
    map_Height_assertions wzConsts 2 2 64 64 = true ∧
    (64 = world_coord wzConsts (map_coord wzConsts 64) →
      64 = world_coord wzConsts (map_coord wzConsts 64) →
      map_Height wzConsts 2 2 demoSurface 64 64 =
        demoSurface (map_coord wzConsts 64) (map_coord wzConsts 64))) :=
  ⟨by decide, by decide, by unfold HeightInRange; decide, by decide, by decide,
    map_Height_between wzConsts 2 2 demoSurface 64 64 (by decide) (by decide) (by decide)
      (by decide) (by unfold HeightInRange; decide) (by unfold HeightInRange; decide)
      (by unfold HeightInRange; decide) (by unfold HeightInRange; decide)⟩

/-! ### `map_LineIntersect` -/

/-- The selection loop ends on one of its tests or on the value it started from. -/
theorem selectFirst_lt (numer denom : Nat → Int) (tests : List Nat) :
    ∀ fi, fi < 5 → (∀ t ∈ tests, t < 5) → selectFirst numer denom tests fi < 5 := by
  induction tests with
  | nil => intro fi h _; exact h
  | cons t ts ih =>
    intro fi hfi hts
    have ht : t < 5 := hts t (List.mem_cons_self _ _)
    have hrest : ∀ t1 ∈ ts, t1 < 5 := fun t1 h1 => hts t1 (List.mem_cons_of_mem _ h1)
    simp only [selectFirst, List.foldl_cons]
    split
    · exact ih t ht hrest
    · exact ih fi hfi hrest

/-- The last test of the selection loop, against the case `4` with `numer[4] = denom[4] = 1`,
leaves a valid case selected whatever was selected before it. -/
theorem selectFirst_last (numer denom : Nat → Int) (h4n : numer 4 = 1) (h4d : denom 4 = 1)
    (fi : Nat) (hfi : fi < 5) :
    SelectedCaseValid numer denom (selectFirst numer denom [4] fi) := by
  simp only [selectFirst, List.foldl_cons, List.foldl_nil]
  by_cases hf : fracTest (numer fi) (denom fi) (numer 4) (denom 4) = true
  · simp only [hf, Bool.not_true, Bool.false_eq_true, if_false]
    simp only [fracTest, h4n, h4d, Bool.and_eq_true, Bool.or_eq_true, decide_eq_true_eq] at hf
    refine ⟨hfi, hf.1.1, hf.1.2, ?_⟩
    rcases hf.2 with (h | h) | h <;> omega
  · simp only [Bool.not_eq_true] at hf
    simp only [hf, Bool.not_false, if_true]
    unfold SelectedCaseValid
    rw [h4n, h4d]
    decide

/-- In every iteration the selected case is valid: for any arrays `numer`, `denom` with
`numer[4] = denom[4] = 1`. -/
theorem firstIntersection_valid (numer denom : Nat → Int) (h4n : numer 4 = 1)
    (h4d : denom 4 = 1) :
    SelectedCaseValid numer denom (firstIntersection numer denom) := by
  have hsplit : firstIntersection numer denom =
      selectFirst numer denom [4] (selectFirst numer denom [0, 1, 2, 3] 0) := by
    simp only [firstIntersection, selectFirst, List.foldl_cons, List.foldl_nil]
  rw [hsplit]
  apply selectFirst_last numer denom h4n h4d
  apply selectFirst_lt numer denom [0, 1, 2, 3] 0 (by decide)
  intro t ht
  simp only [List.mem_cons, List.mem_singleton, List.not_mem_nil, or_false] at ht
  omega

/-- A value returned as `(int64_t)tMax * numer / denom` for a valid case is at most `tMax`. -/
theorem lineReturn_le (tMax : Nat) (numer denom : Int) (htMax : tMax < 2 ^ 32)
    (hd : 0 < denom) (hn : 0 ≤ numer) (hnd : numer ≤ denom) :
    lineReturn tMax numer denom ≤ tMax := by
  unfold lineReturn
  have hprod : 0 ≤ (tMax : Int) * numer := mul_nonneg (Int.natCast_nonneg _) hn
  rw [Int.tdiv_eq_ediv hprod (le_of_lt hd)]
  have h0 : 0 ≤ (tMax : Int) * numer / denom := Int.ediv_nonneg hprod (le_of_lt hd)
  have hle : (tMax : Int) * numer / denom ≤ tMax := by
    apply Int.ediv_le_of_le_mul hd
    exact mul_le_mul_of_nonneg_left hnd (Int.natCast_nonneg _)
  omega

/-- One iteration returns `UINT32_MAX` or a value that is at most `tMax`, or goes on. -/
theorem map_LineIntersect_step_ret (c : MapConsts) (mapWidth mapHeight : Int)
    (surface : Int → Int → Int) (tMax : Nat) (st : LineState) (v : Nat)
    (htMax : tMax < 2 ^ 32)
    (h : map_LineIntersect_step c mapWidth mapHeight surface tMax st = LineStep.ret v) :
    v = UINT32_MAX ∨ v ≤ tMax := by
  have hvalid := firstIntersection_valid (lineNumer c surface st) (lineDenom c surface st)
    rfl rfl
  obtain ⟨_, hd, hn, hnd⟩ := hvalid
  have hret := lineReturn_le tMax _ _ htMax hd hn hnd
  unfold map_LineIntersect_step at h
  simp only [] at h
  generalize firstIntersection (lineNumer c surface st) (lineDenom c surface st) = fi
    at h hret
  match fi, h, hret with
  | 0, h, hret =>
    simp only [] at h
    split at h
    · simp only [LineStep.ret.injEq] at h
      rw [← h]
      exact Or.inr hret
    · exact absurd h (by simp)
  | 1, h, _ => exact absurd h (by simp)
  | 2, h, _ => exact absurd h (by simp)
  | 3, h, hret =>
    simp only [LineStep.ret.injEq] at h
    rw [← h]
    exact Or.inr hret
  | 4, h, _ =>
    simp only [LineStep.ret.injEq] at h
    exact Or.inl h.symm
  | _ + 5, h, _ => exact absurd h (by simp)

/-- The loop of `map_LineIntersect` with no fuel left yields nothing. -/
theorem map_LineIntersect_loop_zero (c : MapConsts) (mapWidth mapHeight : Int)
    (surface : Int → Int → Int) (tMax : Nat) (st : LineState) :
    map_LineIntersect_loop c mapWidth mapHeight surface tMax 0 st = none := by
  rfl

/-- The loop of `map_LineIntersect` performs one iteration and returns its value or goes on
with the fuel left. -/
theorem map_LineIntersect_loop_succ (c : MapConsts) (mapWidth mapHeight : Int)
    (surface : Int → Int → Int) (tMax : Nat) (fuel : Nat) (st : LineState) :
    map_LineIntersect_loop c mapWidth mapHeight surface tMax (fuel + 1) st =
      match map_LineIntersect_step c mapWidth mapHeight surface tMax st with
      | LineStep.ret v => some v
      | LineStep.next st1 =>
        map_LineIntersect_loop c mapWidth mapHeight surface tMax fuel st1 := by
  rfl

/-- Every value the loop of `map_LineIntersect` returns is `UINT32_MAX` or at most `tMax`. -/
theorem map_LineIntersect_loop_ret (c : MapConsts) (mapWidth mapHeight : Int)
    (surface : Int → Int → Int) (tMax : Nat) (htMax : tMax < 2 ^ 32) (fuel : Nat) :
    ∀ (st : LineState) (v : Nat),
      map_LineIntersect_loop c mapWidth mapHeight surface tMax fuel st = some v →
      v = UINT32_MAX ∨ v ≤ tMax := by
  induction fuel with
  | zero =>
    intro st v h
    rw [map_LineIntersect_loop_zero] at h
    exact absurd h (by simp)
  | succ n ih =>
    intro st v h
    rw [map_LineIntersect_loop_succ] at h
    split at h
    · rename_i v1 hstep
      simp only [Option.some.injEq] at h
      rw [← h]
      exact map_LineIntersect_step_ret c mapWidth mapHeight surface tMax st v1 htMax hstep
    · exact ih _ _ h

/-- C25: in every iteration of `map_LineIntersect` the selected case has a strictly positive
denominator, a non-negative numerator and a numerator at most the denominator, so the
divisions by `denom[firstIntersection]` never divide by zero; and every value the function
returns, for `tMax` an `unsigned` value, is `UINT32_MAX` or at most `tMax`. -/
theorem map_LineIntersect_safe (c : MapConsts) (mapWidth mapHeight : Int)
    (surface : Int → Int → Int) (fuel : Nat) (src dst : Vector3i) (tMax v : Nat)
    (htMax : tMax < 2 ^ 32)
    (hret : map_LineIntersect c mapWidth mapHeight surface fuel src dst tMax = some v) :
    (∀ st : LineState, SelectedCaseValid (lineNumer c surface st) (lineDenom c surface st)
      (firstIntersection (lineNumer c surface st) (lineDenom c surface st))) ∧
    (v = UINT32_MAX ∨ v ≤ tMax) :=
  ⟨fun _ => firstIntersection_valid _ _ rfl rfl,
    map_LineIntersect_loop_ret c mapWidth mapHeight surface tMax htMax fuel _ v hret⟩

/-- Witness of C25: over flat terrain of height `0` on a four-by-four map, the segment from
`(64, 70, 100)` to `(200, 90, -100)` with `tMax = 1000` meets the terrain half way and the
function returns `500`. -/
theorem map_LineIntersect_safe_witness :
    (1000 : Nat) < 2 ^ 32 ∧
    map_LineIntersect wzConsts 4 4 (fun _ _ => 0) 50 ⟨64, 70, 100⟩ ⟨200, 90, -100⟩ 1000
      = some 500 ∧
    ((∀ st : LineState,
      SelectedCaseValid (lineNumer wzConsts (fun _ _ => 0) st)
        (lineDenom wzConsts (fun _ _ => 0) st)
        (firstIntersection (lineNumer wzConsts (fun _ _ => 0) st)
          (lineDenom wzConsts (fun _ _ => 0) st))) ∧
    (500 = UINT32_MAX ∨ 500 ≤ 1000)) :=
  ⟨by decide, by decide,
    map_LineIntersect_safe wzConsts 4 4 (fun _ _ => 0) 50 ⟨64, 70, 100⟩ ⟨200, 90, -100⟩ 1000 500
      (by decide) (by decide)⟩

/-- Evaluation of `map_LineIntersect`: a segment that ends above the terrain returns
`UINT32_MAX`, one that leaves the map through its edge returns the fraction of `tMax` at
the edge. -/
theorem map_LineIntersect_demo :
    map_LineIntersect wzConsts 4 4 (fun _ _ => 0) 50 ⟨64, 70, 100⟩ ⟨200, 90, 50⟩ 1000
      = some UINT32_MAX ∧
    map_LineIntersect wzConsts 4 4 (fun _ _ => 0) 50 ⟨64, 70, 100⟩ ⟨-200, 90, 50⟩ 1000
      = some 242 := by
  decide


/-! ### `src/map.cpp`: loading and saving a map -/

theorem foldl_invariant {σ ι : Type} (f : σ → ι → σ) (P : σ → Prop) (l : List ι)
    (h : ∀ k ∈ l, ∀ s, P s → P (f s k)) (s : σ) (hs : P s) : P (l.foldl f s) := by
  induction l generalizing s with
  | nil => exact hs
  | cons a l ih =>
    rw [List.foldl_cons]
    exact ih (fun k hk => h k (List.mem_cons_of_mem a hk)) _
      (h a (List.mem_cons_self a l) s hs)

theorem foldl_post {σ ι : Type} (f : σ → ι → σ) (Inv : σ → Prop) (Q : ι → σ → Prop)
    (l : List ι)
    (hinv : ∀ k ∈ l, ∀ s, Inv s → Inv (f s k))
    (hpres : ∀ k ∈ l, ∀ j s, Inv s → Q j s → Q j (f s k))
    (hest : ∀ k ∈ l, ∀ s, Inv s → Q k (f s k)) :
    ∀ s, Inv s → ∀ k ∈ l, Q k (l.foldl f s) := by
  induction l with
  | nil => intro s _ k hk; cases hk
  | cons a l ih =>
    intro s hs k hk
    rw [List.foldl_cons]
    have hinv1 : ∀ k ∈ l, ∀ s, Inv s → Inv (f s k) :=
      fun k hk => hinv k (List.mem_cons_of_mem a hk)
    have hpres1 : ∀ k ∈ l, ∀ j s, Inv s → Q j s → Q j (f s k) :=
      fun k hk => hpres k (List.mem_cons_of_mem a hk)
    have hsa : Inv (f s a) := hinv a (List.mem_cons_self a l) s hs
    rcases List.mem_cons.1 hk with rfl | hkl
    · have := foldl_invariant f (fun s => Inv s ∧ Q k s) l
        (fun j hj s hs => ⟨hinv1 j hj s hs.1, hpres1 j hj k s hs.1 hs.2⟩) (f s k)
        ⟨hsa, hest k (List.mem_cons_self k l) s hs⟩
      exact this.2
    · exact ih hinv1 hpres1 (fun k hk => hest k (List.mem_cons_of_mem a hk)) _ hsa k hkl

/-- A property that every iteration of a `for` loop keeps holds after the loop. -/
theorem forLoop_invariant {σ : Type} (lo hi : Int) (body : Int → σ → σ) (P : σ → Prop)
    (h : ∀ x s, lo ≤ x → x < hi → P s → P (body x s)) (s : σ) (hs : P s) :
    P (forLoop lo hi body s) := by
  unfold forLoop
  refine foldl_invariant (fun s (k : Nat) => body (lo + (k : Int)) s) P _ ?_ s hs
  intro k hk s hs
  have hk1 := List.mem_range.1 hk
  exact h _ s (by omega) (by omega) hs

/-- A property of the loop variable that the iteration for it establishes, and that every
iteration keeps, holds after the loop for every value of the loop variable. -/
theorem forLoop_post {σ : Type} (lo hi : Int) (body : Int → σ → σ) (Inv : σ → Prop)
    (Q : Int → σ → Prop)
    (hinv : ∀ x s, lo ≤ x → x < hi → Inv s → Inv (body x s))
    (hpres : ∀ x j s, lo ≤ x → x < hi → Inv s → Q j s → Q j (body x s))
    (hest : ∀ x s, lo ≤ x → x < hi → Inv s → Q x (body x s))
    (s : σ) (hs : Inv s) (x : Int) (hlo : lo ≤ x) (hhi : x < hi) :
    Q x (forLoop lo hi body s) := by
  unfold forLoop
  have key := foldl_post (fun s (k : Nat) => body (lo + (k : Int)) s) Inv
    (fun k s => Q (lo + (k : Int)) s) (List.range (hi - lo).toNat)
    (fun k hk s hs => by
      have hk1 := List.mem_range.1 hk
      exact hinv _ s (by omega) (by omega) hs)
    (fun k hk j s hs hq => by
      have hk1 := List.mem_range.1 hk
      exact hpres _ _ s (by omega) (by omega) hs hq)
    (fun k hk s hs => by
      have hk1 := List.mem_range.1 hk
      exact hest _ s (by omega) (by omega) hs)
    s hs (x - lo).toNat (List.mem_range.2 (by omega))
  have hx : lo + (((x - lo).toNat : Nat) : Int) = x := by omega
  have key2 : Q (lo + (((x - lo).toNat : Nat) : Int)) ((List.range (hi - lo).toNat).foldl
    (fun s (k : Nat) => body (lo + (k : Int)) s) s) := key
  rw [hx] at key2
  exact key2

/-- A property that every iteration of the loops over the tiles keeps holds after them. -/
theorem forEachTile_invariant {σ : Type} (mapWidth mapHeight : Int) (body : Int → Int → σ → σ)
    (P : σ → Prop)
    (h : ∀ x y s, 0 ≤ x → x < mapWidth → 0 ≤ y → y < mapHeight → P s → P (body x y s))
    (s : σ) (hs : P s) : P (forEachTile mapWidth mapHeight body s) := by
  unfold forEachTile
  refine forLoop_invariant 0 mapHeight _ P ?_ s hs
  intro y s hy0 hy1 hs
  exact forLoop_invariant 0 mapWidth _ P (fun x s hx0 hx1 hs => h x y s hx0 hx1 hy0 hy1 hs) s hs

/-- A property of a tile that the iteration for the tile establishes, and that every
iteration keeps, holds after the loops over the tiles for every tile of the map. -/
theorem forEachTile_post {σ : Type} (mapWidth mapHeight : Int) (body : Int → Int → σ → σ)
    (Inv : σ → Prop) (Q : Int → Int → σ → Prop)
    (hinv : ∀ x y s, 0 ≤ x → x < mapWidth → 0 ≤ y → y < mapHeight → Inv s → Inv (body x y s))
    (hpres : ∀ x y i j s, 0 ≤ x → x < mapWidth → 0 ≤ y → y < mapHeight →
      Inv s → Q i j s → Q i j (body x y s))
    (hest : ∀ x y s, 0 ≤ x → x < mapWidth → 0 ≤ y → y < mapHeight → Inv s → Q x y (body x y s))
    (s : σ) (hs : Inv s) (x y : Int) (hx0 : 0 ≤ x) (hx1 : x < mapWidth) (hy0 : 0 ≤ y)
    (hy1 : y < mapHeight) : Q x y (forEachTile mapWidth mapHeight body s) := by
  unfold forEachTile
  have key := forLoop_post 0 mapHeight
    (fun y => forLoop 0 mapWidth (fun x => body x y)) Inv
    (fun y s => ∀ x, 0 ≤ x → x < mapWidth → Q x y s)
    (fun y s hy0 hy1 hs =>
      forLoop_invariant 0 mapWidth _ Inv (fun x s hx0 hx1 hs => hinv x y s hx0 hx1 hy0 hy1 hs)
        s hs)
    (fun y j s hy0 hy1 hs hq i hi0 hi1 =>
      (forLoop_invariant 0 mapWidth _ (fun s => Inv s ∧ Q i j s)
        (fun x s hx0 hx1 hs =>
          ⟨hinv x y s hx0 hx1 hy0 hy1 hs.1, hpres x y i j s hx0 hx1 hy0 hy1 hs.1 hs.2⟩)
        s ⟨hs, hq i hi0 hi1⟩).2)
    (fun y s hy0 hy1 hs x hx0 hx1 =>
      forLoop_post 0 mapWidth (fun x => body x y) Inv (fun x s => Q x y s)
        (fun x s hx0 hx1 hs => hinv x y s hx0 hx1 hy0 hy1 hs)
        (fun x j s hx0 hx1 hs hq => hpres x y j y s hx0 hx1 hy0 hy1 hs hq)
        (fun x s hx0 hx1 hs => hest x y s hx0 hx1 hy0 hy1 hs)
        s hs x hx0 hx1)
    s hs y hy0 hy1
  exact key x hx0 hx1


theorem mapSetGroundTypes_tile_keeps (env : MapEnv) (i j : Int) (st : MapState) :
    (mapSetGroundTypes_tile env i j st).mapWidth = st.mapWidth ∧
    (mapSetGroundTypes_tile env i j st).mapHeight = st.mapHeight ∧
    ∀ k, ((mapSetGroundTypes_tile env i j st).psMapTiles k).texture = (st.psMapTiles k).texture ∧
      ((mapSetGroundTypes_tile env i j st).psMapTiles k).height = (st.psMapTiles k).height := by
  unfold mapSetGroundTypes_tile
  simp only [MapState.setTile]
  split
  · refine ⟨rfl, rfl, fun k => ?_⟩
    simp only [setAt]
    by_cases hk : k = mapTile st i j
    · subst hk; simp
    · simp [hk]
  · refine ⟨rfl, rfl, fun k => ?_⟩
    simp only [setAt]
    by_cases hk : k = mapTile st i j
    · subst hk; simp
    · simp [hk]

/-- The function `mapSetGroundTypes()` keeps the size of the map and the texture and the
height of every tile. -/
theorem mapSetGroundTypes_keeps (env : MapEnv) (st : MapState) :
    (mapSetGroundTypes env st).2.mapWidth = st.mapWidth ∧
    (mapSetGroundTypes env st).2.mapHeight = st.mapHeight ∧
    ∀ k, ((mapSetGroundTypes env st).2.psMapTiles k).texture = (st.psMapTiles k).texture ∧
      ((mapSetGroundTypes env st).2.psMapTiles k).height = (st.psMapTiles k).height := by
  unfold mapSetGroundTypes
  refine forEachTile_invariant st.mapWidth st.mapHeight (mapSetGroundTypes_tile env)
    (fun s => s.mapWidth = st.mapWidth ∧ s.mapHeight = st.mapHeight ∧
      ∀ k, (s.psMapTiles k).texture = (st.psMapTiles k).texture ∧
        (s.psMapTiles k).height = (st.psMapTiles k).height) ?_ st ⟨rfl, rfl, fun _ => ⟨rfl, rfl⟩⟩
  intro x y s _ _ _ _ hs
  have h := mapSetGroundTypes_tile_keeps env x y s
  exact ⟨h.1.trans hs.1, h.2.1.trans hs.2.1,
    fun k => ⟨(h.2.2 k).1.trans (hs.2.2 k).1, (h.2.2 k).2.trans (hs.2.2 k).2⟩⟩

/-- Inside the map, `mapTile(x, y)` is the tile of index `x + y * mapWidth`. -/
theorem mapTile_inside (st : MapState) (x y : Int) (hx0 : 0 ≤ x) (hx1 : x < st.mapWidth)
    (hy0 : 0 ≤ y) (hy1 : y < st.mapHeight) : mapTile st x y = (x + y * st.mapWidth).toNat := by
  unfold mapTile
  have h1 : max x 0 = x := max_eq_left hx0
  have h2 : max y 0 = y := max_eq_left hy0
  have h3 : min x (st.mapWidth - 1) = x := min_eq_left (by omega)
  have h4 : min y (st.mapHeight - 1) = y := min_eq_left (by omega)
  simp only [h1, h2, h3, h4]

/-- The loops of `afterMapLoad()` that set `waterLevel` keep the size of the map and the
texture and the height of every tile, and give each tile of the map the water level
`height - world_coord(1) / 3`. -/
theorem afterMapLoad_waterLevel_spec (c : MapConsts) (st : MapState) :
    (forEachTile st.mapWidth st.mapHeight (afterMapLoad_waterLevel c) st).mapWidth
      = st.mapWidth ∧
    (forEachTile st.mapWidth st.mapHeight (afterMapLoad_waterLevel c) st).mapHeight
      = st.mapHeight ∧
    (∀ k, ((forEachTile st.mapWidth st.mapHeight (afterMapLoad_waterLevel c) st).psMapTiles
        k).texture = (st.psMapTiles k).texture ∧
      ((forEachTile st.mapWidth st.mapHeight (afterMapLoad_waterLevel c) st).psMapTiles
        k).height = (st.psMapTiles k).height) ∧
    ∀ x y, 0 ≤ x → x < st.mapWidth → 0 ≤ y → y < st.mapHeight →
      ((forEachTile st.mapWidth st.mapHeight (afterMapLoad_waterLevel c) st).psMapTiles
        (x + y * st.mapWidth).toNat).waterLevel
        = (st.psMapTiles (x + y * st.mapWidth).toNat).height - Int.tdiv (world_coord c 1) 3 := by
  have hkeep : ∀ x y s, (s.mapWidth = st.mapWidth ∧ s.mapHeight = st.mapHeight ∧
      ∀ k, (s.psMapTiles k).texture = (st.psMapTiles k).texture ∧
        (s.psMapTiles k).height = (st.psMapTiles k).height) →
      ((afterMapLoad_waterLevel c x y s).mapWidth = st.mapWidth ∧
        (afterMapLoad_waterLevel c x y s).mapHeight = st.mapHeight ∧
        ∀ k, ((afterMapLoad_waterLevel c x y s).psMapTiles k).texture
            = (st.psMapTiles k).texture ∧
          ((afterMapLoad_waterLevel c x y s).psMapTiles k).height
            = (st.psMapTiles k).height) := by
    intro x y s hs
    refine ⟨hs.1, hs.2.1, fun k => ?_⟩
    simp only [afterMapLoad_waterLevel, MapState.setTile, setAt]
    by_cases hk : k = mapTile s x y
    · subst hk; simpa using hs.2.2 _
    · simpa [hk] using hs.2.2 k
  have hinv := forEachTile_invariant st.mapWidth st.mapHeight (afterMapLoad_waterLevel c)
    (fun s => s.mapWidth = st.mapWidth ∧ s.mapHeight = st.mapHeight ∧
      ∀ k, (s.psMapTiles k).texture = (st.psMapTiles k).texture ∧
        (s.psMapTiles k).height = (st.psMapTiles k).height)
    (fun x y s _ _ _ _ hs => hkeep x y s hs) st ⟨rfl, rfl, fun _ => ⟨rfl, rfl⟩⟩
  refine ⟨hinv.1, hinv.2.1, hinv.2.2, ?_⟩
  intro x y hx0 hx1 hy0 hy1
  refine forEachTile_post st.mapWidth st.mapHeight (afterMapLoad_waterLevel c)
    (fun s => s.mapWidth = st.mapWidth ∧ s.mapHeight = st.mapHeight ∧
      ∀ k, (s.psMapTiles k).texture = (st.psMapTiles k).texture ∧
        (s.psMapTiles k).height = (st.psMapTiles k).height)
    (fun x y s => (s.psMapTiles (x + y * st.mapWidth).toNat).waterLevel
        = (st.psMapTiles (x + y * st.mapWidth).toNat).height - Int.tdiv (world_coord c 1) 3)
    (fun x y s _ _ _ _ hs => hkeep x y s hs) ?_ ?_ st ⟨rfl, rfl, fun _ => ⟨rfl, rfl⟩⟩
    x y hx0 hx1 hy0 hy1
  · intro x y i j s _ _ _ _ hs hq
    simp only [afterMapLoad_waterLevel, MapState.setTile, setAt]
    by_cases hk : (i + j * st.mapWidth).toNat = mapTile s x y
    · rw [if_pos hk]
      simp only
      rw [← hk, (hs.2.2 _).2]
    · rw [if_neg hk]
      exact hq
  · intro x y s hx0 hx1 hy0 hy1 hs
    have hk : mapTile s x y = (x + y * st.mapWidth).toNat := by
      rw [mapTile_inside s x y hx0 (by rw [hs.1]; exact hx1) hy0 (by rw [hs.2.1]; exact hy1),
        hs.1]
    simp only [afterMapLoad_waterLevel, MapState.setTile, setAt]
    rw [hk, if_pos rfl]
    simp only
    rw [(hs.2.2 _).2]


/-- A water vertex is on a water tile. -/
theorem isWaterVertex_terrainType (env : MapEnv) (c : MapConsts) (st : MapState) (x y : Int)
    (h : isWaterVertex env c st x y = true) :
    terrainType env st (mapTile st x y) = c.TER_WATER := by
  unfold isWaterVertex at h
  split at h
  · cases h
  · simp only [Bool.and_eq_true, beq_iff_eq] at h
    exact h.1.1.1

/-- Tiles with the same texture have the same terrain type. -/
theorem terrainType_congr (env : MapEnv) (s st : MapState) (k : Nat)
    (h : (s.psMapTiles k).texture = (st.psMapTiles k).texture) :
    terrainType env s k = terrainType env st k := by
  unfold terrainType
  rw [h]

theorem riverbedLower_keeps (env : MapEnv) (c : MapConsts) (st : MapState) (maxIdx : Int)
    (x y : Int) (s : (Nat → Int) × MapState × Nat)
    (hs : s.2.1.mapWidth = st.mapWidth ∧ s.2.1.mapHeight = st.mapHeight ∧
      ∀ k, (s.2.1.psMapTiles k).texture = (st.psMapTiles k).texture ∧
        (s.2.1.psMapTiles k).waterLevel = (st.psMapTiles k).waterLevel ∧
        (terrainType env st k ≠ c.TER_WATER →
          (s.2.1.psMapTiles k).height = (st.psMapTiles k).height)) :
    (riverbedLower env c maxIdx x y s).2.1.mapWidth = st.mapWidth ∧
    (riverbedLower env c maxIdx x y s).2.1.mapHeight = st.mapHeight ∧
    ∀ k, ((riverbedLower env c maxIdx x y s).2.1.psMapTiles k).texture
        = (st.psMapTiles k).texture ∧
      ((riverbedLower env c maxIdx x y s).2.1.psMapTiles k).waterLevel
        = (st.psMapTiles k).waterLevel ∧
      (terrainType env st k ≠ c.TER_WATER →
        ((riverbedLower env c maxIdx x y s).2.1.psMapTiles k).height
          = (st.psMapTiles k).height) := by
  unfold riverbedLower
  by_cases hw : isWaterVertex env c s.2.1 x y = true
  · simp only [hw, if_true, MapState.setTile]
    refine ⟨hs.1, hs.2.1, fun k => ?_⟩
    simp only [setAt]
    by_cases hk : k = mapTile s.2.1 x y
    · rw [if_pos hk]
      subst hk
      refine ⟨(hs.2.2 _).1, (hs.2.2 _).2.1, fun hne => absurd ?_ hne⟩
      rw [← terrainType_congr env s.2.1 st _ (hs.2.2 _).1]
      exact isWaterVertex_terrainType env c s.2.1 x y hw
    · rw [if_neg hk]
      exact hs.2.2 k
  · simp only [hw]
    exact hs

/-- The function `generateRiverbed()` keeps the size of the map and the texture and the water
level of every tile, and the height of every tile that is not water. -/
theorem generateRiverbed_run_keeps (env : MapEnv) (c : MapConsts) (st : MapState) :
    (generateRiverbed_run env c st).mapWidth = st.mapWidth ∧
    (generateRiverbed_run env c st).mapHeight = st.mapHeight ∧
    ∀ k, ((generateRiverbed_run env c st).psMapTiles k).texture = (st.psMapTiles k).texture ∧
      ((generateRiverbed_run env c st).psMapTiles k).waterLevel
        = (st.psMapTiles k).waterLevel ∧
      (terrainType env st k ≠ c.TER_WATER →
        ((generateRiverbed_run env c st).psMapTiles k).height = (st.psMapTiles k).height) := by
  unfold generateRiverbed_run
  simp only
  split
  · exact ⟨rfl, rfl, fun _ => ⟨rfl, rfl, fun _ => rfl⟩⟩
  · exact forEachTile_invariant st.mapWidth st.mapHeight (riverbedLower env c _)
      (fun s => s.2.1.mapWidth = st.mapWidth ∧ s.2.1.mapHeight = st.mapHeight ∧
        ∀ k, (s.2.1.psMapTiles k).texture = (st.psMapTiles k).texture ∧
          (s.2.1.psMapTiles k).waterLevel = (st.psMapTiles k).waterLevel ∧
          (terrainType env st k ≠ c.TER_WATER →
            (s.2.1.psMapTiles k).height = (st.psMapTiles k).height))
      (fun x y s _ _ _ _ hs => riverbedLower_keeps env c st _ x y s hs) _
      ⟨rfl, rfl, fun _ => ⟨rfl, rfl, fun _ => rfl⟩⟩

theorem auxSetBlocking_keeps (st : MapState) (x y : Int) (state : Nat) :
    (auxSetBlocking st x y state).mapWidth = st.mapWidth ∧
    (auxSetBlocking st x y state).mapHeight = st.mapHeight ∧
    (auxSetBlocking st x y state).psMapTiles = st.psMapTiles :=
  ⟨rfl, rfl, rfl⟩

theorem auxClearBlocking_keeps (st : MapState) (x y : Int) (state : Nat) :
    (auxClearBlocking st x y state).mapWidth = st.mapWidth ∧
    (auxClearBlocking st x y state).mapHeight = st.mapHeight ∧
    (auxClearBlocking st x y state).psMapTiles = st.psMapTiles :=
  ⟨rfl, rfl, rfl⟩

/-- Setting the blocking bits of a tile keeps the size of the map and the tiles. -/
theorem afterMapLoad_blocking_keeps (env : MapEnv) (c : MapConsts) (x y : Int)
    (st : MapState) :
    (afterMapLoad_blocking env c x y st).mapWidth = st.mapWidth ∧
    (afterMapLoad_blocking env c x y st).mapHeight = st.mapHeight ∧
    (afterMapLoad_blocking env c x y st).psMapTiles = st.psMapTiles := by
  unfold afterMapLoad_blocking
  simp only
  split_ifs <;> exact ⟨rfl, rfl, rfl⟩


theorem generateRiverbed_keeps (env : MapEnv) (c : MapConsts) (assertHalts : Bool)
    (st st3 : MapState) (h : generateRiverbed env c assertHalts st = Outcome.returned st3) :
    st3.mapWidth = st.mapWidth ∧ st3.mapHeight = st.mapHeight ∧
    ∀ k, (st3.psMapTiles k).texture = (st.psMapTiles k).texture ∧
      (st3.psMapTiles k).waterLevel = (st.psMapTiles k).waterLevel ∧
      (terrainType env st k ≠ c.TER_WATER →
        (st3.psMapTiles k).height = (st.psMapTiles k).height) := by
  unfold generateRiverbed at h
  split at h
  · cases h
    exact generateRiverbed_run_keeps env c st
  · split at h
    · cases h
    · cases h
      exact ⟨rfl, rfl, fun _ => ⟨rfl, rfl, fun _ => rfl⟩⟩

/-- Inside the map, different tiles have different indices. -/
theorem tileIndex_injective (w x y i j : Int) (hx0 : 0 ≤ x) (hx1 : x < w) (hy0 : 0 ≤ y)
    (hi0 : 0 ≤ i) (hi1 : i < w) (hj0 : 0 ≤ j)
    (h : (x + y * w).toNat = (i + j * w).toNat) : x = i ∧ y = j := by
  have hw : 0 < w := lt_of_le_of_lt hx0 hx1
  have h1 : 0 ≤ x + y * w := add_nonneg hx0 (mul_nonneg hy0 hw.le)
  have h2 : 0 ≤ i + j * w := add_nonneg hi0 (mul_nonneg hj0 hw.le)
  have e : x + y * w = i + j * w := by
    have e1 := congrArg (fun n : Nat => (n : Int)) h
    simp only [Int.toNat_of_nonneg h1, Int.toNat_of_nonneg h2] at e1
    exact e1
  have ex : x = i := by
    have m1 : (x + y * w) % w = x := by
      rw [Int.add_mul_emod_self]
      exact Int.emod_eq_of_lt hx0 hx1
    have m2 : (i + j * w) % w = i := by
      rw [Int.add_mul_emod_self]
      exact Int.emod_eq_of_lt hi0 hi1
    rw [← m1, ← m2, e]
  refine ⟨ex, ?_⟩
  rw [ex] at e
  have e3 : y * w = j * w := by linarith
  exact mul_right_cancel₀ (ne_of_gt hw) e3

/-- Setting the blocking bits of the tile `(x, y)` leaves the entries of the other tiles. -/
theorem afterMapLoad_blocking_other (env : MapEnv) (c : MapConsts) (x y : Int) (s : MapState)
    (k : Nat) (hk : k ≠ (x + y * s.mapWidth).toNat) :
    (afterMapLoad_blocking env c x y s).psBlockMap k = s.psBlockMap k := by
  unfold afterMapLoad_blocking
  simp only
  split_ifs <;> simp [auxSetBlocking, auxClearBlocking, setAt, hk]

/-- Setting the blocking bits of a tile `(x, y)` with `1 ≤ x` and `1 ≤ y` inside the map, the
last column and the last row included, that is neither water nor a cliff face gives its entry
the value `LAND_BLOCKED`. -/
theorem afterMapLoad_blocking_land (env : MapEnv) (c : MapConsts) (x y : Int) (s : MapState)
    (hall : c.AUXBITS_ALL % 256 = 255)
    (hx : 1 ≤ x) (hxw : x < s.mapWidth) (hy : 1 ≤ y) (hyh : y < s.mapHeight)
    (hland : terrainType env s (x + y * s.mapWidth).toNat ≠ c.TER_WATER)
    (hcliff : terrainType env s (x + y * s.mapWidth).toNat ≠ c.TER_CLIFFFACE) :
    (afterMapLoad_blocking env c x y s).psBlockMap (x + y * s.mapWidth).toNat
      = c.LAND_BLOCKED % 256 := by
  have hk := mapTile_inside s x y (by omega) hxw (by omega) hyh
  have hcond : ¬ (x < 1 ∨ y < 1 ∨ x > s.mapWidth - 1 ∨ y > s.mapHeight - 1) := by omega
  unfold afterMapLoad_blocking
  simp only [hk]
  have e1 : (auxClearBlocking s x y c.AUXBITS_ALL).mapWidth = s.mapWidth := rfl
  have e2 : (auxClearBlocking s x y c.AUXBITS_ALL).mapHeight = s.mapHeight := rfl
  rw [e1, e2, if_neg hcond]
  have t1 : terrainType env (auxClearBlocking s x y c.AUXBITS_ALL) (x + y * s.mapWidth).toNat
      = terrainType env s (x + y * s.mapWidth).toNat := rfl
  have b1 : ¬ (terrainType env (auxClearBlocking s x y c.AUXBITS_ALL)
      (x + y * s.mapWidth).toNat == c.TER_WATER) = true := by
    rw [t1]
    exact fun hb => hland (beq_iff_eq.1 hb)
  rw [if_neg b1]
  have t2 : terrainType env
      (auxSetBlocking (auxClearBlocking s x y c.AUXBITS_ALL) x y c.LAND_BLOCKED)
      (x + y * s.mapWidth).toNat = terrainType env s (x + y * s.mapWidth).toNat := rfl
  have b2 : ¬ (terrainType env
      (auxSetBlocking (auxClearBlocking s x y c.AUXBITS_ALL) x y c.LAND_BLOCKED)
      (x + y * s.mapWidth).toNat == c.TER_CLIFFFACE) = true := by
    rw [t2]
    exact fun hb => hcliff (beq_iff_eq.1 hb)
  rw [if_neg b2]
  simp [auxSetBlocking, auxClearBlocking, setAt, hall]


/-- The loops of `afterMapLoad()` that set the blocking bits give every tile `(x, y)` with
`1 ≤ x` and `1 ≤ y` inside the map that is neither water nor a cliff face the value
`LAND_BLOCKED`. -/
theorem afterMapLoad_blocking_loop_land (env : MapEnv) (c : MapConsts) (s0 : MapState)
    (hall : c.AUXBITS_ALL % 256 = 255) (x y : Int)
    (hx : 1 ≤ x) (hxw : x < s0.mapWidth) (hy : 1 ≤ y) (hyh : y < s0.mapHeight)
    (hland : terrainType env s0 (x + y * s0.mapWidth).toNat ≠ c.TER_WATER)
    (hcliff : terrainType env s0 (x + y * s0.mapWidth).toNat ≠ c.TER_CLIFFFACE) :
    (forEachTile s0.mapWidth s0.mapHeight (afterMapLoad_blocking env c) s0).psBlockMap
      (x + y * s0.mapWidth).toNat = c.LAND_BLOCKED % 256 := by
  have hinv : ∀ x y s, (s.mapWidth = s0.mapWidth ∧ s.mapHeight = s0.mapHeight ∧
      s.psMapTiles = s0.psMapTiles) →
      ((afterMapLoad_blocking env c x y s).mapWidth = s0.mapWidth ∧
        (afterMapLoad_blocking env c x y s).mapHeight = s0.mapHeight ∧
        (afterMapLoad_blocking env c x y s).psMapTiles = s0.psMapTiles) := by
    intro x y s hs
    have hb := afterMapLoad_blocking_keeps env c x y s
    exact ⟨hb.1.trans hs.1, hb.2.1.trans hs.2.1, hb.2.2.trans hs.2.2⟩
  have hvisit : ∀ x y s, (s.mapWidth = s0.mapWidth ∧ s.mapHeight = s0.mapHeight ∧
      s.psMapTiles = s0.psMapTiles) →
      (1 ≤ x ∧ x < s0.mapWidth ∧ 1 ≤ y ∧ y < s0.mapHeight ∧
        terrainType env s0 (x + y * s0.mapWidth).toNat ≠ c.TER_WATER ∧
        terrainType env s0 (x + y * s0.mapWidth).toNat ≠ c.TER_CLIFFFACE) →
      (afterMapLoad_blocking env c x y s).psBlockMap (x + y * s0.mapWidth).toNat
        = c.LAND_BLOCKED % 256 := by
    intro x y s hs hc
    have ht : ∀ k, terrainType env s k = terrainType env s0 k := fun k => by
      unfold terrainType
      rw [hs.2.2]
    have := afterMapLoad_blocking_land env c x y s hall hc.1 (by rw [hs.1]; exact hc.2.1)
      hc.2.2.1 (by rw [hs.2.1]; exact hc.2.2.2.1)
      (by rw [ht, hs.1]; exact hc.2.2.2.2.1) (by rw [ht, hs.1]; exact hc.2.2.2.2.2)
    rw [hs.1] at this
    exact this
  exact forEachTile_post s0.mapWidth s0.mapHeight (afterMapLoad_blocking env c)
    (fun s => s.mapWidth = s0.mapWidth ∧ s.mapHeight = s0.mapHeight ∧
      s.psMapTiles = s0.psMapTiles)
    (fun i j s => (1 ≤ i ∧ i < s0.mapWidth ∧ 1 ≤ j ∧ j < s0.mapHeight ∧
        terrainType env s0 (i + j * s0.mapWidth).toNat ≠ c.TER_WATER ∧
        terrainType env s0 (i + j * s0.mapWidth).toNat ≠ c.TER_CLIFFFACE) →
      s.psBlockMap (i + j * s0.mapWidth).toNat = c.LAND_BLOCKED % 256)
    (fun x y s _ _ _ _ hs => hinv x y s hs)
    (fun x y i j s hx0 hx1 hy0 _ hs hq hc => by
      by_cases hk : (i + j * s0.mapWidth).toNat = (x + y * s.mapWidth).toNat
      · rw [hs.1] at hk
        have hij := tileIndex_injective s0.mapWidth i j x y (by omega) hc.2.1 (by omega) hx0
          hx1 hy0 hk
        rw [hij.1, hij.2] at hc ⊢
        exact hvisit x y s hs hc
      · rw [afterMapLoad_blocking_other env c x y s _ hk]
        exact hq hc)
    (fun x y s _ _ _ _ hs hc => hvisit x y s hs hc)
    s0 ⟨rfl, rfl, rfl⟩ x y (by omega) hxw (by omega) hyh ⟨hx, hxw, hy, hyh, hland, hcliff⟩

/-- When `afterMapLoad()` returns, every tile `(x, y)` with `1 ≤ x` and `1 ≤ y` inside the
map that is neither water nor a cliff face has the blocking value `LAND_BLOCKED`: this
includes the tiles of the last column, `x = mapWidth - 1`, and of the last row,
`y = mapHeight - 1`. -/
theorem afterMapLoad_land_blocking (env : MapEnv) (c : MapConsts) (assertHalts : Bool)
    (st : MapState) (b : Bool) (st1 : MapState) (hall : c.AUXBITS_ALL % 256 = 255)
    (h : afterMapLoad env c assertHalts st = Outcome.returned (b, st1)) (x y : Int)
    (hx : 1 ≤ x) (hxw : x < st.mapWidth) (hy : 1 ≤ y) (hyh : y < st.mapHeight)
    (hland : terrainType env st (x + y * st.mapWidth).toNat ≠ c.TER_WATER)
    (hcliff : terrainType env st (x + y * st.mapWidth).toNat ≠ c.TER_CLIFFFACE) :
    st1.psBlockMap (x + y * st.mapWidth).toNat = c.LAND_BLOCKED % 256 := by
  unfold afterMapLoad at h
  have hg := mapSetGroundTypes_keeps env st
  have htrue : (mapSetGroundTypes env st).1 = true := rfl
  simp only [htrue, Bool.not_true, Bool.false_eq_true, if_false] at h
  have hw := afterMapLoad_waterLevel_spec c (mapSetGroundTypes env st).2
  unfold afterMapLoad_rest at h
  split at h
  · rename_i st3 hgen
    have h3 := generateRiverbed_keeps env c assertHalts _ st3 hgen
    simp only at h
    split at h
    · cases h
    · cases h
      have hW : st3.mapWidth = st.mapWidth := (h3.1.trans hw.1).trans hg.1
      have hH : st3.mapHeight = st.mapHeight := (h3.2.1.trans hw.2.1).trans hg.2.1
      have ht : ∀ k, terrainType env st3 k = terrainType env st k := fun k =>
        terrainType_congr env st3 st k
          (((h3.2.2 k).1.trans (hw.2.2.1 k).1).trans (hg.2.2 k).1)
      have key := afterMapLoad_blocking_loop_land env c
        { st3 with scrollMinX := 0, scrollMinY := 0, scrollMaxX := st3.mapWidth,
                    scrollMaxY := st3.mapHeight, psBlockMap := fun _ => 0 }
        hall x y hx (by rw [← hW] at hxw; exact hxw) hy (by rw [← hH] at hyh; exact hyh)
        (by
          have e : terrainType env st3 (x + y * st3.mapWidth).toNat ≠ c.TER_WATER := by
            rw [ht, hW]; exact hland
          exact e)
        (by
          have e : terrainType env st3 (x + y * st3.mapWidth).toNat ≠ c.TER_CLIFFFACE := by
            rw [ht, hW]; exact hcliff
          exact e)
      have key2 : (forEachTile st3.mapWidth st3.mapHeight (afterMapLoad_blocking env c)
          { st3 with scrollMinX := 0, scrollMinY := 0, scrollMaxX := st3.mapWidth,
                      scrollMaxY := st3.mapHeight, psBlockMap := fun _ => 0 }).psBlockMap
          (x + y * st3.mapWidth).toNat = c.LAND_BLOCKED % 256 := key
      have e : (x + y * st.mapWidth).toNat = (x + y * st3.mapWidth).toNat := by rw [hW]
      rw [e]
      exact key2
  · cases h
  · cases h


/-! The evaluations below unfold the loops over a whole map. -/

set_option maxRecDepth 100000

/-- C22 (refuted by the code): on a 3 by 3 map of land, `afterMapLoad()` returns `true` and
leaves the border tile `(2, 1)`, of the last column `x = mapWidth - 1`, with the blocking
value `LAND_BLOCKED = 0x08`, which lacks bits of `AUXBITS_ALL = 0xff`; so do the border tiles
`(1, 2)` and `(2, 2)` of the last row. The border tiles `(0, 1)` and `(1, 0)` of the first
column and row have every bit of `AUXBITS_ALL`. -/
theorem afterMapLoad_last_column_not_blocked :
    blockingAfterMapLoad demoMapEnv wzConsts true landState 2 1 = some wzConsts.LAND_BLOCKED ∧
    wzConsts.LAND_BLOCKED &&& wzConsts.AUXBITS_ALL ≠ wzConsts.AUXBITS_ALL ∧
    blockingAfterMapLoad demoMapEnv wzConsts true landState 1 2 = some wzConsts.LAND_BLOCKED ∧
    blockingAfterMapLoad demoMapEnv wzConsts true landState 2 2 = some wzConsts.LAND_BLOCKED ∧
    blockingAfterMapLoad demoMapEnv wzConsts true landState 0 1 = some wzConsts.AUXBITS_ALL ∧
    blockingAfterMapLoad demoMapEnv wzConsts true landState 1 0 = some wzConsts.AUXBITS_ALL := by
  decide

/-- On the map `lakeMap`, riverbed generation lowers the stored height of the water tile
`(1, 1)` from 100 to -400, while its water level is 58; the saved height is 100. -/
theorem lakeMap_riverbed_demo :
    ((loadedState true lakeMap).psMapTiles 4).height = -400 ∧
    ((loadedState true lakeMap).psMapTiles 4).waterLevel = 58 ∧
    (mapSaveToWzMapData_tile demoMapEnv wzConsts (loadedState true lakeMap) 4).height = 100 := by
  decide


end WZ
